import Mathlib

/-!
# Pan/zoom controller of the notes wall (`src/pannable.js`)

A shallow embedding of the class `PannableNotesWall` and of the JavaScript
number operations it uses.

Numbers.  A JavaScript number is modelled by `JSNum`: a rational (a finite
double, taken exactly: rounding and overflow of finite results are not
modelled, and the two zeros are identified), `+Infinity`, `-Infinity` or `NaN`.
The arithmetic operators, `Math.min`, `Math.max`, `===`, `<`, `<=` and
truthiness follow ECMAScript on these four kinds of value, so that a division
by zero produces an infinity or `NaN` exactly where the code does.  What is
proved on `JSNum` is what the comparisons, the clamps and the control flow do,
with each computed value given by the expression the code computes it with.
Where rounding decides a property, the numbers are `JSDouble` (section
"Double precision"): doubles with correctly rounded operations, on which the
same methods are evaluated.

DOM.  Each method reads the geometry of the wall and of the canvas from the
DOM when it runs; the reading is passed in as a `Dom` value, one per call, so
a sequence of calls may see the geometry change.  The two style properties the
controller writes are fields of the model.

Events.  The coordinates and the wheel delta an event carries are finite and
are rationals; the scale of a gesture event is any `JSNum`.  The call
`e.preventDefault()` acts on the event, not on the controller, and is left out.
`Math.sqrt` is a parameter `sqrt : ℚ → ℚ` of the methods that use it, and
`Math.pow(x, 2)` is `x ^ 2`.
-/

set_option autoImplicit false

/-- A JavaScript number: a finite value, one of the two infinities, or NaN. -/
inductive JSNum where
  | fin (q : ℚ)
  | posInf
  | negInf
  | nan
deriving DecidableEq

namespace JSNum

/-- Unary minus. -/
def neg : JSNum → JSNum
  | fin q => fin (-q)
  | posInf => negInf
  | negInf => posInf
  | nan => nan

/-- The product of an infinity by the finite value `q`, as its sign decides:
`Infinity * 0` is NaN. -/
def infTimes (q : ℚ) : JSNum :=
  if q = 0 then nan else if 0 < q then posInf else negInf

/-- The operator `+`. -/
def add : JSNum → JSNum → JSNum
  | fin a, fin b => fin (a + b)
  | nan, _ => nan
  | _, nan => nan
  | posInf, negInf => nan
  | negInf, posInf => nan
  | posInf, _ => posInf
  | negInf, _ => negInf
  | fin _, posInf => posInf
  | fin _, negInf => negInf

/-- The operator `-`. -/
def sub (a b : JSNum) : JSNum := add a (neg b)

/-- The operator `*`. -/
def mul : JSNum → JSNum → JSNum
  | fin a, fin b => fin (a * b)
  | nan, _ => nan
  | _, nan => nan
  | posInf, posInf => posInf
  | posInf, negInf => negInf
  | negInf, posInf => negInf
  | negInf, negInf => posInf
  | posInf, fin b => infTimes b
  | negInf, fin b => infTimes (-b)
  | fin a, posInf => infTimes a
  | fin a, negInf => infTimes (-a)

/-- The operator `/`.  A finite non-zero value divided by zero is an infinity
of the sign of the dividend, and `0 / 0` is NaN. -/
def div : JSNum → JSNum → JSNum
  | nan, _ => nan
  | _, nan => nan
  | fin a, fin b => if b = 0 then infTimes a else fin (a / b)
  | fin _, posInf => fin 0
  | fin _, negInf => fin 0
  | posInf, fin b => if 0 ≤ b then posInf else negInf
  | negInf, fin b => if 0 ≤ b then negInf else posInf
  | posInf, posInf => nan
  | posInf, negInf => nan
  | negInf, posInf => nan
  | negInf, negInf => nan

instance : Neg JSNum := ⟨neg⟩
instance : Add JSNum := ⟨add⟩
instance : Sub JSNum := ⟨sub⟩
instance : Mul JSNum := ⟨mul⟩
instance : Div JSNum := ⟨div⟩

/-- The comparison `a < b`: false as soon as one side is NaN. -/
def lt : JSNum → JSNum → Bool
  | nan, _ => false
  | _, nan => false
  | fin a, fin b => decide (a < b)
  | _, negInf => false
  | posInf, _ => false
  | negInf, _ => true
  | fin _, posInf => true

/-- The comparison `a <= b`: false as soon as one side is NaN. -/
def le : JSNum → JSNum → Bool
  | nan, _ => false
  | _, nan => false
  | fin a, fin b => decide (a ≤ b)
  | negInf, _ => true
  | _, posInf => true
  | posInf, _ => false
  | fin _, negInf => false

/-- The comparison `a === b` on numbers: NaN is equal to nothing. -/
def strictEq : JSNum → JSNum → Bool
  | nan, _ => false
  | _, nan => false
  | a, b => decide (a = b)

/-- Truthiness of a number: `0` and NaN are falsy. -/
def truthy : JSNum → Bool
  | fin q => decide (q ≠ 0)
  | nan => false
  | _ => true

/-- The function `Math.min(a, b)`: NaN if either argument is NaN. -/
def jsMin : JSNum → JSNum → JSNum
  | nan, _ => nan
  | _, nan => nan
  | a, b => if lt b a then b else a

/-- The function `Math.max(a, b)`: NaN if either argument is NaN. -/
def jsMax : JSNum → JSNum → JSNum
  | nan, _ => nan
  | _, nan => nan
  | a, b => if lt a b then b else a

/-- A finite value (neither an infinity nor NaN). -/
def isFinite : JSNum → Bool
  | fin _ => true
  | _ => false

end JSNum

/-! ## The data model -/

/-- One reading of the DOM geometry: `notesWall.getBoundingClientRect()`
(`rectLeft`, `rectTop`, `rectWidth`, `rectHeight`) and the natural size of the
canvas (`notesCanvas.offsetWidth`, `notesCanvas.offsetHeight`).  The DOM
reports finite numbers. -/
structure Dom where
  rectLeft : ℚ
  rectTop : ℚ
  rectWidth : ℚ
  rectHeight : ℚ
  offsetWidth : ℚ
  offsetHeight : ℚ
deriving DecidableEq

/-- The object `this.state` (interface `PanState`). -/
structure PanState where
  isPanning : Bool
  startX : JSNum
  startY : JSNum
  currentX : JSNum
  currentY : JSNum
  offsetX : JSNum
  offsetY : JSNum
  scale : JSNum
deriving DecidableEq

/-- The object `this.constraints` (interface `PanConstraints`). -/
structure PanConstraints where
  minX : JSNum
  maxX : JSNum
  minY : JSNum
  maxY : JSNum
  minScale : JSNum
  maxScale : JSNum
deriving DecidableEq

/-- The object `this.pinchData` when it is not `null`. -/
structure PinchData where
  initialDistance : JSNum
  initialScale : JSNum
deriving DecidableEq

/-- The values interpolated into `notesCanvas.style.transform`, which is the
template string `translate(${x}px, ${y}px) scale(${scale})`. -/
structure Transform where
  x : JSNum
  y : JSNum
  scale : JSNum
deriving DecidableEq

/-- The fields of a mouse event, or of the object built from a touch, that
`startPan` and `doPan` read (interface `TouchEventLike`).  The two flags are
the results of `target.classList.contains('note')` and of
`target.closest('.note')` being non-null. -/
structure TouchEventLike where
  clientX : ℚ
  clientY : ℚ
  targetHasNoteClass : Bool
  targetClosestNote : Bool
deriving DecidableEq

/-- The fields of a wheel event that `handleWheel` reads. -/
structure WheelEventData where
  deltaY : ℚ
  clientX : ℚ
  clientY : ℚ
deriving DecidableEq

/-- One entry of `e.touches`. -/
structure Touch where
  clientX : ℚ
  clientY : ℚ
deriving DecidableEq

/-- The fields of a touch event that the handlers read: the list `e.touches`
and the two tests on `e.target` (see `TouchEventLike`). -/
structure TouchEventData where
  touches : List Touch
  targetHasNoteClass : Bool
  targetClosestNote : Bool
deriving DecidableEq

/-- The field of a Safari gesture event that `handleGesture` reads. -/
structure GestureEventData where
  scale : JSNum
deriving DecidableEq

/-- An instance of the class `PannableNotesWall`: its three fields, and the two
style properties it writes (`notesCanvas.style.transform` and
`notesWall.style.cursor`), each `none` until the controller first writes it. -/
structure PannableNotesWall where
  state : PanState
  constraints : PanConstraints
  pinchData : Option PinchData
  transform : Option Transform
  cursor : Option String
deriving DecidableEq

namespace PannableNotesWall

open JSNum

/-! ## The methods -/

/-- Method `constrainValue`: `Math.max(min, Math.min(max, value))`. -/
def constrainValue (value min max : JSNum) : JSNum :=
  jsMax min (jsMin max value)

/-- Method `updateConstraints`. -/
def updateConstraints (dom : Dom) (w : PannableNotesWall) : PannableNotesWall :=
  let canvasWidth := fin dom.offsetWidth * w.state.scale
  let canvasHeight := fin dom.offsetHeight * w.state.scale
  { w with constraints :=
      { w.constraints with
        minX := jsMin (fin 0) (-(canvasWidth - fin dom.rectWidth))
        minY := jsMin (fin 0) (-(canvasHeight - fin dom.rectHeight))
        maxX := fin 0
        maxY := fin 0 } }

/-- Method `updateTransform`. -/
def updateTransform (dom : Dom) (w : PannableNotesWall) : PannableNotesWall :=
  let w1 := updateConstraints dom w
  let currentX := constrainValue w1.state.currentX w1.constraints.minX w1.constraints.maxX
  let currentY := constrainValue w1.state.currentY w1.constraints.minY w1.constraints.maxY
  { w1 with
    state := { w1.state with currentX := currentX, currentY := currentY }
    transform := some ⟨currentX, currentY, w1.state.scale⟩ }

/-- The constructor, once `document.querySelector` has found the wall. -/
def constructed (dom : Dom) : PannableNotesWall :=
  updateTransform dom
    { state :=
        { isPanning := false
          startX := fin 0
          startY := fin 0
          currentX := fin 0
          currentY := fin 0
          offsetX := fin 0
          offsetY := fin 0
          scale := fin 1 }
      constraints :=
        { minX := fin (-2000)
          maxX := fin 0
          minY := fin (-2000)
          maxY := fin 0
          minScale := fin (8 / 10)
          maxScale := fin 2 }
      pinchData := none
      transform := none
      cursor := none }

/-- The constructor.  `querySelector` is `document.querySelector`: it throws
for a selector that is not valid, and otherwise returns the geometry of the
first element the selector matches, `none` when it matches nothing, in which
case the constructor throws. -/
def construct (querySelector : String → Except String (Option Dom)) (wallSelector : String) :
    Except String PannableNotesWall :=
  match querySelector wallSelector with
  | Except.error error => Except.error error
  | Except.ok none => Except.error ("Notes wall element not found: " ++ wallSelector)
  | Except.ok (some dom) => Except.ok (constructed dom)

/-- Method `startPan`. -/
def startPan (e : TouchEventLike) (w : PannableNotesWall) : PannableNotesWall :=
  if e.targetHasNoteClass || e.targetClosestNote then w
  else
    { w with
      state :=
        { w.state with
          isPanning := true
          startX := fin e.clientX - w.state.offsetX
          startY := fin e.clientY - w.state.offsetY }
      cursor := some "grabbing" }

/-- Method `doPan`. -/
def doPan (e : TouchEventLike) (dom : Dom) (w : PannableNotesWall) : PannableNotesWall :=
  if !w.state.isPanning then w
  else
    let newX := fin e.clientX - w.state.startX
    let newY := fin e.clientY - w.state.startY
    updateTransform dom
      { w with
        state :=
          { w.state with
            currentX := constrainValue newX w.constraints.minX w.constraints.maxX
            currentY := constrainValue newY w.constraints.minY w.constraints.maxY } }

/-- Method `endPan`. -/
def endPan (w : PannableNotesWall) : PannableNotesWall :=
  if !w.state.isPanning then w
  else
    { w with
      state :=
        { w.state with
          isPanning := false
          offsetX := w.state.currentX
          offsetY := w.state.currentY }
      cursor := some "grab" }

/-- Method `zoomAtPoint`. -/
def zoomAtPoint (mouseX mouseY zoomDelta : JSNum) (dom : Dom) (w : PannableNotesWall) :
    PannableNotesWall :=
  let oldScale := w.state.scale
  let oldX := w.state.currentX
  let oldY := w.state.currentY
  let newScale := oldScale * (fin 1 + zoomDelta)
  let constrainedScale := constrainValue newScale w.constraints.minScale w.constraints.maxScale
  if strictEq constrainedScale oldScale then w
  else
    let scaleFactor := constrainedScale / oldScale
    let newX := mouseX - (mouseX - oldX) * scaleFactor
    let newY := mouseY - (mouseY - oldY) * scaleFactor
    updateTransform dom
      { w with
        state :=
          { w.state with
            scale := constrainedScale
            currentX := newX
            currentY := newY
            offsetX := newX
            offsetY := newY } }

/-- Method `handleWheel`. -/
def handleWheel (e : WheelEventData) (dom : Dom) (w : PannableNotesWall) : PannableNotesWall :=
  let mouseX := fin e.clientX - fin dom.rectLeft
  let mouseY := fin e.clientY - fin dom.rectTop
  let zoomSpeed := fin (1 / 10)
  let delta := if lt (fin 0) (fin e.deltaY) then -zoomSpeed else zoomSpeed
  zoomAtPoint mouseX mouseY delta dom w

/-- Method `handleTouchStart`. -/
def handleTouchStart (e : TouchEventData) (w : PannableNotesWall) : PannableNotesWall :=
  match e.touches with
  | [touch] =>
    startPan
      { clientX := touch.clientX
        clientY := touch.clientY
        targetHasNoteClass := e.targetHasNoteClass
        targetClosestNote := e.targetClosestNote } w
  | _ => w

/-- Method `handlePinchZoom`.  `sqrt` is `Math.sqrt` on the finite non-negative
numbers. -/
def handlePinchZoom (sqrt : ℚ → ℚ) (e : TouchEventData) (dom : Dom) (w : PannableNotesWall) :
    PannableNotesWall :=
  match e.touches with
  | [touch1, touch2] =>
    let distance := fin (sqrt ((touch2.clientX - touch1.clientX) ^ 2 +
      (touch2.clientY - touch1.clientY) ^ 2))
    let centerX := (fin touch1.clientX + fin touch2.clientX) / fin 2 - fin dom.rectLeft
    let centerY := (fin touch1.clientY + fin touch2.clientY) / fin 2 - fin dom.rectTop
    match w.pinchData with
    | none =>
      { w with pinchData := some { initialDistance := distance, initialScale := w.state.scale } }
    | some pinchData =>
      let scaleRatio := distance / pinchData.initialDistance
      let targetScale := pinchData.initialScale * scaleRatio
      let zoomDelta := (targetScale - w.state.scale) / w.state.scale
      zoomAtPoint centerX centerY zoomDelta dom w
  | _ => w

/-- Method `handleTouchMove`. -/
def handleTouchMove (sqrt : ℚ → ℚ) (e : TouchEventData) (dom : Dom) (w : PannableNotesWall) :
    PannableNotesWall :=
  match e.touches with
  | [touch] =>
    if w.state.isPanning then
      doPan
        { clientX := touch.clientX
          clientY := touch.clientY
          targetHasNoteClass := e.targetHasNoteClass
          targetClosestNote := e.targetClosestNote } dom w
    else w
  | [_, _] => handlePinchZoom sqrt e dom w
  | _ => w

/-- Method `handleTouchEnd`. -/
def handleTouchEnd (w : PannableNotesWall) : PannableNotesWall :=
  { endPan w with pinchData := none }

/-- Method `handleGesture`. -/
def handleGesture (e : GestureEventData) (dom : Dom) (w : PannableNotesWall) :
    PannableNotesWall :=
  if truthy e.scale then
    updateTransform dom
      { w with
        state :=
          { w.state with
            scale := constrainValue e.scale w.constraints.minScale w.constraints.maxScale } }
  else w

/-- Method `resetView`. -/
def resetView (dom : Dom) (w : PannableNotesWall) : PannableNotesWall :=
  updateTransform dom
    { w with
      state :=
        { w.state with
          currentX := fin 0
          currentY := fin 0
          offsetX := fin 0
          offsetY := fin 0
          scale := fin 1 } }

/-- Method `zoomIn`. -/
def zoomIn (dom : Dom) (w : PannableNotesWall) : PannableNotesWall :=
  let centerX := fin dom.rectWidth / fin 2
  let centerY := fin dom.rectHeight / fin 2
  zoomAtPoint centerX centerY (fin (2 / 10)) dom w

/-- Method `zoomOut`. -/
def zoomOut (dom : Dom) (w : PannableNotesWall) : PannableNotesWall :=
  let centerX := fin dom.rectWidth / fin 2
  let centerY := fin dom.rectHeight / fin 2
  zoomAtPoint centerX centerY (fin (-(2 / 10))) dom w

/-- Method `getState`: a copy of `this.state`. -/
def getState (w : PannableNotesWall) : PanState := w.state

end PannableNotesWall

/-! ## Sequences of operations -/

/-- One call on the controller, with the event it receives and the DOM
geometry at the time of the call.  The numbers an event or a caller supplies
are finite. -/
inductive Op where
  | startPan (e : TouchEventLike)
  | doPan (e : TouchEventLike) (dom : Dom)
  | endPan
  | handleWheel (e : WheelEventData) (dom : Dom)
  | zoomAtPoint (mouseX mouseY zoomDelta : ℚ) (dom : Dom)
  | handleTouchStart (e : TouchEventData)
  | handleTouchMove (e : TouchEventData) (dom : Dom)
  | handlePinchZoom (e : TouchEventData) (dom : Dom)
  | handleTouchEnd
  | handleGesture (e : GestureEventData) (dom : Dom)
  | resetView (dom : Dom)
  | zoomIn (dom : Dom)
  | zoomOut (dom : Dom)
deriving DecidableEq

namespace PannableNotesWall

open JSNum

/-- The effect of one call. -/
def step (sqrt : ℚ → ℚ) (w : PannableNotesWall) : Op → PannableNotesWall
  | Op.startPan e => startPan e w
  | Op.doPan e dom => doPan e dom w
  | Op.endPan => endPan w
  | Op.handleWheel e dom => handleWheel e dom w
  | Op.zoomAtPoint mouseX mouseY zoomDelta dom =>
    zoomAtPoint (fin mouseX) (fin mouseY) (fin zoomDelta) dom w
  | Op.handleTouchStart e => handleTouchStart e w
  | Op.handleTouchMove e dom => handleTouchMove sqrt e dom w
  | Op.handlePinchZoom e dom => handlePinchZoom sqrt e dom w
  | Op.handleTouchEnd => handleTouchEnd w
  | Op.handleGesture e dom => handleGesture e dom w
  | Op.resetView dom => resetView dom w
  | Op.zoomIn dom => zoomIn dom w
  | Op.zoomOut dom => zoomOut dom w

/-- The effect of a sequence of calls, the first of the list first. -/
def run (sqrt : ℚ → ℚ) (ops : List Op) (w : PannableNotesWall) : PannableNotesWall :=
  ops.foldl (step sqrt) w

/-- The pan lies within the stored bounds on both axes:
`minX <= currentX && currentX <= maxX && minY <= currentY && currentY <= maxY`. -/
def panWithinBounds (w : PannableNotesWall) : Bool :=
  le w.constraints.minX w.state.currentX && le w.state.currentX w.constraints.maxX &&
    le w.constraints.minY w.state.currentY && le w.state.currentY w.constraints.maxY

/-- The scale lies within its bounds: `minScale <= scale && scale <= maxScale`. -/
def scaleWithinBounds (w : PannableNotesWall) : Bool :=
  le w.constraints.minScale w.state.scale && le w.state.scale w.constraints.maxScale

/-- Every number of the state and every pan bound is finite. -/
def numbersFinite (w : PannableNotesWall) : Bool :=
  w.state.startX.isFinite && w.state.startY.isFinite && w.state.currentX.isFinite &&
    w.state.currentY.isFinite && w.state.offsetX.isFinite && w.state.offsetY.isFinite &&
    w.state.scale.isFinite && w.constraints.minX.isFinite && w.constraints.maxX.isFinite &&
    w.constraints.minY.isFinite && w.constraints.maxY.isFinite

end PannableNotesWall

/-! ## Quantities the properties are stated with -/

namespace PannableNotesWall

open JSNum

/-- The unclamped scale `zoomAtPoint` computes: `oldScale * (1 + zoomDelta)`. -/
def newScale (w : PannableNotesWall) (zoomDelta : JSNum) : JSNum :=
  w.state.scale * (fin 1 + zoomDelta)

/-- The pan that keeps the point under the anchor `p` in place when the scale
is multiplied by `factor`: `p - (p - oldPan) * factor`. -/
def anchoredPan (p oldPan factor : JSNum) : JSNum :=
  p - (p - oldPan) * factor

/-- The distance between two touches as `handlePinchZoom` computes it. -/
def touchDistance (sqrt : ℚ → ℚ) (touch1 touch2 : Touch) : ℚ :=
  sqrt ((touch2.clientX - touch1.clientX) ^ 2 + (touch2.clientY - touch1.clientY) ^ 2)

/-- At scale `s` the scaled canvas is no larger than the viewport on both axes. -/
def fitsViewport (dom : Dom) (s : ℚ) : Bool :=
  decide (dom.offsetWidth * s ≤ dom.rectWidth) && decide (dom.offsetHeight * s ≤ dom.rectHeight)

/-- The calls of a drag, `startPan`, `doPan` and `endPan`, each `doPan` under a
geometry in which the canvas scaled by `s` fits the viewport. -/
def isDragOp (s : ℚ) : Op → Bool
  | Op.startPan _ => true
  | Op.doPan _ dom => fitsViewport dom s
  | Op.endPan => true
  | _ => false

/-! ## Scenarios -/

/-- The geometry of Scenario A: an 800 by 600 wall at the origin of the
viewport and a canvas of natural size 1200 by 1000. -/
def scenarioDom : Dom :=
  { rectLeft := 0, rectTop := 0, rectWidth := 800, rectHeight := 600,
    offsetWidth := 1200, offsetHeight := 1000 }

/-- The wall of Scenario A while its canvas is still 1000 by 600: the canvas
overflows the 800 by 600 wall by 200 on the x axis only. -/
def smallCanvasDom : Dom :=
  { rectLeft := 0, rectTop := 0, rectWidth := 800, rectHeight := 600,
    offsetWidth := 1000, offsetHeight := 600 }

/-- A geometry of Scenario B: a canvas of natural size 600 by 400 inside the
800 by 600 wall. -/
def fittingDom : Dom :=
  { rectLeft := 0, rectTop := 0, rectWidth := 800, rectHeight := 600,
    offsetWidth := 600, offsetHeight := 400 }

/-- The freshly constructed wall of Scenario A after a drag from `(100, 100)` to
`(50, 80)`, not yet released. -/
def draggedWall : PannableNotesWall :=
  doPan ⟨50, 80, false, false⟩ scenarioDom
    (startPan ⟨100, 100, false, false⟩ (constructed scenarioDom))

/-- The wall constructed while its canvas is 1000 by 600, with a drag begun at
`(500, 300)`. -/
def pressedSmallCanvasWall : PannableNotesWall :=
  startPan ⟨500, 300, false, false⟩ (constructed smallCanvasDom)

/-- Two successive pinch updates whose two touches are both at the point `t`. -/
def coincidentPinches (t : Touch) (dom : Dom) : List Op :=
  [Op.handlePinchZoom ⟨[t, t], false, false⟩ dom, Op.handlePinchZoom ⟨[t, t], false, false⟩ dom]

end PannableNotesWall

/-! ## Effects on the event and on the rendering layer -/

namespace PannableNotesWall

/-- Whether `startPan` calls `e.preventDefault()`: it returns before the call
when the target is a note or is inside one, and makes the call otherwise. -/
def startPanPreventsDefault (e : TouchEventLike) : Bool :=
  if e.targetHasNoteClass || e.targetClosestNote then false else true

end PannableNotesWall

/-- The string assigned to `notesCanvas.style.transform`, the template
`translate(${x}px, ${y}px) scale(${scale})`; `numberToString` is the conversion
a template applies to a number. -/
def Transform.cssText (numberToString : JSNum → String) (t : Transform) : String :=
  "translate(" ++ numberToString t.x ++ "px, " ++ numberToString t.y ++ "px) scale(" ++
    numberToString t.scale ++ ")"

/-! ## The registry of instances -/

/-- The map `pannableInstances`, from selectors to instances. -/
abbrev Registry := String → Option PannableNotesWall

namespace Registry

/-- Method `Map.prototype.has`. -/
def has (m : Registry) (key : String) : Bool := (m key).isSome

/-- Method `Map.prototype.delete`. -/
def delete (m : Registry) (key : String) : Registry :=
  fun k => if k = key then none else m k

/-- Method `Map.prototype.set`. -/
def set (m : Registry) (key : String) (value : PannableNotesWall) : Registry :=
  fun k => if k = key then some value else m k

end Registry

/-- One call on the console, with its arguments. -/
inductive ConsoleCall where
  | log (args : List String)
  | warn (args : List String)
deriving DecidableEq

/-- Function `initPannableNotesWall` of `src/pannable.js`.  `pathname` is
`window.location.pathname`.  The result is the map afterwards and the calls
made on the console; `Except.error` would be an exception that reaches the
caller. -/
def initPannableNotesWall (pathname : String)
    (querySelector : String → Except String (Option Dom)) (wallSelector : String)
    (pannableInstances : Registry) : Except String (Registry × List ConsoleCall) :=
  if pathname = "/" ∧ wallSelector = "#recent-messages" then
    Except.ok (pannableInstances,
      [ConsoleCall.log ["🚫 Pannable disabled on index page for", wallSelector],
        ConsoleCall.log ["👉 Visit /write-note for full interactive experience"]])
  else
    let remaining :=
      if pannableInstances.has wallSelector then pannableInstances.delete wallSelector
      else pannableInstances
    match PannableNotesWall.construct querySelector wallSelector with
    | Except.ok newInstance =>
      Except.ok (remaining.set wallSelector newInstance,
        [ConsoleCall.log ["✅ Pannable notes wall initialized for", wallSelector]])
    | Except.error error =>
      Except.ok (remaining,
        [ConsoleCall.warn
          ["Failed to initialize pannable notes wall for " ++ wallSelector ++ ":", error]])

/-- A document in which `#notes-wall` matches the wall of Scenario A, the
selector `###` is not valid, and no other selector matches an element. -/
def exampleQuerySelector (selector : String) : Except String (Option Dom) :=
  if selector = "#notes-wall" then Except.ok (some PannableNotesWall.scenarioDom)
  else if selector = "###" then Except.error "SyntaxError: '###' is not a valid selector"
  else Except.ok none

/-- A registry that holds, for `#notes-wall`, the dragged wall of Scenario A
and, for `#other`, a freshly constructed wall. -/
def exampleRegistry : Registry := fun selector =>
  if selector = "#notes-wall" then some PannableNotesWall.draggedWall
  else if selector = "#other" then
    some (PannableNotesWall.constructed PannableNotesWall.fittingDom)
  else none

/-! ## Touch sequences -/

namespace PannableNotesWall

/-- The call reads no geometry, or reads the geometry `dom`. -/
def underGeometry (dom : Dom) : Op → Bool
  | Op.startPan _ => true
  | Op.doPan _ d => decide (d = dom)
  | Op.endPan => true
  | Op.handleWheel _ d => decide (d = dom)
  | Op.zoomAtPoint _ _ _ d => decide (d = dom)
  | Op.handleTouchStart _ => true
  | Op.handleTouchMove _ d => decide (d = dom)
  | Op.handlePinchZoom _ d => decide (d = dom)
  | Op.handleTouchEnd => true
  | Op.handleGesture _ d => decide (d = dom)
  | Op.resetView d => decide (d = dom)
  | Op.zoomIn d => decide (d = dom)
  | Op.zoomOut d => decide (d = dom)

/-- The touch events: `touchstart`, `touchmove` and `touchend`. -/
def isTouchOp : Op → Bool
  | Op.handleTouchStart _ => true
  | Op.handleTouchMove _ _ => true
  | Op.handleTouchEnd => true
  | _ => false

/-- Four touch events on the wall: a first finger lands, a second lands, the
two move (a pinch update), and a third finger lands. -/
def thirdFingerLands (dom : Dom) : List Op :=
  [Op.handleTouchStart ⟨[⟨100, 100⟩], false, false⟩,
    Op.handleTouchStart ⟨[⟨100, 100⟩, ⟨200, 100⟩], false, false⟩,
    Op.handleTouchMove ⟨[⟨90, 100⟩, ⟨210, 100⟩], false, false⟩ dom,
    Op.handleTouchStart ⟨[⟨90, 100⟩, ⟨210, 100⟩, ⟨300, 300⟩], false, false⟩]

end PannableNotesWall

/-! ## A drag and the pan it overwrites -/

namespace PannableNotesWall

/-- The controller with its pan `(currentX, currentY)` and its committed pan
`(offsetX, offsetY)` replaced, and everything else as it is. -/
def withPan (currentX currentY offsetX offsetY : JSNum) (w : PannableNotesWall) :
    PannableNotesWall :=
  { w with
    state :=
      { w.state with
        currentX := currentX
        currentY := currentY
        offsetX := offsetX
        offsetY := offsetY } }

/-- The controller with its committed pan `(offsetX, offsetY)` replaced. -/
def withCommittedPan (offsetX offsetY : JSNum) (w : PannableNotesWall) : PannableNotesWall :=
  { w with state := { w.state with offsetX := offsetX, offsetY := offsetY } }

/-- The divisor of `distance / this.pinchData.initialDistance`, the first
division `handlePinchZoom` performs once a baseline is recorded. -/
def pinchDivisor (w : PannableNotesWall) : Option JSNum :=
  w.pinchData.map fun pinchData => pinchData.initialDistance

end PannableNotesWall

/-! ## The legacy controller

The class `PannableNotesWall` of `src/static/pannable.js`.  It has the fields
of the class of `src/pannable.js` but for `pinchData`, which stays `none` here,
and its methods `startPan`, `doPan`, `endPan`, `handleTouchStart`,
`handleGesture`, `constrainValue`, `updateConstraints`, `updateTransform` and
`resetView` are those of `src/pannable.js` word for word; the methods below are
the ones that differ.  Its `touchend` listener calls `endPan`. -/

namespace LegacyPannableNotesWall

open JSNum

/-- The constructor, once `document.querySelector` has found the wall: the
scale bounds are `0.5` and `3.0`. -/
def constructed (dom : Dom) : PannableNotesWall :=
  PannableNotesWall.updateTransform dom
    { state :=
        { isPanning := false
          startX := fin 0
          startY := fin 0
          currentX := fin 0
          currentY := fin 0
          offsetX := fin 0
          offsetY := fin 0
          scale := fin 1 }
      constraints :=
        { minX := fin (-2000)
          maxX := fin 0
          minY := fin (-2000)
          maxY := fin 0
          minScale := fin (1 / 2)
          maxScale := fin 3 }
      pinchData := none
      transform := none
      cursor := none }

/-- The constructor (see `PannableNotesWall.construct`). -/
def construct (querySelector : String → Except String (Option Dom)) (wallSelector : String) :
    Except String PannableNotesWall :=
  match querySelector wallSelector with
  | Except.error error => Except.error error
  | Except.ok none => Except.error ("Notes wall element not found: " ++ wallSelector)
  | Except.ok (some dom) => Except.ok (constructed dom)

/-- Method `zoomToPoint`. -/
def zoomToPoint (clientX clientY : JSNum) (dom : Dom) (w : PannableNotesWall) :
    PannableNotesWall :=
  let mouseX := clientX - fin dom.rectLeft
  let mouseY := clientY - fin dom.rectTop
  let canvasX := (mouseX - w.state.currentX) / w.state.scale
  let canvasY := (mouseY - w.state.currentY) / w.state.scale
  let w1 := PannableNotesWall.updateTransform dom w
  let newMouseX := canvasX * w1.state.scale + w1.state.currentX
  let newMouseY := canvasY * w1.state.scale + w1.state.currentY
  let currentX := w1.state.currentX + (mouseX - newMouseX)
  let currentY := w1.state.currentY + (mouseY - newMouseY)
  PannableNotesWall.updateTransform dom
    { w1 with
      state :=
        { w1.state with
          currentX := currentX
          currentY := currentY
          offsetX := currentX
          offsetY := currentY } }

/-- Method `handleWheel`. -/
def handleWheel (e : WheelEventData) (dom : Dom) (w : PannableNotesWall) : PannableNotesWall :=
  let zoomSpeed := fin (1 / 1000)
  let delta := -fin e.deltaY * zoomSpeed
  let newScale := w.state.scale + delta
  zoomToPoint (fin e.clientX) (fin e.clientY) dom
    { w with
      state :=
        { w.state with
          scale := PannableNotesWall.constrainValue newScale w.constraints.minScale
            w.constraints.maxScale } }

/-- Method `handlePinchZoom`: the baseline distance is kept in `state.startX`.
`sqrt` is `Math.sqrt` on the finite non-negative numbers. -/
def handlePinchZoom (sqrt : ℚ → ℚ) (e : TouchEventData) (dom : Dom) (w : PannableNotesWall) :
    PannableNotesWall :=
  match e.touches with
  | [touch1, touch2] =>
    let distance := fin (sqrt ((touch2.clientX - touch1.clientX) ^ 2 +
      (touch2.clientY - touch1.clientY) ^ 2))
    if !truthy w.state.startX then { w with state := { w.state with startX := distance } }
    else
      let scaleChange := distance / w.state.startX
      let newScale := w.state.scale * scaleChange
      let centerX := (fin touch1.clientX + fin touch2.clientX) / fin 2
      let centerY := (fin touch1.clientY + fin touch2.clientY) / fin 2
      let w2 := zoomToPoint centerX centerY dom
        { w with
          state :=
            { w.state with
              scale := PannableNotesWall.constrainValue newScale w.constraints.minScale
                w.constraints.maxScale } }
      { w2 with state := { w2.state with startX := distance } }
  | _ => w

/-- Method `handleTouchMove`. -/
def handleTouchMove (sqrt : ℚ → ℚ) (e : TouchEventData) (dom : Dom) (w : PannableNotesWall) :
    PannableNotesWall :=
  match e.touches with
  | [touch] =>
    if w.state.isPanning then
      PannableNotesWall.doPan
        { clientX := touch.clientX
          clientY := touch.clientY
          targetHasNoteClass := e.targetHasNoteClass
          targetClosestNote := e.targetClosestNote } dom w
    else w
  | [_, _] => handlePinchZoom sqrt e dom w
  | _ => w

/-- Method `zoomIn`. -/
def zoomIn (dom : Dom) (w : PannableNotesWall) : PannableNotesWall :=
  let newScale := w.state.scale * fin (12 / 10)
  PannableNotesWall.updateTransform dom
    { w with
      state :=
        { w.state with
          scale := PannableNotesWall.constrainValue newScale w.constraints.minScale
            w.constraints.maxScale } }

/-- Method `zoomOut`. -/
def zoomOut (dom : Dom) (w : PannableNotesWall) : PannableNotesWall :=
  let newScale := w.state.scale * fin (8 / 10)
  PannableNotesWall.updateTransform dom
    { w with
      state :=
        { w.state with
          scale := PannableNotesWall.constrainValue newScale w.constraints.minScale
            w.constraints.maxScale } }

/-- Function `initPannableNotesWall` of `src/static/pannable.js`.  The result is
the map afterwards and the calls made on the console. -/
def initPannableNotesWall (querySelector : String → Except String (Option Dom))
    (wallSelector : String) (pannableInstances : Registry) :
    Except String (Registry × List ConsoleCall) :=
  let remaining :=
    if pannableInstances.has wallSelector then pannableInstances.delete wallSelector
    else pannableInstances
  match construct querySelector wallSelector with
  | Except.ok newInstance => Except.ok (remaining.set wallSelector newInstance, [])
  | Except.error error =>
    Except.ok (remaining,
      [ConsoleCall.warn
        ["Failed to initialize pannable notes wall for " ++ wallSelector ++ ":", error]])

/-- The wall of Scenario A under the legacy controller, after a drag from
`(200, 200)` to `(100, 100)` that has been released: the scale is `1` and the
pan is `(-100, -100)`. -/
def pannedWall : PannableNotesWall :=
  PannableNotesWall.endPan
    (PannableNotesWall.doPan ⟨100, 100, false, false⟩ PannableNotesWall.scenarioDom
      (PannableNotesWall.startPan ⟨200, 200, false, false⟩
        (constructed PannableNotesWall.scenarioDom)))

/-- A wheel event at `(400, 300)` with `deltaY = -100`. -/
def wheelIn : WheelEventData := { deltaY := -100, clientX := 400, clientY := 300 }

/-- One finger lands at `(300, 200)` and begins a drag, a second finger lands,
and the first `touchmove` of the two-finger gesture has its touches at
`(250, 200)` and `(350, 200)`. -/
def pinchAfterDragStart (sqrt : ℚ → ℚ) (dom : Dom) (w : PannableNotesWall) :
    PannableNotesWall :=
  handleTouchMove sqrt ⟨[⟨250, 200⟩, ⟨350, 200⟩], false, false⟩ dom
    (PannableNotesWall.handleTouchStart ⟨[⟨300, 200⟩, ⟨350, 200⟩], false, false⟩
      (PannableNotesWall.handleTouchStart ⟨[⟨300, 200⟩], false, false⟩ w))

/-- A completed pinch gesture: two fingers land `100` apart, a first
`touchmove` with the fingers still `100` apart, a second with the fingers `200`
apart, and the `touchend`. -/
def completedPinch (sqrt : ℚ → ℚ) (dom : Dom) (w : PannableNotesWall) : PannableNotesWall :=
  PannableNotesWall.endPan
    (handleTouchMove sqrt ⟨[⟨200, 200⟩, ⟨400, 200⟩], false, false⟩ dom
      (handleTouchMove sqrt ⟨[⟨250, 200⟩, ⟨350, 200⟩], false, false⟩ dom
        (PannableNotesWall.handleTouchStart ⟨[⟨250, 200⟩, ⟨350, 200⟩], false, false⟩ w)))

/-- The first `touchmove` of a later two-finger gesture, with the fingers
`100` apart at `(250, 200)` and `(350, 200)`. -/
def nextPinchFirstMove (sqrt : ℚ → ℚ) (dom : Dom) (w : PannableNotesWall) :
    PannableNotesWall :=
  handleTouchMove sqrt ⟨[⟨250, 200⟩, ⟨350, 200⟩], false, false⟩ dom
    (PannableNotesWall.handleTouchStart ⟨[⟨250, 200⟩, ⟨350, 200⟩], false, false⟩ w)

end LegacyPannableNotesWall

/-! ## Strings

A JavaScript string is modelled by a `String`, one `Char` for each code point;
strings with an unpaired surrogate are left out. -/

/-- A JavaScript value, as far as `typeof` tells its kind. -/
inductive JSValue where
  | str (value : String)
  | number (value : JSNum)
  | boolean (value : Bool)
  | undefined
  | null
  | object
deriving DecidableEq

/-- The operator `typeof`. -/
def JSValue.typeOf : JSValue → String
  | JSValue.str _ => "string"
  | JSValue.number _ => "number"
  | JSValue.boolean _ => "boolean"
  | JSValue.undefined => "undefined"
  | JSValue.null => "object"
  | JSValue.object => "object"

namespace JSString

/-- The property `length`: the number of UTF-16 code units, two for a code point
above `0xFFFF`. -/
def utf16Length (s : String) : Nat :=
  (s.data.map fun c => if c.toNat < 65536 then 1 else 2).sum

/-- The class `\w` of a regular expression without the `u` flag:
`[A-Za-z0-9_]`. -/
def isWordChar (c : Char) : Bool :=
  (decide (48 ≤ c.toNat) && decide (c.toNat ≤ 57)) ||
    (decide (65 ≤ c.toNat) && decide (c.toNat ≤ 90)) ||
    decide (c.toNat = 95) ||
    (decide (97 ≤ c.toNat) && decide (c.toNat ≤ 122))

/-- The class `\s`, which is also what `trim` removes: the white space and line
terminator code points of ECMAScript. -/
def isWhiteSpace (c : Char) : Bool :=
  (decide (9 ≤ c.toNat) && decide (c.toNat ≤ 13)) ||
    decide (c.toNat = 32) || decide (c.toNat = 160) || decide (c.toNat = 5760) ||
    (decide (8192 ≤ c.toNat) && decide (c.toNat ≤ 8202)) ||
    decide (c.toNat = 8232) || decide (c.toNat = 8233) || decide (c.toNat = 8239) ||
    decide (c.toNat = 8287) || decide (c.toNat = 12288) || decide (c.toNat = 65279)

/-- Method `String.prototype.trim`. -/
def trim (s : String) : String :=
  ⟨((s.data.dropWhile isWhiteSpace).reverse.dropWhile isWhiteSpace).reverse⟩

/-- The call `s.replace(/c/g, replacement)` for a pattern that is the single
character `c`: every occurrence of `c` is replaced. -/
def replaceChar (c : Char) (replacement : String) (s : String) : String :=
  ⟨s.data.flatMap fun x => if x = c then replacement.data else [x]⟩

end JSString

/-! ## Escaping (`src/security.js`) -/

namespace Security

open JSString

/-- The character `"`. -/
def doubleQuote : Char := Char.ofNat 34

/-- The character `'`. -/
def singleQuote : Char := Char.ofNat 39

/-- The backtick character. -/
def backtick : Char := Char.ofNat 96

/-- Function `escapeHtml`. -/
def escapeHtml : JSValue → String
  | JSValue.str input =>
    replaceChar '=' "&#x3D;"
      (replaceChar backtick "&#x60;"
        (replaceChar '/' "&#x2F;"
          (replaceChar singleQuote "&#039;"
            (replaceChar doubleQuote "&quot;"
              (replaceChar '>' "&gt;"
                (replaceChar '<' "&lt;"
                  (replaceChar '&' "&amp;" input)))))))
  | _ => ""

/-- The eight entities `escapeHtml` emits. -/
def entities : List String :=
  ["&amp;", "&lt;", "&gt;", "&quot;", "&#039;", "&#x2F;", "&#x60;", "&#x3D;"]

/-- The seven characters besides `&` that `escapeHtml` replaces. -/
def escapedChars : List Char :=
  ['<', '>', doubleQuote, singleQuote, '/', backtick, '=']

/-- What `escapeHtml` turns one character into. -/
def escapeChar (c : Char) : List Char :=
  if c = '&' then "&amp;".data
  else if c = '<' then "&lt;".data
  else if c = '>' then "&gt;".data
  else if c = doubleQuote then "&quot;".data
  else if c = singleQuote then "&#039;".data
  else if c = '/' then "&#x2F;".data
  else if c = backtick then "&#x60;".data
  else if c = '=' then "&#x3D;".data
  else [c]

end Security

/-! ## Regular expressions

The regular expressions of `src/security.js` and `src/convex/notes.ts` that are
searched for anywhere in a string are sequences of the four kinds of item
below, all with the flag `i`.  Matching follows the backtracking order of
ECMAScript, so that the match found at a position is the one `replace` and
`test` find there. -/

/-- One item of a regular expression. -/
inductive RegexItem where
  /-- A literal character, compared without regard to case. -/
  | char (c : Char)
  /-- A class followed by `*`, such as `[^>]*` and `\s*`. -/
  | star (cls : Char → Bool)
  /-- A class followed by `+`, such as `\w+`. -/
  | plus (cls : Char → Bool)
  /-- A class followed by `*?`, such as `.*?`. -/
  | lazyStar (cls : Char → Bool)

namespace Regex

open JSString

/-- The ASCII letters. -/
def isAsciiLetter (c : Char) : Bool :=
  (decide (65 ≤ c.toNat) && decide (c.toNat ≤ 90)) ||
    (decide (97 ≤ c.toNat) && decide (c.toNat ≤ 122))

/-- Whether the input character `x` matches the literal pattern character `c`
under the flag `i` (without the flag `u`): they are equal, or they are the two
cases of one ASCII letter.  The pattern characters of this repository are all
ASCII, and a character outside ASCII never matches an ASCII letter. -/
def matchesChar (x c : Char) : Bool :=
  x == c || (isAsciiLetter x && isAsciiLetter c && x.toNat % 32 == c.toNat % 32)

/-- The class `.` (without the flag `s`): every character but the line
terminators. -/
def isNotLineTerminator (c : Char) : Bool :=
  !(decide (c.toNat = 10) || decide (c.toNat = 13) || decide (c.toNat = 8232) ||
    decide (c.toNat = 8233))

/-- A greedy repetition of the class `cls` followed by the continuation `k`:
the longest run is tried first.  The result is what is left of the input after
the match. -/
def greedy (k : List Char → Option (List Char)) (cls : Char → Bool) :
    List Char → Option (List Char)
  | [] => k []
  | x :: s =>
    if cls x then
      match greedy k cls s with
      | some rest => some rest
      | none => k (x :: s)
    else k (x :: s)

/-- A lazy repetition of the class `cls` followed by the continuation `k`: the
shortest run is tried first. -/
def lazy (k : List Char → Option (List Char)) (cls : Char → Bool) :
    List Char → Option (List Char)
  | [] => k []
  | x :: s =>
    match k (x :: s) with
    | some rest => some rest
    | none => if cls x then lazy k cls s else none

/-- A match of the items at the start of the input: what is left of the input
after the first match in backtracking order, `none` when there is no match. -/
def matchItems : List RegexItem → List Char → Option (List Char)
  | [], s => some s
  | RegexItem.char c :: items, s =>
    match s with
    | x :: rest => if matchesChar x c then matchItems items rest else none
    | [] => none
  | RegexItem.star cls :: items, s => greedy (matchItems items) cls s
  | RegexItem.plus cls :: items, s =>
    match s with
    | x :: rest => if cls x then greedy (matchItems items) cls rest else none
    | [] => none
  | RegexItem.lazyStar cls :: items, s => lazy (matchItems items) cls s

/-- The items of a pattern that is a literal string. -/
def literal (s : String) : List RegexItem := s.data.map RegexItem.char

/-- Method `RegExp.prototype.test` for a pattern without the flags `g` and `y`:
whether the pattern matches at some position of the string. -/
def test (pattern : List RegexItem) (s : String) : Bool :=
  s.data.tails.any fun t => (matchItems pattern t).isSome

/-- The loop of `removeAll`; `fuel` bounds the number of steps, each of which
consumes at least one character. -/
def removeAllAux (pattern : List RegexItem) : Nat → List Char → List Char
  | 0, s => s
  | _ + 1, [] => []
  | fuel + 1, x :: s =>
    match matchItems pattern (x :: s) with
    | some rest =>
      if rest.length < (x :: s).length then removeAllAux pattern fuel rest
      else x :: removeAllAux pattern fuel s
    | none => x :: removeAllAux pattern fuel s

/-- The call `s.replace(pattern, '')` for a pattern with the flag `g`: the
matches are found from left to right, each search starting where the previous
match ended, and removed. -/
def removeAll (pattern : List RegexItem) (s : String) : String :=
  ⟨removeAllAux pattern s.data.length s.data⟩

end Regex

/-! ## Sanitising (`src/security.js`) -/

namespace Security

open JSString Regex

/-- The pattern `/<script[^>]*>.*?<\/script>/gi`. -/
def scriptElementPattern : List RegexItem :=
  literal "<script" ++ [RegexItem.star fun c => c != '>', RegexItem.char '>',
    RegexItem.lazyStar isNotLineTerminator] ++ literal "</script>"

/-- The pattern `/javascript:/gi`. -/
def javascriptPattern : List RegexItem := literal "javascript:"

/-- The pattern `/on\w+\s*=/gi`. -/
def eventHandlerPattern : List RegexItem :=
  literal "on" ++ [RegexItem.plus isWordChar, RegexItem.star isWhiteSpace, RegexItem.char '=']

/-- The pattern `/data:text\/html/gi`. -/
def dataHtmlPattern : List RegexItem := literal "data:text/html"

/-- Function `sanitizeInput`.  `domPurifySanitize` is the call
`DOMPurify.sanitize(input, { ALLOWED_TAGS: [] })`. -/
def sanitizeInput (domPurifySanitize : String → String) : JSValue → String
  | JSValue.str input =>
    let sanitized := domPurifySanitize input
    trim (removeAll dataHtmlPattern (removeAll eventHandlerPattern
      (removeAll javascriptPattern (removeAll scriptElementPattern sanitized))))
  | _ => ""

end Security

/-! ## Creating a note (`src/convex/notes.ts`) -/

/-- A document of the table `notes`. -/
structure Note where
  message : String
  senderName : String
  createdAt : Nat
deriving DecidableEq

/-- The arguments of `createNote`, both validated as strings before the handler
runs. -/
structure CreateNoteArgs where
  message : String
  senderName : String
deriving DecidableEq

namespace Notes

open JSString Regex

/-- The class `[\w\s.,!?'"-]` of `safePattern`; the seven punctuation
characters are given by their code points `46`, `44`, `33`, `63`, `39`, `34`
and `45`. -/
def isSafeChar (c : Char) : Bool :=
  isWordChar c || isWhiteSpace c || decide (c.toNat = 46) || decide (c.toNat = 44) ||
    decide (c.toNat = 33) || decide (c.toNat = 63) || decide (c.toNat = 39) ||
    decide (c.toNat = 34) || decide (c.toNat = 45)

/-- The class `[\w\s'-]` of `namePattern`; the two punctuation characters are
given by their code points `39` and `45`. -/
def isNameChar (c : Char) : Bool :=
  isWordChar c || isWhiteSpace c || decide (c.toNat = 39) || decide (c.toNat = 45)

/-- The test of a pattern `/^[...]*$/`: every character of the string is in the
class. -/
def testAnchoredClassStar (cls : Char → Bool) (s : String) : Bool :=
  s.data.all cls

/-- The array `suspiciousPatterns`: `/<script/i`, `/javascript:/i`,
`/on\w+\s*=/i`, `/data:text\/html/i`, `/<iframe/i` and `/eval\s*\(/i`. -/
def suspiciousPatterns : List (List RegexItem) :=
  [literal "<script",
    literal "javascript:",
    literal "on" ++ [RegexItem.plus isWordChar, RegexItem.star isWhiteSpace, RegexItem.char '='],
    literal "data:text/html",
    literal "<iframe",
    literal "eval" ++ [RegexItem.star isWhiteSpace, RegexItem.char '(']]

/-- The handler of the mutation `createNote`.  `now` is `Date.now()` and `notes`
is the table `notes`; the result is the table after the insertion, or the
message of the error thrown.  The identifier the insertion returns is left
out. -/
def createNote (now : Nat) (notes : List Note) (args : CreateNoteArgs) :
    Except String (List Note) :=
  let message := trim args.message
  let senderName := trim args.senderName
  if message = "" ∨ senderName = "" then
    Except.error "Message and sender name are required"
  else if utf16Length message > 500 then
    Except.error "Message too long (max 500 characters)"
  else if utf16Length senderName > 50 then
    Except.error "Sender name too long (max 50 characters)"
  else if !testAnchoredClassStar isSafeChar message then
    Except.error "Message contains invalid characters"
  else if !testAnchoredClassStar isNameChar senderName then
    Except.error "Sender name contains invalid characters"
  else
    let combinedInput := message ++ " " ++ senderName
    if suspiciousPatterns.any fun pattern => test pattern combinedInput then
      Except.error "Input contains potentially harmful content"
    else
      Except.ok (notes ++ [{ message := message, senderName := senderName, createdAt := now }])

/-- The condition under which a note is accepted: after trimming, the message
has between 1 and 500 characters, all in the class of `safePattern`, and the
sender name has between 1 and 50 characters, all in the class of
`namePattern`. -/
def isValidNote (args : CreateNoteArgs) : Bool :=
  decide (1 ≤ (trim args.message).length) && decide ((trim args.message).length ≤ 500) &&
    (trim args.message).data.all isSafeChar &&
    decide (1 ≤ (trim args.senderName).length) &&
    decide ((trim args.senderName).length ≤ 50) &&
    (trim args.senderName).data.all isNameChar

end Notes

/-! ## Refreshing the notes walls (`src/static/notes-refresh.js`) -/

/-- How a call `await refreshMethod.method()` ends: it returns a value, truthy
(`success`) or not, or it throws. -/
inductive MethodOutcome where
  | returned (success : Bool)
  | threw
deriving DecidableEq

/-- An entry of `this.refreshMethods`.  `σ` is the state of the page and of the
network, which a method reads and changes. -/
structure RefreshMethod (σ : Type) where
  name : String
  method : σ → MethodOutcome × σ

/-- What `refresh` does, in order: it invokes a method, which ends with an
outcome; it calls `window.notesCache.clearCache()`, which throws or not; it
sleeps. -/
inductive RefreshEvent where
  | invoked (name : String) (outcome : MethodOutcome)
  | clearCache (threw : Bool)
  | sleep (ms : Nat)
deriving DecidableEq

namespace NotesRefreshSystem

/-- Method `setupMethods`: the four entries in the order they are pushed.  The
bodies of the first three are parameters; the fourth reloads the page and
returns `true`. -/
def setupMethods {σ : Type} (htmxTrigger htmxAjax directFetch : σ → MethodOutcome × σ)
    (reload : σ → σ) : List (RefreshMethod σ) :=
  [{ name := "HTMX Trigger", method := htmxTrigger },
    { name := "HTMX Ajax", method := htmxAjax },
    { name := "Direct Fetch", method := directFetch },
    { name := "Page Reload", method := fun page => (MethodOutcome.returned true, reload page) }]

/-- The inner loop of `refresh`, over the methods still to try in this attempt.
`notesCache` is `none` when `window.notesCache` is undefined, and otherwise its
method `clearCache`, which reports whether it threw.  The result is whether
`refresh` returns `true` here, the state afterwards, and what was done.  An
exception of the method, or of `clearCache`, is caught and the loop goes on. -/
def tryMethods {σ : Type} (notesCache : Option (σ → Bool × σ)) :
    List (RefreshMethod σ) → σ → Bool × σ × List RefreshEvent
  | [], page => (false, page, [])
  | refreshMethod :: rest, page =>
    let result := refreshMethod.method page
    if result.1 = MethodOutcome.returned true then
      match notesCache with
      | none => (true, result.2, [RefreshEvent.invoked refreshMethod.name result.1])
      | some clearCache =>
        let cleared := clearCache result.2
        if cleared.1 then
          let r := tryMethods notesCache rest cleared.2
          (r.1, r.2.1,
            RefreshEvent.invoked refreshMethod.name result.1 :: RefreshEvent.clearCache true ::
              r.2.2)
        else
          (true, cleared.2,
            [RefreshEvent.invoked refreshMethod.name result.1, RefreshEvent.clearCache false])
    else
      let r := tryMethods notesCache rest result.2
      (r.1, r.2.1, RefreshEvent.invoked refreshMethod.name result.1 :: r.2.2)

/-- The outer loop of `refresh` with `remaining` attempts to go, the next being
attempt `maxRetries - remaining + 1`. -/
def attempts {σ : Type} (notesCache : Option (σ → Bool × σ)) (refreshMethods : List (RefreshMethod σ))
    (maxRetries : Nat) : Nat → σ → Bool × σ × List RefreshEvent
  | 0, page => (false, page, [])
  | remaining + 1, page =>
    let attempt := maxRetries - remaining
    let r := tryMethods notesCache refreshMethods page
    if r.1 then r
    else
      let pause := if attempt < maxRetries then [RefreshEvent.sleep (1000 * attempt)] else []
      let r2 := attempts notesCache refreshMethods maxRetries remaining r.2.1
      (r2.1, r2.2.1, r.2.2 ++ pause ++ r2.2.2)

/-- Method `refresh`, for a whole number `maxRetries`. -/
def refresh {σ : Type} (notesCache : Option (σ → Bool × σ)) (refreshMethods : List (RefreshMethod σ))
    (maxRetries : Nat) (page : σ) : Bool × σ × List RefreshEvent :=
  attempts notesCache refreshMethods maxRetries maxRetries page

/-- The invocations among the events, each with its outcome, in order. -/
def invocations : List RefreshEvent → List (String × MethodOutcome)
  | [] => []
  | RefreshEvent.invoked name outcome :: events => (name, outcome) :: invocations events
  | _ :: events => invocations events

/-- The names of the methods tried in `count` attempts, in order. -/
def schedule {σ : Type} (refreshMethods : List (RefreshMethod σ)) (count : Nat) : List String :=
  (List.replicate count (refreshMethods.map fun m => m.name)).flatten

/-- An example of a page: the methods of the example below read and change a
counter. -/
def exampleMethods : List (RefreshMethod Nat) :=
  setupMethods (fun page => (MethodOutcome.threw, page + 1))
    (fun page => (MethodOutcome.returned (decide (2 ≤ page)), page + 1))
    (fun page => (MethodOutcome.returned true, page + 1))
    (fun page => page + 100)

/-- A page on which each of the four methods reports success. -/
def succeedingMethods : List (RefreshMethod Nat) :=
  setupMethods (fun page => (MethodOutcome.returned true, page + 1))
    (fun page => (MethodOutcome.returned true, page + 1))
    (fun page => (MethodOutcome.returned true, page + 1))
    (fun page => page + 100)

/-- A `window.notesCache` that is defined and has no method `clearCache`, such
as an empty object: the call `window.notesCache.clearCache()` throws a
`TypeError` and changes nothing. -/
def notesCacheWithoutClearCache : Option (Nat → Bool × Nat) :=
  some fun page => (true, page)

end NotesRefreshSystem

/-! ## Double precision

JavaScript computes in IEEE 754 double precision: the result of every
arithmetic operation is the exact result rounded to the nearest double, ties
to even.  The controller above computes with exact rationals, which shows what
its comparisons, clamps and control flow do; this section has the numbers in
double precision, and the methods of `src/pannable.js` that the claims on
arithmetic identities are about, computing with them.  The sign of zero is
left out. -/

/-- A JavaScript number in double precision: the finite value
`mantissa * 2 ^ exponent`, with the mantissa odd, or zero with exponent zero;
or `Infinity`, `-Infinity` or `NaN`. -/
inductive JSDouble where
  | fin (mantissa : Int) (exponent : Int)
  | posInf
  | negInf
  | nan
deriving DecidableEq

namespace JSDouble

/-- The loop of `log2`. -/
def log2Aux : Nat → Nat → Nat
  | 0, _ => 0
  | fuel + 1, n => if n < 2 then 0 else log2Aux fuel (n / 2) + 1

/-- The greatest `k` with `2 ^ k ≤ n`, for `n` positive. -/
def log2 (n : Nat) : Nat := log2Aux n n

/-- The number of times `2` divides `n`, for `n` positive. -/
def trailingZeros (n : Nat) : Nat := log2 (Nat.gcd n (2 ^ log2 n))

/-- The finite number `± m * 2 ^ e` with its mantissa made odd. -/
def normalize (negative : Bool) (m : Nat) (e : Int) : JSDouble :=
  if m = 0 then fin 0 0
  else
    let t := trailingZeros m
    fin (if negative then -((m / 2 ^ t : Nat) : Int) else ((m / 2 ^ t : Nat) : Int)) (e + t)

/-- The greatest `e` with `2 ^ e ≤ num / den`, for `num` and `den` positive. -/
def floorLog2 (num den : Nat) : Int :=
  let e0 : Int := (log2 num : Int) - (log2 den : Int)
  if 0 ≤ e0 then (if den * 2 ^ e0.toNat ≤ num then e0 else e0 - 1)
  else (if den ≤ num * 2 ^ (-e0).toNat then e0 else e0 - 1)

/-- The double nearest to `± num / den` (`den` positive), ties to even: the
quotient is rounded to a multiple of `2 ^ q`, where `q` is `52` below the
exponent of the quotient, and not below `-1074`; a result of magnitude
`2 ^ 1024` or more is an infinity. -/
def roundFraction (negative : Bool) (num den : Nat) : JSDouble :=
  if num = 0 then fin 0 0
  else
    let q := max (floorLog2 num den) (-1022) - 52
    let n := if 0 ≤ q then num else num * 2 ^ (-q).toNat
    let d := if 0 ≤ q then den * 2 ^ q.toNat else den
    let m := n / d
    let r := n % d
    let rounded :=
      if 2 * r < d then m else if d < 2 * r then m + 1 else if m % 2 = 0 then m else m + 1
    if 971 ≤ q ∧ 2 ^ 53 ≤ rounded * 2 ^ (q - 971).toNat then
      (if negative then negInf else posInf)
    else normalize negative rounded q

/-- The double nearest to the fraction `num / den`: the value of a decimal
literal such as `0.8`, which is `ofFraction 8 10`. -/
def ofFraction (num : Int) (den : Nat) : JSDouble :=
  roundFraction (decide (num < 0)) num.natAbs den

/-- The double nearest to an integer. -/
def ofInt (n : Int) : JSDouble := ofFraction n 1

/-- The double nearest to `s * 2 ^ e`. -/
def roundScaled (s : Int) (e : Int) : JSDouble :=
  if 0 ≤ e then roundFraction (decide (s < 0)) (s.natAbs * 2 ^ e.toNat) 1
  else roundFraction (decide (s < 0)) s.natAbs (2 ^ (-e).toNat)

/-- The sign: `1`, `0` or `-1`; `0` for NaN. -/
def sign : JSDouble → Int
  | fin m _ => Int.sign m
  | posInf => 1
  | negInf => -1
  | nan => 0

/-- Unary minus. -/
def neg : JSDouble → JSDouble
  | fin m e => fin (-m) e
  | posInf => negInf
  | negInf => posInf
  | nan => nan

/-- The operator `+`. -/
def add : JSDouble → JSDouble → JSDouble
  | fin m1 e1, fin m2 e2 =>
    roundScaled (m1 * 2 ^ (e1 - min e1 e2).toNat + m2 * 2 ^ (e2 - min e1 e2).toNat) (min e1 e2)
  | fin _ _, posInf => posInf
  | fin _ _, negInf => negInf
  | posInf, fin _ _ => posInf
  | negInf, fin _ _ => negInf
  | posInf, posInf => posInf
  | negInf, negInf => negInf
  | _, _ => nan

/-- The operator `-`. -/
def sub (a b : JSDouble) : JSDouble := add a (neg b)

/-- The operator `*`. -/
def mul : JSDouble → JSDouble → JSDouble
  | fin m1 e1, fin m2 e2 => roundScaled (m1 * m2) (e1 + e2)
  | nan, _ => nan
  | _, nan => nan
  | a, b => if sign a * sign b = 0 then nan else if 0 < sign a * sign b then posInf else negInf

/-- The operator `/`. -/
def div : JSDouble → JSDouble → JSDouble
  | fin m1 e1, fin m2 e2 =>
    if m2 = 0 then (if m1 = 0 then nan else if 0 < m1 then posInf else negInf)
    else
      roundFraction (decide (m1 < 0) != decide (m2 < 0))
        (m1.natAbs * 2 ^ (e1 - e2).toNat) (m2.natAbs * 2 ^ (e2 - e1).toNat)
  | nan, _ => nan
  | _, nan => nan
  | fin _ _, _ => fin 0 0
  | a, fin m _ => if 0 ≤ sign a * Int.sign m then a else neg a
  | _, _ => nan

/-- The operator `<`. -/
def lt : JSDouble → JSDouble → Bool
  | fin m1 e1, fin m2 e2 =>
    decide (m1 * 2 ^ (e1 - min e1 e2).toNat < m2 * 2 ^ (e2 - min e1 e2).toNat)
  | nan, _ => false
  | _, nan => false
  | negInf, negInf => false
  | negInf, _ => true
  | posInf, _ => false
  | _, posInf => true
  | _, _ => false

/-- The operator `===` on numbers. -/
def strictEq : JSDouble → JSDouble → Bool
  | nan, _ => false
  | _, nan => false
  | a, b => decide (a = b)

/-- Function `Math.min` of two numbers. -/
def jsMin (a b : JSDouble) : JSDouble :=
  if a = nan ∨ b = nan then nan else if lt b a then b else a

/-- Function `Math.max` of two numbers. -/
def jsMax (a b : JSDouble) : JSDouble :=
  if a = nan ∨ b = nan then nan else if lt a b then b else a

/-- The loop of `isqrt`. -/
def isqrtAux : Nat → Nat → Nat
  | 0, _ => 0
  | fuel + 1, n =>
    if n = 0 then 0
    else
      let r := 2 * isqrtAux fuel (n / 4)
      if (r + 1) * (r + 1) ≤ n then r + 1 else r

/-- The greatest `s` with `s * s ≤ n`. -/
def isqrt (n : Nat) : Nat := isqrtAux n n

/-- Function `Math.sqrt`, correctly rounded: the mantissa is scaled by `2 ^ 120`
or `2 ^ 121` so that the exponent left is even, and the integer square root,
with a half added when it is not exact, is rounded. -/
def sqrt : JSDouble → JSDouble
  | fin m e =>
    if m < 0 then nan
    else
      let shift : Nat := if (e - 120) % 2 = 0 then 120 else 121
      let n := m.natAbs * 2 ^ shift
      let s := isqrt n
      roundScaled (if s * s = n then 2 * (s : Int) else 2 * (s : Int) + 1)
        ((e - (shift : Int)) / 2 - 1)
  | posInf => posInf
  | _ => nan

end JSDouble

/-- The geometry (see `Dom`), in double precision. -/
structure DoubleDom where
  rectLeft : JSDouble
  rectTop : JSDouble
  rectWidth : JSDouble
  rectHeight : JSDouble
  offsetWidth : JSDouble
  offsetHeight : JSDouble
deriving DecidableEq

/-- The object `this.state`, in double precision. -/
structure DoublePanState where
  isPanning : Bool
  startX : JSDouble
  startY : JSDouble
  currentX : JSDouble
  currentY : JSDouble
  offsetX : JSDouble
  offsetY : JSDouble
  scale : JSDouble
deriving DecidableEq

/-- The object `this.constraints`, in double precision. -/
structure DoublePanConstraints where
  minX : JSDouble
  maxX : JSDouble
  minY : JSDouble
  maxY : JSDouble
  minScale : JSDouble
  maxScale : JSDouble
deriving DecidableEq

/-- The object `this.pinchData`, in double precision. -/
structure DoublePinchData where
  initialDistance : JSDouble
  initialScale : JSDouble
deriving DecidableEq

/-- The values interpolated into `notesCanvas.style.transform`, in double
precision. -/
structure DoubleTransform where
  x : JSDouble
  y : JSDouble
  scale : JSDouble
deriving DecidableEq

/-- The fields of an event that `startPan` and `doPan` read (see
`TouchEventLike`), in double precision. -/
structure DoubleTouchEventLike where
  clientX : JSDouble
  clientY : JSDouble
  targetHasNoteClass : Bool
  targetClosestNote : Bool
deriving DecidableEq

/-- One entry of `e.touches`, in double precision. -/
structure DoubleTouch where
  clientX : JSDouble
  clientY : JSDouble
deriving DecidableEq

/-- An instance of the class `PannableNotesWall`, in double precision. -/
structure DoublePannableNotesWall where
  state : DoublePanState
  constraints : DoublePanConstraints
  pinchData : Option DoublePinchData
  transform : Option DoubleTransform
  cursor : Option String
deriving DecidableEq

namespace DoublePannableNotesWall

open JSDouble

/-- Method `constrainValue`: `Math.max(min, Math.min(max, value))`. -/
def constrainValue (value min max : JSDouble) : JSDouble :=
  jsMax min (jsMin max value)

/-- Method `updateConstraints`. -/
def updateConstraints (dom : DoubleDom) (w : DoublePannableNotesWall) :
    DoublePannableNotesWall :=
  let canvasWidth := mul dom.offsetWidth w.state.scale
  let canvasHeight := mul dom.offsetHeight w.state.scale
  { w with constraints :=
      { w.constraints with
        minX := jsMin (ofInt 0) (neg (sub canvasWidth dom.rectWidth))
        minY := jsMin (ofInt 0) (neg (sub canvasHeight dom.rectHeight))
        maxX := ofInt 0
        maxY := ofInt 0 } }

/-- Method `updateTransform`. -/
def updateTransform (dom : DoubleDom) (w : DoublePannableNotesWall) :
    DoublePannableNotesWall :=
  let w1 := updateConstraints dom w
  let currentX := constrainValue w1.state.currentX w1.constraints.minX w1.constraints.maxX
  let currentY := constrainValue w1.state.currentY w1.constraints.minY w1.constraints.maxY
  { w1 with
    state := { w1.state with currentX := currentX, currentY := currentY }
    transform := some ⟨currentX, currentY, w1.state.scale⟩ }

/-- The constructor, once `document.querySelector` has found the wall. -/
def constructed (dom : DoubleDom) : DoublePannableNotesWall :=
  updateTransform dom
    { state :=
        { isPanning := false
          startX := ofInt 0
          startY := ofInt 0
          currentX := ofInt 0
          currentY := ofInt 0
          offsetX := ofInt 0
          offsetY := ofInt 0
          scale := ofInt 1 }
      constraints :=
        { minX := ofInt (-2000)
          maxX := ofInt 0
          minY := ofInt (-2000)
          maxY := ofInt 0
          minScale := ofFraction 8 10
          maxScale := ofInt 2 }
      pinchData := none
      transform := none
      cursor := none }

/-- Method `startPan`. -/
def startPan (e : DoubleTouchEventLike) (w : DoublePannableNotesWall) :
    DoublePannableNotesWall :=
  if e.targetHasNoteClass || e.targetClosestNote then w
  else
    { w with
      state :=
        { w.state with
          isPanning := true
          startX := sub e.clientX w.state.offsetX
          startY := sub e.clientY w.state.offsetY }
      cursor := some "grabbing" }

/-- Method `doPan`. -/
def doPan (e : DoubleTouchEventLike) (dom : DoubleDom) (w : DoublePannableNotesWall) :
    DoublePannableNotesWall :=
  if !w.state.isPanning then w
  else
    let newX := sub e.clientX w.state.startX
    let newY := sub e.clientY w.state.startY
    updateTransform dom
      { w with
        state :=
          { w.state with
            currentX := constrainValue newX w.constraints.minX w.constraints.maxX
            currentY := constrainValue newY w.constraints.minY w.constraints.maxY } }

/-- Method `endPan`. -/
def endPan (w : DoublePannableNotesWall) : DoublePannableNotesWall :=
  if !w.state.isPanning then w
  else
    { w with
      state :=
        { w.state with
          isPanning := false
          offsetX := w.state.currentX
          offsetY := w.state.currentY }
      cursor := some "grab" }

/-- Method `zoomAtPoint`. -/
def zoomAtPoint (mouseX mouseY zoomDelta : JSDouble) (dom : DoubleDom)
    (w : DoublePannableNotesWall) : DoublePannableNotesWall :=
  let oldScale := w.state.scale
  let oldX := w.state.currentX
  let oldY := w.state.currentY
  let newScale := mul oldScale (add (ofInt 1) zoomDelta)
  let constrainedScale := constrainValue newScale w.constraints.minScale w.constraints.maxScale
  if strictEq constrainedScale oldScale then w
  else
    let scaleFactor := div constrainedScale oldScale
    let newX := sub mouseX (mul (sub mouseX oldX) scaleFactor)
    let newY := sub mouseY (mul (sub mouseY oldY) scaleFactor)
    updateTransform dom
      { w with
        state :=
          { w.state with
            scale := constrainedScale
            currentX := newX
            currentY := newY
            offsetX := newX
            offsetY := newY } }

/-- Method `handlePinchZoom`, for the list `e.touches`; `Math.pow(x, 2)` is
`x * x`. -/
def handlePinchZoom (touches : List DoubleTouch) (dom : DoubleDom)
    (w : DoublePannableNotesWall) : DoublePannableNotesWall :=
  match touches with
  | [touch1, touch2] =>
    let distance := JSDouble.sqrt
      (add (mul (sub touch2.clientX touch1.clientX) (sub touch2.clientX touch1.clientX))
        (mul (sub touch2.clientY touch1.clientY) (sub touch2.clientY touch1.clientY)))
    let centerX := sub (div (add touch1.clientX touch2.clientX) (ofInt 2)) dom.rectLeft
    let centerY := sub (div (add touch1.clientY touch2.clientY) (ofInt 2)) dom.rectTop
    match w.pinchData with
    | none =>
      { w with pinchData := some { initialDistance := distance, initialScale := w.state.scale } }
    | some pinchData =>
      let scaleRatio := div distance pinchData.initialDistance
      let targetScale := mul pinchData.initialScale scaleRatio
      let zoomDelta := div (sub targetScale w.state.scale) w.state.scale
      zoomAtPoint centerX centerY zoomDelta dom w
  | _ => w

/-- The geometry of Scenario A (see `PannableNotesWall.scenarioDom`). -/
def scenarioDom : DoubleDom :=
  { rectLeft := ofInt 0, rectTop := ofInt 0, rectWidth := ofInt 800, rectHeight := ofInt 600,
    offsetWidth := ofInt 1200, offsetHeight := ofInt 1000 }

/-- A touch at the point `(x, y)` of whole numbers. -/
def touchAt (x y : Int) : DoubleTouch := { clientX := ofInt x, clientY := ofInt y }

/-- Three pinch updates on the freshly constructed wall of Scenario A, with the
touches `100`, `110` and `130` apart. -/
def pinchedTwice : DoublePannableNotesWall :=
  handlePinchZoom [touchAt 85 100, touchAt 215 100] scenarioDom
    (handlePinchZoom [touchAt 95 100, touchAt 205 100] scenarioDom
      (handlePinchZoom [touchAt 100 100, touchAt 200 100] scenarioDom (constructed scenarioDom)))

/-- The freshly constructed wall of Scenario A during a drag from `(100.3, 100)`
to `(100, 100)`. -/
def draggedByFraction : DoublePannableNotesWall :=
  doPan ⟨ofInt 100, ofInt 100, false, false⟩ scenarioDom
    (startPan ⟨ofFraction 1003 10, ofInt 100, false, false⟩ (constructed scenarioDom))

end DoublePannableNotesWall

/-! ## Arithmetic of `JSNum` on finite values and on NaN -/

namespace JSNum

@[simp] theorem neg_fin (a : ℚ) : -fin a = fin (-a) := rfl

@[simp] theorem neg_nan : -nan = nan := rfl

@[simp] theorem fin_add_fin (a b : ℚ) : fin a + fin b = fin (a + b) := rfl

@[simp] theorem fin_sub_fin (a b : ℚ) : fin a - fin b = fin (a - b) := by
  show add (fin a) (neg (fin b)) = fin (a - b)
  simp [add, neg, sub_eq_add_neg]

@[simp] theorem fin_mul_fin (a b : ℚ) : fin a * fin b = fin (a * b) := rfl

theorem fin_div_fin (a : ℚ) {b : ℚ} (h : b ≠ 0) : fin a / fin b = fin (a / b) := by
  show div (fin a) (fin b) = fin (a / b)
  simp [div, h]

@[simp] theorem nan_add (a : JSNum) : nan + a = nan := by
  cases a <;> rfl

@[simp] theorem add_nan (a : JSNum) : a + nan = nan := by
  cases a <;> rfl

@[simp] theorem nan_sub (a : JSNum) : nan - a = nan := by
  cases a <;> rfl

@[simp] theorem sub_nan (a : JSNum) : a - nan = nan := by
  cases a <;> rfl

@[simp] theorem nan_mul (a : JSNum) : nan * a = nan := by
  cases a <;> rfl

@[simp] theorem mul_nan (a : JSNum) : a * nan = nan := by
  cases a <;> rfl

@[simp] theorem nan_div (a : JSNum) : nan / a = nan := by
  cases a <;> rfl

@[simp] theorem div_nan (a : JSNum) : a / nan = nan := by
  cases a <;> rfl

@[simp] theorem fin_zero_div_fin_zero : fin 0 / fin 0 = nan := by
  show div (fin 0) (fin 0) = nan
  simp [div, infTimes]

@[simp] theorem lt_fin_fin (a b : ℚ) : lt (fin a) (fin b) = decide (a < b) := rfl

@[simp] theorem le_fin_fin (a b : ℚ) : le (fin a) (fin b) = decide (a ≤ b) := rfl

@[simp] theorem lt_nan (a : JSNum) : lt a nan = false := by
  cases a <;> rfl

@[simp] theorem nan_lt (a : JSNum) : lt nan a = false := by
  cases a <;> rfl

@[simp] theorem le_nan (a : JSNum) : le a nan = false := by
  cases a <;> rfl

@[simp] theorem nan_le (a : JSNum) : le nan a = false := by
  cases a <;> rfl

@[simp] theorem strictEq_fin_fin (a b : ℚ) : strictEq (fin a) (fin b) = decide (a = b) := by
  simp [strictEq]

@[simp] theorem strictEq_nan (a : JSNum) : strictEq a nan = false := by
  cases a <;> rfl

@[simp] theorem nan_strictEq (a : JSNum) : strictEq nan a = false := by
  cases a <;> rfl

@[simp] theorem jsMin_fin_fin (a b : ℚ) : jsMin (fin a) (fin b) = fin (min a b) := by
  simp only [jsMin, lt_fin_fin]
  by_cases h : b < a
  · simp [h, min_eq_right h.le]
  · simp [h, min_eq_left (not_lt.mp h)]

@[simp] theorem jsMax_fin_fin (a b : ℚ) : jsMax (fin a) (fin b) = fin (max a b) := by
  simp only [jsMax, lt_fin_fin]
  by_cases h : a < b
  · simp [h, max_eq_right h.le]
  · simp [h, max_eq_left (not_lt.mp h)]

@[simp] theorem jsMin_nan (a : JSNum) : jsMin a nan = nan := by
  cases a <;> rfl

@[simp] theorem nan_jsMin (a : JSNum) : jsMin nan a = nan := by
  cases a <;> rfl

@[simp] theorem jsMax_nan (a : JSNum) : jsMax a nan = nan := by
  cases a <;> rfl

@[simp] theorem nan_jsMax (a : JSNum) : jsMax nan a = nan := by
  cases a <;> rfl

@[simp] theorem jsMin_posInf_fin (a : ℚ) : jsMin posInf (fin a) = fin a := rfl

@[simp] theorem jsMin_fin_posInf (a : ℚ) : jsMin (fin a) posInf = fin a := rfl

@[simp] theorem jsMin_negInf_fin (a : ℚ) : jsMin negInf (fin a) = negInf := rfl

@[simp] theorem jsMin_fin_negInf (a : ℚ) : jsMin (fin a) negInf = negInf := rfl

@[simp] theorem jsMin_posInf_posInf : jsMin posInf posInf = posInf := rfl

@[simp] theorem jsMin_posInf_negInf : jsMin posInf negInf = negInf := rfl

@[simp] theorem jsMin_negInf_posInf : jsMin negInf posInf = negInf := rfl

@[simp] theorem jsMin_negInf_negInf : jsMin negInf negInf = negInf := rfl

@[simp] theorem jsMax_posInf_fin (a : ℚ) : jsMax posInf (fin a) = posInf := rfl

@[simp] theorem jsMax_fin_posInf (a : ℚ) : jsMax (fin a) posInf = posInf := rfl

@[simp] theorem jsMax_negInf_fin (a : ℚ) : jsMax negInf (fin a) = fin a := rfl

@[simp] theorem jsMax_fin_negInf (a : ℚ) : jsMax (fin a) negInf = fin a := rfl

@[simp] theorem jsMax_posInf_posInf : jsMax posInf posInf = posInf := rfl

@[simp] theorem jsMax_posInf_negInf : jsMax posInf negInf = posInf := rfl

@[simp] theorem jsMax_negInf_posInf : jsMax negInf posInf = posInf := rfl

@[simp] theorem jsMax_negInf_negInf : jsMax negInf negInf = negInf := rfl

theorem eq_fin_of_lt_of_lt {a v b : JSNum} (h1 : lt a v = true) (h2 : lt v b = true) :
    ∃ q, v = fin q := by
  cases v with
  | fin q => exact ⟨q, rfl⟩
  | posInf => cases b <;> simp [lt] at h2
  | negInf => cases a <;> simp [lt] at h1
  | nan => simp at h1

theorem eq_fin_of_fin_le_of_le_fin {v : JSNum} {a b : ℚ} (h1 : le (fin a) v = true)
    (h2 : le v (fin b) = true) : ∃ q, v = fin q := by
  cases v with
  | fin q => exact ⟨q, rfl⟩
  | posInf => simp [le] at h2
  | negInf => simp [le] at h1
  | nan => simp at h1

theorem eq_fin_of_isFinite {x : JSNum} (h : isFinite x = true) : ∃ q, x = fin q := by
  cases x with
  | fin q => exact ⟨q, rfl⟩
  | posInf => simp [isFinite] at h
  | negInf => simp [isFinite] at h
  | nan => simp [isFinite] at h

theorem mul_eq_fin {a b : JSNum} {n : ℚ} (h : a * b = fin n) :
    ∃ x y, a = fin x ∧ b = fin y ∧ x * y = n := by
  have h' : mul a b = fin n := h
  cases a <;> cases b <;> simp only [mul, infTimes] at h' <;>
    first
    | exact ⟨_, _, rfl, rfl, by simpa using h'⟩
    | cases h'
    | split_ifs at h'

theorem add_eq_fin {a b : JSNum} {n : ℚ} (h : a + b = fin n) :
    ∃ x y, a = fin x ∧ b = fin y ∧ x + y = n := by
  have h' : add a b = fin n := h
  cases a <;> cases b <;> simp only [add] at h' <;>
    first
    | exact ⟨_, _, rfl, rfl, by simpa using h'⟩
    | cases h'

theorem sub_eq_fin {a b : JSNum} {n : ℚ} (h : a - b = fin n) :
    ∃ x y, a = fin x ∧ b = fin y ∧ x - y = n := by
  have h' : add a (neg b) = fin n := h
  cases a <;> cases b <;> simp only [add, neg] at h' <;>
    first
    | exact ⟨_, _, rfl, rfl, by simpa [sub_eq_add_neg] using h'⟩
    | cases h'

theorem le_of_lt_js {a b : JSNum} (h : lt a b = true) : le a b = true := by
  cases a <;> cases b <;> simp [lt] at h <;> simp [le]
  exact h.le

theorem ne_nan_of_le_right {a b : JSNum} (h : le a b = true) : b ≠ nan := by
  rintro rfl
  simp at h

theorem eq_of_strictEq {a b : JSNum} (h : strictEq a b = true) : a = b := by
  cases a <;> cases b <;> simp [strictEq] at h ⊢
  exact h

theorem jsMin_zero_le_zero {x : JSNum} (h : jsMin (fin 0) x ≠ nan) :
    le (jsMin (fin 0) x) (fin 0) = true := by
  cases x <;> simp [le] at h ⊢

end JSNum

namespace PannableNotesWall

open JSNum

/-! ## Clamping -/

theorem constrainValue_fin (v mn mx : ℚ) :
    constrainValue (fin v) (fin mn) (fin mx) = fin (max mn (min mx v)) := by
  simp [constrainValue]

@[simp] theorem constrainValue_nan (mn mx : JSNum) : constrainValue nan mn mx = nan := by
  simp [constrainValue]

theorem constrainValue_of_le_of_le {v mn mx : JSNum} (h1 : le mn v = true)
    (h2 : le v mx = true) : constrainValue v mn mx = v := by
  cases v <;> cases mn <;> cases mx <;> simp [le] at h1 h2 <;>
    simp [constrainValue, *]

theorem constrainValue_of_lt_of_lt {v mn mx : JSNum} (h1 : lt mn v = true)
    (h2 : lt v mx = true) : constrainValue v mn mx = v :=
  constrainValue_of_le_of_le (le_of_lt_js h1) (le_of_lt_js h2)

/-- Clamping into stored bounds that are at least as wide as `[c, 0]` before
clamping into `[c, 0]` changes nothing. -/
theorem constrainValue_constrainValue_of_wider {v a b c : JSNum} (h1 : le a c = true)
    (h2 : le (fin 0) b = true) (h3 : le c (fin 0) = true) :
    constrainValue (constrainValue v a b) c (fin 0) = constrainValue v c (fin 0) := by
  cases v <;> cases a <;> cases b <;> cases c <;> simp [le] at h1 h2 h3 <;>
    simp [constrainValue]
  all_goals first
    | assumption
    | exact Or.inr (by assumption)
    | (simp only [max_def, min_def]
       split_ifs <;> linarith)

/-- A clamp between finite bounds `a <= b` yields NaN or a value of `[a, b]`. -/
theorem constrainValue_nan_or_within (v : JSNum) {a b : ℚ} (h : a ≤ b) :
    constrainValue v (fin a) (fin b) = nan ∨
      (le (fin a) (constrainValue v (fin a) (fin b)) = true ∧
        le (constrainValue v (fin a) (fin b)) (fin b) = true) := by
  cases v with
  | fin q =>
    right
    simp only [constrainValue_fin, le_fin_fin, decide_eq_true_eq]
    exact ⟨le_max_left _ _, max_le h (min_le_left _ _)⟩
  | posInf =>
    right
    simp [constrainValue, h]
  | negInf =>
    right
    simp [constrainValue, h]
  | nan =>
    left
    simp

/-! ## The two branches of `zoomAtPoint` -/

theorem zoomAtPoint_of_strictEq (mouseX mouseY zoomDelta : JSNum) (dom : Dom)
    (w : PannableNotesWall)
    (h : strictEq (constrainValue (newScale w zoomDelta) w.constraints.minScale
      w.constraints.maxScale) w.state.scale = true) :
    zoomAtPoint mouseX mouseY zoomDelta dom w = w := by
  simp only [newScale] at h
  simp only [zoomAtPoint]
  rw [if_pos h]

theorem zoomAtPoint_of_not_strictEq (mouseX mouseY zoomDelta : JSNum) (dom : Dom)
    (w : PannableNotesWall)
    (h : strictEq (constrainValue (newScale w zoomDelta) w.constraints.minScale
      w.constraints.maxScale) w.state.scale = false) :
    zoomAtPoint mouseX mouseY zoomDelta dom w =
      updateTransform dom
        { w with
          state :=
            { w.state with
              scale := constrainValue (newScale w zoomDelta) w.constraints.minScale
                w.constraints.maxScale
              currentX := anchoredPan mouseX w.state.currentX
                (constrainValue (newScale w zoomDelta) w.constraints.minScale
                  w.constraints.maxScale / w.state.scale)
              currentY := anchoredPan mouseY w.state.currentY
                (constrainValue (newScale w zoomDelta) w.constraints.minScale
                  w.constraints.maxScale / w.state.scale)
              offsetX := anchoredPan mouseX w.state.currentX
                (constrainValue (newScale w zoomDelta) w.constraints.minScale
                  w.constraints.maxScale / w.state.scale)
              offsetY := anchoredPan mouseY w.state.currentY
                (constrainValue (newScale w zoomDelta) w.constraints.minScale
                  w.constraints.maxScale / w.state.scale) } } := by
  simp only [newScale] at h
  simp only [zoomAtPoint, newScale, anchoredPan]
  rw [if_neg (by simp [h])]

/-- The scale `zoomAtPoint` leaves is the clamped new scale, whether the call
returns early or not. -/
theorem zoomAtPoint_scale (mouseX mouseY zoomDelta : JSNum) (dom : Dom)
    (w : PannableNotesWall) :
    (zoomAtPoint mouseX mouseY zoomDelta dom w).state.scale =
      constrainValue (newScale w zoomDelta) w.constraints.minScale w.constraints.maxScale := by
  cases hc : strictEq (constrainValue (newScale w zoomDelta) w.constraints.minScale
      w.constraints.maxScale) w.state.scale with
  | true =>
    rw [zoomAtPoint_of_strictEq _ _ _ _ _ hc]
    exact (eq_of_strictEq hc).symm
  | false =>
    rw [zoomAtPoint_of_not_strictEq _ _ _ _ _ hc]
    rfl

theorem zoomAtPoint_scale_bounds (mouseX mouseY zoomDelta : JSNum) (dom : Dom)
    (w : PannableNotesWall) :
    (zoomAtPoint mouseX mouseY zoomDelta dom w).constraints.minScale = w.constraints.minScale ∧
    (zoomAtPoint mouseX mouseY zoomDelta dom w).constraints.maxScale = w.constraints.maxScale := by
  cases hc : strictEq (constrainValue (newScale w zoomDelta) w.constraints.minScale
      w.constraints.maxScale) w.state.scale with
  | true =>
    rw [zoomAtPoint_of_strictEq _ _ _ _ _ hc]
    exact ⟨rfl, rfl⟩
  | false =>
    rw [zoomAtPoint_of_not_strictEq _ _ _ _ _ hc]
    exact ⟨rfl, rfl⟩

theorem zoomAtPoint_pinchData (mouseX mouseY zoomDelta : JSNum) (dom : Dom)
    (w : PannableNotesWall) :
    (zoomAtPoint mouseX mouseY zoomDelta dom w).pinchData = w.pinchData := by
  cases hc : strictEq (constrainValue (newScale w zoomDelta) w.constraints.minScale
      w.constraints.maxScale) w.state.scale with
  | true => rw [zoomAtPoint_of_strictEq _ _ _ _ _ hc]
  | false =>
    rw [zoomAtPoint_of_not_strictEq _ _ _ _ _ hc]
    rfl

/-! ## The scenarios, evaluated -/

theorem constructed_scenarioDom :
    constructed scenarioDom =
      { state :=
          { isPanning := false, startX := fin 0, startY := fin 0, currentX := fin 0,
            currentY := fin 0, offsetX := fin 0, offsetY := fin 0, scale := fin 1 }
        constraints :=
          { minX := fin (-400), maxX := fin 0, minY := fin (-400), maxY := fin 0,
            minScale := fin (8 / 10), maxScale := fin 2 }
        pinchData := none
        transform := some ⟨fin 0, fin 0, fin 1⟩
        cursor := none } := by
  simp [constructed, scenarioDom, updateTransform, updateConstraints, constrainValue]
  norm_num

theorem constructed_smallCanvasDom :
    constructed smallCanvasDom =
      { state :=
          { isPanning := false, startX := fin 0, startY := fin 0, currentX := fin 0,
            currentY := fin 0, offsetX := fin 0, offsetY := fin 0, scale := fin 1 }
        constraints :=
          { minX := fin (-200), maxX := fin 0, minY := fin 0, maxY := fin 0,
            minScale := fin (8 / 10), maxScale := fin 2 }
        pinchData := none
        transform := some ⟨fin 0, fin 0, fin 1⟩
        cursor := none } := by
  simp [constructed, smallCanvasDom, updateTransform, updateConstraints, constrainValue]
  norm_num

theorem constructed_fittingDom :
    constructed fittingDom =
      { state :=
          { isPanning := false, startX := fin 0, startY := fin 0, currentX := fin 0,
            currentY := fin 0, offsetX := fin 0, offsetY := fin 0, scale := fin 1 }
        constraints :=
          { minX := fin 0, maxX := fin 0, minY := fin 0, maxY := fin 0,
            minScale := fin (8 / 10), maxScale := fin 2 }
        pinchData := none
        transform := some ⟨fin 0, fin 0, fin 1⟩
        cursor := none } := by
  simp [constructed, fittingDom, updateTransform, updateConstraints, constrainValue]
  norm_num

/-- Zooming out by a tenth at the centre of the freshly constructed wall of
Scenario A: the committed pan is `(40, 30)` and the pan is clamped to `(0, 0)`. -/
theorem zoomAtPoint_scenario_out :
    zoomAtPoint (fin 400) (fin 300) (fin (-(1 / 10))) scenarioDom (constructed scenarioDom) =
      { state :=
          { isPanning := false, startX := fin 0, startY := fin 0, currentX := fin 0,
            currentY := fin 0, offsetX := fin 40, offsetY := fin 30, scale := fin (9 / 10) }
        constraints :=
          { minX := fin (-280), maxX := fin 0, minY := fin (-300), maxY := fin 0,
            minScale := fin (8 / 10), maxScale := fin 2 }
        pinchData := none
        transform := some ⟨fin 0, fin 0, fin (9 / 10)⟩
        cursor := none } := by
  rw [constructed_scenarioDom]
  have e1 : max (8 / 10 : ℚ) (min 2 (1 + -(1 / 10))) = 9 / 10 := by norm_num
  have e2 : ¬ ((9 / 10 : ℚ) = 1) := by norm_num
  simp [zoomAtPoint, scenarioDom, updateTransform, updateConstraints, constrainValue, e1, e2,
    fin_div_fin]
  norm_num

/-- Zooming in by a tenth at the centre of the freshly constructed wall of
Scenario A: the pan `(-40, -30)` lies within the new bounds and is kept. -/
theorem zoomAtPoint_scenario_in :
    zoomAtPoint (fin 400) (fin 300) (fin (1 / 10)) scenarioDom (constructed scenarioDom) =
      { state :=
          { isPanning := false, startX := fin 0, startY := fin 0, currentX := fin (-40),
            currentY := fin (-30), offsetX := fin (-40), offsetY := fin (-30),
            scale := fin (11 / 10) }
        constraints :=
          { minX := fin (-520), maxX := fin 0, minY := fin (-500), maxY := fin 0,
            minScale := fin (8 / 10), maxScale := fin 2 }
        pinchData := none
        transform := some ⟨fin (-40), fin (-30), fin (11 / 10)⟩
        cursor := none } := by
  rw [constructed_scenarioDom]
  have e1 : max (8 / 10 : ℚ) (min 2 (1 + 1 / 10)) = 11 / 10 := by norm_num
  have e2 : ¬ ((11 / 10 : ℚ) = 1) := by norm_num
  simp [zoomAtPoint, scenarioDom, updateTransform, updateConstraints, constrainValue, e1, e2,
    fin_div_fin]
  norm_num

/-- The state a freshly constructed controller is left in by two successive
pinch updates whose touches coincide: the baseline distance is `0`, the second
update divides `0` by it, and the scale, the pan and the pan bounds are NaN. -/
theorem run_coincidentPinches (sqrt : ℚ → ℚ) (h0 : sqrt 0 = 0) (dom : Dom) (t : Touch) :
    run sqrt (coincidentPinches t dom) (constructed dom) =
      { state :=
          { isPanning := false, startX := fin 0, startY := fin 0, currentX := nan,
            currentY := nan, offsetX := nan, offsetY := nan, scale := nan }
        constraints :=
          { minX := nan, maxX := fin 0, minY := nan, maxY := fin 0, minScale := fin (8 / 10),
            maxScale := fin 2 }
        pinchData := some ⟨fin 0, fin 1⟩
        transform := some ⟨nan, nan, nan⟩
        cursor := none } := by
  simp [run, step, coincidentPinches, handlePinchZoom, h0, constructed, updateTransform,
    updateConstraints, zoomAtPoint, constrainValue]

theorem sqrt_10000 : Rat.sqrt 10000 = 100 := by
  rw [show (10000 : ℚ) = 100 * 100 by norm_num, Rat.sqrt_eq]
  norm_num

theorem sqrt_40000 : Rat.sqrt 40000 = 200 := by
  rw [show (40000 : ℚ) = 200 * 200 by norm_num, Rat.sqrt_eq]
  norm_num

/-! ## C1: the pan bounds -/

/-- From a state whose scale and pan are finite, `updateTransform` leaves the
pan within the bounds it has just recomputed. -/
theorem updateTransform_panWithinBounds (dom : Dom) (w : PannableNotesWall) (s x y : ℚ)
    (hs : w.state.scale = fin s) (hx : w.state.currentX = fin x)
    (hy : w.state.currentY = fin y) :
    panWithinBounds (updateTransform dom w) = true := by
  simp [panWithinBounds, updateTransform, updateConstraints, constrainValue, hs, hx, hy]

/-- After `updateTransform` the pan is, on each axis, NaN or within the bounds
just recomputed. -/
theorem updateTransform_pan_nan_or_within (dom : Dom) (w : PannableNotesWall) :
    ((updateTransform dom w).state.currentX = nan ∨
      (le (updateTransform dom w).constraints.minX (updateTransform dom w).state.currentX = true ∧
        le (updateTransform dom w).state.currentX (updateTransform dom w).constraints.maxX =
          true)) ∧
    ((updateTransform dom w).state.currentY = nan ∨
      (le (updateTransform dom w).constraints.minY (updateTransform dom w).state.currentY = true ∧
        le (updateTransform dom w).state.currentY (updateTransform dom w).constraints.maxY =
          true)) := by
  simp only [updateTransform, updateConstraints]
  constructor
  · generalize -(fin dom.offsetWidth * w.state.scale - fin dom.rectWidth) = m
    cases m <;> cases w.state.currentX <;> simp [constrainValue, le]
  · generalize -(fin dom.offsetHeight * w.state.scale - fin dom.rectHeight) = m
    cases m <;> cases w.state.currentY <;> simp [constrainValue, le]

/-- C1 (the code breaks it): on a freshly constructed controller, two successive
`handlePinchZoom` calls whose two touches coincide end in an `updateTransform`
after which the pan and its freshly recomputed lower bounds are NaN, so the pan
is not within `[minX, maxX]` and `[minY, maxY]`. -/
theorem pan_bounds_lost_after_coincident_pinch (sqrt : ℚ → ℚ) (h0 : sqrt 0 = 0) (dom : Dom)
    (t : Touch) :
    (run sqrt (coincidentPinches t dom) (constructed dom)).state.currentX = nan ∧
    (run sqrt (coincidentPinches t dom) (constructed dom)).state.currentY = nan ∧
    (run sqrt (coincidentPinches t dom) (constructed dom)).constraints.minX = nan ∧
    (run sqrt (coincidentPinches t dom) (constructed dom)).constraints.minY = nan ∧
    (run sqrt (coincidentPinches t dom) (constructed dom)).transform = some ⟨nan, nan, nan⟩ ∧
    panWithinBounds (run sqrt (coincidentPinches t dom) (constructed dom)) = false := by
  rw [run_coincidentPinches sqrt h0 dom t]
  simp [panWithinBounds]

/-- C1, at the wall of Scenario A with both touches at `(100, 100)`. -/
theorem pan_bounds_lost_after_coincident_pinch_witness :
    Rat.sqrt 0 = 0 ∧
    panWithinBounds
      (run Rat.sqrt (coincidentPinches ⟨100, 100⟩ scenarioDom) (constructed scenarioDom)) =
        false :=
  ⟨by simp, (pan_bounds_lost_after_coincident_pinch Rat.sqrt (by simp) scenarioDom
    ⟨100, 100⟩).2.2.2.2.2⟩

/-! ## C2: the scale bounds -/

/-- With finite scale bounds `minScale <= maxScale`, a finite scale and a finite
delta, `zoomAtPoint` leaves the scale within the bounds. -/
theorem zoomAtPoint_scaleWithinBounds (w : PannableNotesWall) (dom : Dom)
    (mouseX mouseY : JSNum) (s d mn mx : ℚ) (hs : w.state.scale = fin s)
    (hmn : w.constraints.minScale = fin mn) (hmx : w.constraints.maxScale = fin mx)
    (hle : mn ≤ mx) :
    scaleWithinBounds (zoomAtPoint mouseX mouseY (fin d) dom w) = true := by
  have h1 := zoomAtPoint_scale mouseX mouseY (fin d) dom w
  have h2 : (zoomAtPoint mouseX mouseY (fin d) dom w).constraints.minScale = fin mn := by
    cases hc : strictEq (constrainValue (newScale w (fin d)) w.constraints.minScale
        w.constraints.maxScale) w.state.scale with
    | true => rw [zoomAtPoint_of_strictEq _ _ _ _ _ hc, hmn]
    | false =>
      rw [zoomAtPoint_of_not_strictEq _ _ _ _ _ hc]
      exact hmn
  have h3 : (zoomAtPoint mouseX mouseY (fin d) dom w).constraints.maxScale = fin mx := by
    cases hc : strictEq (constrainValue (newScale w (fin d)) w.constraints.minScale
        w.constraints.maxScale) w.state.scale with
    | true => rw [zoomAtPoint_of_strictEq _ _ _ _ _ hc, hmx]
    | false =>
      rw [zoomAtPoint_of_not_strictEq _ _ _ _ _ hc]
      exact hmx
  simp only [scaleWithinBounds, h1, h2, h3, hmn, hmx, newScale, hs, fin_add_fin, fin_mul_fin,
    constrainValue_fin, le_fin_fin, Bool.and_eq_true, decide_eq_true_eq]
  exact ⟨le_max_left _ _, max_le hle (min_le_left _ _)⟩

/-- With finite scale bounds `minScale <= maxScale`, `handleGesture` with a
truthy gesture scale, infinite ones included, leaves the scale within the
bounds. -/
theorem handleGesture_scaleWithinBounds (w : PannableNotesWall) (dom : Dom)
    (e : GestureEventData) (mn mx : ℚ) (ht : truthy e.scale = true)
    (hmn : w.constraints.minScale = fin mn) (hmx : w.constraints.maxScale = fin mx)
    (hle : mn ≤ mx) :
    scaleWithinBounds (handleGesture e dom w) = true := by
  obtain ⟨g⟩ := e
  cases g with
  | fin q =>
    simp only [handleGesture, ht, if_true, scaleWithinBounds, updateTransform, updateConstraints,
      hmn, hmx, constrainValue_fin, le_fin_fin, Bool.and_eq_true, decide_eq_true_eq]
    exact ⟨le_max_left _ _, max_le hle (min_le_left _ _)⟩
  | posInf =>
    simp [handleGesture, truthy, scaleWithinBounds, updateTransform, updateConstraints, hmn, hmx,
      constrainValue, hle]
  | negInf =>
    simp [handleGesture, truthy, scaleWithinBounds, updateTransform, updateConstraints, hmn, hmx,
      constrainValue, hle]
  | nan => simp [truthy] at ht

/-- With the scale bounds of the constructor, `zoomAtPoint` on any arguments
leaves a scale that is NaN or within the bounds. -/
theorem zoomAtPoint_scale_nan_or_within (mouseX mouseY zoomDelta : JSNum) (dom : Dom)
    (w : PannableNotesWall)
    (h : w.constraints.minScale = fin (8 / 10) ∧ w.constraints.maxScale = fin 2) :
    (zoomAtPoint mouseX mouseY zoomDelta dom w).constraints.minScale = fin (8 / 10) ∧
    (zoomAtPoint mouseX mouseY zoomDelta dom w).constraints.maxScale = fin 2 ∧
    ((zoomAtPoint mouseX mouseY zoomDelta dom w).state.scale = nan ∨
      scaleWithinBounds (zoomAtPoint mouseX mouseY zoomDelta dom w) = true) := by
  obtain ⟨h1, h2⟩ := zoomAtPoint_scale_bounds mouseX mouseY zoomDelta dom w
  refine ⟨h1.trans h.1, h2.trans h.2, ?_⟩
  simp only [scaleWithinBounds, h1, h2, zoomAtPoint_scale, h.1, h.2, Bool.and_eq_true]
  exact constrainValue_nan_or_within _ (by norm_num)

/-- Every call keeps the scale bounds of the constructor and leaves a scale that
is NaN or within them. -/
theorem step_scale_nan_or_within (sqrt : ℚ → ℚ) (w : PannableNotesWall) (op : Op)
    (h : w.constraints.minScale = fin (8 / 10) ∧ w.constraints.maxScale = fin 2 ∧
      (w.state.scale = nan ∨ scaleWithinBounds w = true)) :
    (step sqrt w op).constraints.minScale = fin (8 / 10) ∧
    (step sqrt w op).constraints.maxScale = fin 2 ∧
    ((step sqrt w op).state.scale = nan ∨ scaleWithinBounds (step sqrt w op) = true) := by
  obtain ⟨h1, h2, h3⟩ := h
  have hupd : ∀ (dom : Dom) (v : PannableNotesWall), v.constraints.minScale = fin (8 / 10) →
      v.constraints.maxScale = fin 2 → v.state.scale = w.state.scale →
      (updateTransform dom v).constraints.minScale = fin (8 / 10) ∧
      (updateTransform dom v).constraints.maxScale = fin 2 ∧
      ((updateTransform dom v).state.scale = nan ∨
        scaleWithinBounds (updateTransform dom v) = true) := by
    intro dom v hv1 hv2 hv3
    refine ⟨hv1, hv2, ?_⟩
    simp only [scaleWithinBounds, h1, h2] at h3
    simp only [scaleWithinBounds, updateTransform, updateConstraints, hv1, hv2, hv3]
    exact h3
  cases op with
  | startPan e =>
    simp only [step, startPan]
    split_ifs
    · exact ⟨h1, h2, h3⟩
    · exact ⟨h1, h2, h3⟩
  | doPan e dom =>
    simp only [step, doPan]
    split_ifs
    · exact ⟨h1, h2, h3⟩
    · exact hupd dom _ h1 h2 rfl
  | endPan =>
    simp only [step, endPan]
    split_ifs
    · exact ⟨h1, h2, h3⟩
    · exact ⟨h1, h2, h3⟩
  | handleWheel e dom => exact zoomAtPoint_scale_nan_or_within _ _ _ dom w ⟨h1, h2⟩
  | zoomAtPoint a b c dom => exact zoomAtPoint_scale_nan_or_within _ _ _ dom w ⟨h1, h2⟩
  | handleTouchStart e =>
    simp only [step, handleTouchStart]
    split
    · simp only [startPan]
      split_ifs
      · exact ⟨h1, h2, h3⟩
      · exact ⟨h1, h2, h3⟩
    · exact ⟨h1, h2, h3⟩
  | handleTouchMove e dom =>
    simp only [step, handleTouchMove]
    split
    · split_ifs
      · simp only [doPan]
        split_ifs
        · exact ⟨h1, h2, h3⟩
        · exact hupd dom _ h1 h2 rfl
      · exact ⟨h1, h2, h3⟩
    · simp only [handlePinchZoom]
      split
      · split
        · exact ⟨h1, h2, h3⟩
        · exact zoomAtPoint_scale_nan_or_within _ _ _ dom w ⟨h1, h2⟩
      · exact ⟨h1, h2, h3⟩
    · exact ⟨h1, h2, h3⟩
  | handlePinchZoom e dom =>
    simp only [step, handlePinchZoom]
    split
    · split
      · exact ⟨h1, h2, h3⟩
      · exact zoomAtPoint_scale_nan_or_within _ _ _ dom w ⟨h1, h2⟩
    · exact ⟨h1, h2, h3⟩
  | handleTouchEnd =>
    simp only [step, handleTouchEnd, endPan]
    split_ifs
    · exact ⟨h1, h2, h3⟩
    · exact ⟨h1, h2, h3⟩
  | handleGesture e dom =>
    simp only [step, handleGesture]
    split_ifs
    · refine ⟨h1, h2, ?_⟩
      simp only [scaleWithinBounds, updateTransform, updateConstraints, h1, h2,
        Bool.and_eq_true]
      exact constrainValue_nan_or_within _ (by norm_num)
    · exact ⟨h1, h2, h3⟩
  | resetView dom =>
    refine ⟨h1, h2, Or.inr ?_⟩
    simp only [step, scaleWithinBounds, resetView, updateTransform, updateConstraints, h1, h2,
      le_fin_fin, Bool.and_eq_true, decide_eq_true_eq]
    norm_num
  | zoomIn dom => exact zoomAtPoint_scale_nan_or_within _ _ _ dom w ⟨h1, h2⟩
  | zoomOut dom => exact zoomAtPoint_scale_nan_or_within _ _ _ dom w ⟨h1, h2⟩

/-- In every state reachable from construction the scale is NaN or within
`[0.8, 2.0]`. -/
theorem run_scale_nan_or_within (sqrt : ℚ → ℚ) (dom : Dom) (ops : List Op) :
    (run sqrt ops (constructed dom)).state.scale = nan ∨
      scaleWithinBounds (run sqrt ops (constructed dom)) = true := by
  have key : ∀ (l : List Op) (w : PannableNotesWall),
      (w.constraints.minScale = fin (8 / 10) ∧ w.constraints.maxScale = fin 2 ∧
        (w.state.scale = nan ∨ scaleWithinBounds w = true)) →
      ((run sqrt l w).constraints.minScale = fin (8 / 10) ∧
        (run sqrt l w).constraints.maxScale = fin 2 ∧
        ((run sqrt l w).state.scale = nan ∨ scaleWithinBounds (run sqrt l w) = true)) := by
    intro l
    induction l with
    | nil =>
      intro w h
      exact h
    | cons op rest ih =>
      intro w h
      exact ih (step sqrt w op) (step_scale_nan_or_within sqrt w op h)
  refine (key ops (constructed dom) ⟨rfl, rfl, Or.inr ?_⟩).2.2
  simp [scaleWithinBounds, constructed, updateTransform, updateConstraints]
  norm_num

/-- C2 (the code breaks it): on a freshly constructed controller, two successive
`handlePinchZoom` calls whose two touches coincide leave the scale NaN, which
is not within `[minScale, maxScale] = [0.8, 2.0]`. -/
theorem scale_bounds_lost_after_coincident_pinch (sqrt : ℚ → ℚ) (h0 : sqrt 0 = 0) (dom : Dom)
    (t : Touch) :
    (run sqrt (coincidentPinches t dom) (constructed dom)).state.scale = nan ∧
    (run sqrt (coincidentPinches t dom) (constructed dom)).constraints.minScale =
      fin (8 / 10) ∧
    (run sqrt (coincidentPinches t dom) (constructed dom)).constraints.maxScale = fin 2 ∧
    scaleWithinBounds (run sqrt (coincidentPinches t dom) (constructed dom)) = false := by
  rw [run_coincidentPinches sqrt h0 dom t]
  simp [scaleWithinBounds]

/-- C2, at the wall of Scenario A with both touches at `(100, 100)`. -/
theorem scale_bounds_lost_after_coincident_pinch_witness :
    Rat.sqrt 0 = 0 ∧
    scaleWithinBounds
      (run Rat.sqrt (coincidentPinches ⟨100, 100⟩ scenarioDom) (constructed scenarioDom)) =
        false :=
  ⟨by simp, (scale_bounds_lost_after_coincident_pinch Rat.sqrt (by simp) scenarioDom
    ⟨100, 100⟩).2.2.2⟩

/-! ## C3: the anchor of `zoomAtPoint` -/

/-- C3 (as stated, it fails): on the freshly constructed wall of Scenario A
(scale `1`, pan `(0, 0)`), `zoomAtPoint` at the anchor `(400, 300)` with delta
`-0.1` has its new scale `0.9` strictly inside `[0.8, 2.0]`, yet the pan after
the call is `0` on the x axis, not `P - (P - oldPan) * factor = 40`, and the
canvas-space point under the anchor has moved. -/
theorem zoomAtPoint_anchor_lost_when_clamped :
    lt (constructed scenarioDom).constraints.minScale
      (newScale (constructed scenarioDom) (fin (-(1 / 10)))) = true ∧
    lt (newScale (constructed scenarioDom) (fin (-(1 / 10))))
      (constructed scenarioDom).constraints.maxScale = true ∧
    (zoomAtPoint (fin 400) (fin 300) (fin (-(1 / 10))) scenarioDom
      (constructed scenarioDom)).state.currentX = fin 0 ∧
    anchoredPan (fin 400) (constructed scenarioDom).state.currentX
      (newScale (constructed scenarioDom) (fin (-(1 / 10))) /
        (constructed scenarioDom).state.scale) = fin 40 ∧
    (zoomAtPoint (fin 400) (fin 300) (fin (-(1 / 10))) scenarioDom
      (constructed scenarioDom)).state.currentX ≠
      anchoredPan (fin 400) (constructed scenarioDom).state.currentX
        (newScale (constructed scenarioDom) (fin (-(1 / 10))) /
          (constructed scenarioDom).state.scale) ∧
    (fin 400 - (zoomAtPoint (fin 400) (fin 300) (fin (-(1 / 10))) scenarioDom
        (constructed scenarioDom)).state.currentX) /
      (zoomAtPoint (fin 400) (fin 300) (fin (-(1 / 10))) scenarioDom
        (constructed scenarioDom)).state.scale ≠
      (fin 400 - (constructed scenarioDom).state.currentX) /
        (constructed scenarioDom).state.scale := by
  rw [zoomAtPoint_scenario_out, constructed_scenarioDom]
  simp [newScale, anchoredPan, fin_div_fin]
  norm_num

/-- C3 (as amended): for every state, every anchor point `P` and every delta
whose new scale `oldScale * (1 + delta)` lies strictly inside
`[minScale, maxScale]`, if the pan `P - (P - oldPan) * factor`, with
`factor = newScale / oldScale`, lies within the pan bounds `[minX, maxX]` and
`[minY, maxY]` that the call leaves, then `zoomAtPoint(P, delta)` changes
nothing when the new scale equals the old scale, and otherwise leaves the scale
at the new scale and the pan, on both axes, at the value
`P - (P - oldPan) * factor` as the code computes it. -/
theorem zoomAtPoint_keeps_anchor_within_bounds (w : PannableNotesWall) (dom : Dom)
    (px py : ℚ) (delta : JSNum)
    (h1 : lt w.constraints.minScale (newScale w delta) = true)
    (h2 : lt (newScale w delta) w.constraints.maxScale = true)
    (hx1 : le (zoomAtPoint (fin px) (fin py) delta dom w).constraints.minX
      (anchoredPan (fin px) w.state.currentX (newScale w delta / w.state.scale)) = true)
    (hx2 : le (anchoredPan (fin px) w.state.currentX (newScale w delta / w.state.scale))
      (zoomAtPoint (fin px) (fin py) delta dom w).constraints.maxX = true)
    (hy1 : le (zoomAtPoint (fin px) (fin py) delta dom w).constraints.minY
      (anchoredPan (fin py) w.state.currentY (newScale w delta / w.state.scale)) = true)
    (hy2 : le (anchoredPan (fin py) w.state.currentY (newScale w delta / w.state.scale))
      (zoomAtPoint (fin px) (fin py) delta dom w).constraints.maxY = true) :
    (strictEq (newScale w delta) w.state.scale = true →
      zoomAtPoint (fin px) (fin py) delta dom w = w) ∧
    (strictEq (newScale w delta) w.state.scale = false →
      (zoomAtPoint (fin px) (fin py) delta dom w).state.scale = newScale w delta ∧
      (zoomAtPoint (fin px) (fin py) delta dom w).state.currentX =
        anchoredPan (fin px) w.state.currentX (newScale w delta / w.state.scale) ∧
      (zoomAtPoint (fin px) (fin py) delta dom w).state.currentY =
        anchoredPan (fin py) w.state.currentY (newScale w delta / w.state.scale)) := by
  have hcv : constrainValue (newScale w delta) w.constraints.minScale
      w.constraints.maxScale = newScale w delta := constrainValue_of_lt_of_lt h1 h2
  constructor
  · intro heq
    exact zoomAtPoint_of_strictEq _ _ _ _ _ (by rw [hcv]; exact heq)
  · intro hne
    have hw := zoomAtPoint_of_not_strictEq (fin px) (fin py) delta dom w
      (by rw [hcv]; exact hne)
    rw [hcv] at hw
    rw [hw] at hx1 hx2 hy1 hy2 ⊢
    simp only [updateTransform, updateConstraints] at hx1 hx2 hy1 hy2 ⊢
    rw [constrainValue_of_le_of_le hx1 hx2, constrainValue_of_le_of_le hy1 hy2]
    exact ⟨trivial, rfl, rfl⟩

/-- C3 (as amended), on the freshly constructed wall of Scenario A with the
anchor `(400, 300)` and delta `0.1`: the new scale differs from the old, and
the pan on the x axis is `P - (P - oldPan) * factor = -40`, within the new
bounds. -/
theorem zoomAtPoint_keeps_anchor_within_bounds_witness :
    lt (constructed scenarioDom).constraints.minScale
      (newScale (constructed scenarioDom) (fin (1 / 10))) = true ∧
    strictEq (newScale (constructed scenarioDom) (fin (1 / 10)))
      (constructed scenarioDom).state.scale = false ∧
    (zoomAtPoint (fin 400) (fin 300) (fin (1 / 10)) scenarioDom
      (constructed scenarioDom)).state.scale = newScale (constructed scenarioDom) (fin (1 / 10)) ∧
    (zoomAtPoint (fin 400) (fin 300) (fin (1 / 10)) scenarioDom
      (constructed scenarioDom)).state.currentX =
      anchoredPan (fin 400) (constructed scenarioDom).state.currentX
        (newScale (constructed scenarioDom) (fin (1 / 10)) /
          (constructed scenarioDom).state.scale) ∧
    anchoredPan (fin 400) (constructed scenarioDom).state.currentX
        (newScale (constructed scenarioDom) (fin (1 / 10)) /
          (constructed scenarioDom).state.scale) = fin (-40) := by
  have hne : strictEq (newScale (constructed scenarioDom) (fin (1 / 10)))
      (constructed scenarioDom).state.scale = false := by
    rw [constructed_scenarioDom]
    simp [newScale]
  have h := (zoomAtPoint_keeps_anchor_within_bounds (constructed scenarioDom) scenarioDom
    400 300 (fin (1 / 10))
    (by rw [constructed_scenarioDom]; simp [newScale]; norm_num)
    (by rw [constructed_scenarioDom]; simp [newScale]; norm_num)
    (by rw [zoomAtPoint_scenario_in, constructed_scenarioDom]
        simp [newScale, anchoredPan, fin_div_fin]; norm_num)
    (by rw [zoomAtPoint_scenario_in, constructed_scenarioDom]
        simp [newScale, anchoredPan, fin_div_fin])
    (by rw [zoomAtPoint_scenario_in, constructed_scenarioDom]
        simp [newScale, anchoredPan, fin_div_fin]; norm_num)
    (by rw [zoomAtPoint_scenario_in, constructed_scenarioDom]
        simp [newScale, anchoredPan, fin_div_fin])).2 hne
  refine ⟨?_, hne, h.1, h.2.1, ?_⟩
  · rw [constructed_scenarioDom]
    simp [newScale]
    norm_num
  · rw [constructed_scenarioDom]
    simp [newScale, anchoredPan, fin_div_fin]
    norm_num

/-! ## C4: `zoomAtPoint` at a scale bound -/

/-- C4: with finite scale bounds `0 < minScale <= maxScale`, if the scale equals
`maxScale` and the delta is positive, or the scale equals `minScale` and the
delta is negative, then `zoomAtPoint` at any anchor returns the controller
unchanged: scale, pan, committed pan, drag fields, constraints, pinch baseline
and rendered transform are all as before. -/
theorem zoomAtPoint_noop_at_bound (w : PannableNotesWall) (dom : Dom)
    (mouseX mouseY delta : JSNum) (mn mx : ℚ)
    (hmn : w.constraints.minScale = fin mn) (hmx : w.constraints.maxScale = fin mx)
    (hpos : 0 < mn) (hle : mn ≤ mx)
    (h : (w.state.scale = w.constraints.maxScale ∧ lt (fin 0) delta = true) ∨
      (w.state.scale = w.constraints.minScale ∧ lt delta (fin 0) = true)) :
    zoomAtPoint mouseX mouseY delta dom w = w := by
  have hmxpos : 0 < mx := lt_of_lt_of_le hpos hle
  rcases h with ⟨hs, hd⟩ | ⟨hs, hd⟩
  · rw [hmx] at hs
    cases delta with
    | fin d =>
      have hd0 : 0 < d := by simpa using hd
      have h1 : mx ≤ mx * (1 + d) := by nlinarith
      simp [zoomAtPoint, hs, hmn, hmx, constrainValue, min_eq_left h1, max_eq_right hle]
    | posInf =>
      have e1 : fin mx * (fin 1 + posInf) = posInf := by
        show mul (fin mx) (add (fin 1) posInf) = posInf
        simp [mul, add, infTimes, hmxpos, hmxpos.ne.symm]
      simp [zoomAtPoint, hs, hmn, hmx, constrainValue, e1, jsMin, lt, max_eq_right hle]
    | negInf => simp [lt] at hd
    | nan => simp at hd
  · rw [hmn] at hs
    cases delta with
    | fin d =>
      have hd0 : d < 0 := by simpa using hd
      have h1 : mn * (1 + d) ≤ mn := by nlinarith
      have h2 : min mx (mn * (1 + d)) ≤ mn := le_trans (min_le_right _ _) h1
      simp [zoomAtPoint, hs, hmn, hmx, constrainValue, max_eq_left h2]
    | negInf =>
      have e1 : fin mn * (fin 1 + negInf) = negInf := by
        show mul (fin mn) (add (fin 1) negInf) = negInf
        simp [mul, add, infTimes, hpos, hpos.ne.symm, not_lt.mpr hpos.le]
      simp [zoomAtPoint, hs, hmn, hmx, constrainValue, e1, jsMin, jsMax, lt]
    | posInf => simp [lt] at hd
    | nan => simp at hd

/-- C4, on the freshly constructed wall of Scenario A zoomed in to the upper
bound `2.0`: a further `zoomIn`-like call with delta `0.1` changes nothing. -/
theorem zoomAtPoint_noop_at_bound_witness :
    (handleGesture ⟨fin 2⟩ scenarioDom (constructed scenarioDom)).state.scale = fin 2 ∧
    zoomAtPoint (fin 400) (fin 300) (fin (1 / 10)) scenarioDom
        (handleGesture ⟨fin 2⟩ scenarioDom (constructed scenarioDom)) =
      handleGesture ⟨fin 2⟩ scenarioDom (constructed scenarioDom) := by
  have hs : (handleGesture ⟨fin 2⟩ scenarioDom (constructed scenarioDom)).state.scale = fin 2 := by
    simp [handleGesture, truthy, constructed, updateTransform, updateConstraints, constrainValue]
    norm_num
  refine ⟨hs, ?_⟩
  exact zoomAtPoint_noop_at_bound _ scenarioDom (fin 400) (fin 300) (fin (1 / 10)) (8 / 10) 2
    rfl rfl (by norm_num) (by norm_num) (Or.inl ⟨hs, by simp⟩)

/-! ## C5: the committed pan after `zoomAtPoint` -/

/-- C5 (as stated, it fails): on the freshly constructed wall of Scenario A,
`zoomAtPoint` at `(400, 300)` with delta `-0.1` changes the scale from `1` to
`0.9` and leaves the committed pan at `(40, 30)` but the current pan at
`(0, 0)`. -/
theorem zoomAtPoint_committed_differs_from_current :
    (zoomAtPoint (fin 400) (fin 300) (fin (-(1 / 10))) scenarioDom
      (constructed scenarioDom)).state.scale = fin (9 / 10) ∧
    (constructed scenarioDom).state.scale = fin 1 ∧
    (zoomAtPoint (fin 400) (fin 300) (fin (-(1 / 10))) scenarioDom
      (constructed scenarioDom)).state.offsetX = fin 40 ∧
    (zoomAtPoint (fin 400) (fin 300) (fin (-(1 / 10))) scenarioDom
      (constructed scenarioDom)).state.offsetY = fin 30 ∧
    (zoomAtPoint (fin 400) (fin 300) (fin (-(1 / 10))) scenarioDom
      (constructed scenarioDom)).state.currentX = fin 0 ∧
    (zoomAtPoint (fin 400) (fin 300) (fin (-(1 / 10))) scenarioDom
      (constructed scenarioDom)).state.currentY = fin 0 ∧
    (zoomAtPoint (fin 400) (fin 300) (fin (-(1 / 10))) scenarioDom
      (constructed scenarioDom)).state.offsetX ≠
      (zoomAtPoint (fin 400) (fin 300) (fin (-(1 / 10))) scenarioDom
        (constructed scenarioDom)).state.currentX := by
  rw [zoomAtPoint_scenario_out, constructed_scenarioDom]
  simp

/-- C5 (as amended): after every `zoomAtPoint` call that changes the scale, the
committed pan is the unclamped new pan `P - (P - oldPan) * factor`, with
`factor = newScale / oldScale`, and the current pan, which is the one rendered,
is the committed pan clamped into the freshly recomputed bounds; so the two are
equal on an axis whenever the committed pan lies within the bounds there. -/
theorem zoomAtPoint_current_is_clamped_committed (w : PannableNotesWall) (dom : Dom)
    (mouseX mouseY delta : JSNum)
    (h : (zoomAtPoint mouseX mouseY delta dom w).state.scale ≠ w.state.scale) :
    (zoomAtPoint mouseX mouseY delta dom w).state.offsetX =
      anchoredPan mouseX w.state.currentX
        ((zoomAtPoint mouseX mouseY delta dom w).state.scale / w.state.scale) ∧
    (zoomAtPoint mouseX mouseY delta dom w).state.offsetY =
      anchoredPan mouseY w.state.currentY
        ((zoomAtPoint mouseX mouseY delta dom w).state.scale / w.state.scale) ∧
    (zoomAtPoint mouseX mouseY delta dom w).state.currentX =
      constrainValue (zoomAtPoint mouseX mouseY delta dom w).state.offsetX
        (zoomAtPoint mouseX mouseY delta dom w).constraints.minX
        (zoomAtPoint mouseX mouseY delta dom w).constraints.maxX ∧
    (zoomAtPoint mouseX mouseY delta dom w).state.currentY =
      constrainValue (zoomAtPoint mouseX mouseY delta dom w).state.offsetY
        (zoomAtPoint mouseX mouseY delta dom w).constraints.minY
        (zoomAtPoint mouseX mouseY delta dom w).constraints.maxY ∧
    (zoomAtPoint mouseX mouseY delta dom w).constraints =
      (updateConstraints dom (zoomAtPoint mouseX mouseY delta dom w)).constraints ∧
    (zoomAtPoint mouseX mouseY delta dom w).transform =
      some ⟨(zoomAtPoint mouseX mouseY delta dom w).state.currentX,
        (zoomAtPoint mouseX mouseY delta dom w).state.currentY,
        (zoomAtPoint mouseX mouseY delta dom w).state.scale⟩ ∧
    (le (zoomAtPoint mouseX mouseY delta dom w).constraints.minX
        (zoomAtPoint mouseX mouseY delta dom w).state.offsetX = true →
      le (zoomAtPoint mouseX mouseY delta dom w).state.offsetX
        (zoomAtPoint mouseX mouseY delta dom w).constraints.maxX = true →
      (zoomAtPoint mouseX mouseY delta dom w).state.offsetX =
        (zoomAtPoint mouseX mouseY delta dom w).state.currentX) ∧
    (le (zoomAtPoint mouseX mouseY delta dom w).constraints.minY
        (zoomAtPoint mouseX mouseY delta dom w).state.offsetY = true →
      le (zoomAtPoint mouseX mouseY delta dom w).state.offsetY
        (zoomAtPoint mouseX mouseY delta dom w).constraints.maxY = true →
      (zoomAtPoint mouseX mouseY delta dom w).state.offsetY =
        (zoomAtPoint mouseX mouseY delta dom w).state.currentY) := by
  cases hc : strictEq (constrainValue (newScale w delta) w.constraints.minScale
      w.constraints.maxScale) w.state.scale with
  | true =>
    rw [zoomAtPoint_of_strictEq _ _ _ _ _ hc] at h
    exact absurd rfl h
  | false =>
    rw [zoomAtPoint_of_not_strictEq _ _ _ _ _ hc]
    refine ⟨rfl, rfl, rfl, rfl, rfl, rfl, ?_, ?_⟩
    · intro h1 h2
      exact (constrainValue_of_le_of_le h1 h2).symm
    · intro h1 h2
      exact (constrainValue_of_le_of_le h1 h2).symm

/-- C5 (as amended), on the freshly constructed wall of Scenario A zoomed out
by a tenth at `(400, 300)`. -/
theorem zoomAtPoint_current_is_clamped_committed_witness :
    (zoomAtPoint (fin 400) (fin 300) (fin (-(1 / 10))) scenarioDom
      (constructed scenarioDom)).state.scale ≠ (constructed scenarioDom).state.scale ∧
    (zoomAtPoint (fin 400) (fin 300) (fin (-(1 / 10))) scenarioDom
      (constructed scenarioDom)).state.currentX =
      constrainValue
        (zoomAtPoint (fin 400) (fin 300) (fin (-(1 / 10))) scenarioDom
          (constructed scenarioDom)).state.offsetX
        (zoomAtPoint (fin 400) (fin 300) (fin (-(1 / 10))) scenarioDom
          (constructed scenarioDom)).constraints.minX
        (zoomAtPoint (fin 400) (fin 300) (fin (-(1 / 10))) scenarioDom
          (constructed scenarioDom)).constraints.maxX :=
  have h : (zoomAtPoint (fin 400) (fin 300) (fin (-(1 / 10))) scenarioDom
      (constructed scenarioDom)).state.scale ≠ (constructed scenarioDom).state.scale := by
    rw [zoomAtPoint_scenario_out, constructed_scenarioDom]
    simp
    norm_num
  ⟨h, (zoomAtPoint_current_is_clamped_committed (constructed scenarioDom) scenarioDom (fin 400)
    (fin 300) (fin (-(1 / 10))) h).2.2.1⟩

/-! ## C6: a drag -/

/-- C6 (as stated, it fails): the controller is constructed while the canvas is
1000 by 600 (stored bounds `minX = -200`, `minY = 0`), a drag starts at
`(500, 300)`, the canvas grows to 1200 by 1000, and `doPan` at `(200, 0)` finds
the fresh bounds `minX = minY = -400`; the pan it sets is `(-200, 0)`, not
`clamp(q - dragAnchor, panMin, 0) = (-300, -300)`. -/
theorem doPan_clamps_with_stored_bounds_first :
    (startPan ⟨500, 300, false, false⟩ (constructed smallCanvasDom)).state.startX = fin 500 ∧
    (startPan ⟨500, 300, false, false⟩ (constructed smallCanvasDom)).state.startY = fin 300 ∧
    (doPan ⟨200, 0, false, false⟩ scenarioDom
      (startPan ⟨500, 300, false, false⟩ (constructed smallCanvasDom))).constraints.minX =
        fin (-400) ∧
    (doPan ⟨200, 0, false, false⟩ scenarioDom
      (startPan ⟨500, 300, false, false⟩ (constructed smallCanvasDom))).constraints.minY =
        fin (-400) ∧
    (doPan ⟨200, 0, false, false⟩ scenarioDom
      (startPan ⟨500, 300, false, false⟩ (constructed smallCanvasDom))).state.currentX =
        fin (-200) ∧
    (doPan ⟨200, 0, false, false⟩ scenarioDom
      (startPan ⟨500, 300, false, false⟩ (constructed smallCanvasDom))).state.currentY =
        fin 0 ∧
    constrainValue (fin 200 - fin 500) (fin (-400)) (fin 0) = fin (-300) ∧
    constrainValue (fin 0 - fin 300) (fin (-400)) (fin 0) = fin (-300) ∧
    (doPan ⟨200, 0, false, false⟩ scenarioDom
      (startPan ⟨500, 300, false, false⟩ (constructed smallCanvasDom))).state.currentX ≠
      constrainValue
        (fin 200 - (startPan ⟨500, 300, false, false⟩ (constructed smallCanvasDom)).state.startX)
        (doPan ⟨200, 0, false, false⟩ scenarioDom
          (startPan ⟨500, 300, false, false⟩ (constructed smallCanvasDom))).constraints.minX
        (fin 0) := by
  rw [constructed_smallCanvasDom]
  simp [startPan, doPan, scenarioDom, updateTransform, updateConstraints, constrainValue]
  norm_num

/-- C6 (as amended): if `startPan` is accepted at pointer position `p` while the
committed pan is `c`, it sets the drag anchor to `p - c`; a following `doPan`
at pointer `q` recomputes the bounds from the canvas size, scale and viewport
size current at that time (`panMin = min(0, -(canvasSize * scale -
viewportSize))`, `panMax = 0`) and sets the pan on each axis to
`clamp(clamp(q - dragAnchor, storedMin, storedMax), panMin, 0)`, where the
stored bounds are those left by the previous `updateConstraints`; this equals
`clamp(q - dragAnchor, panMin, 0)` whenever the stored bounds are at least as
wide as the fresh ones (`storedMin <= panMin` and `0 <= storedMax`), in
particular when the geometry has not changed. -/
theorem startPan_doPan_clamps_twice (w : PannableNotesWall) (p q : TouchEventLike) (dom : Dom)
    (hacc : (p.targetHasNoteClass || p.targetClosestNote) = false) :
    (startPan p w).state.startX = fin p.clientX - w.state.offsetX ∧
    (startPan p w).state.startY = fin p.clientY - w.state.offsetY ∧
    (doPan q dom (startPan p w)).constraints.minX =
      jsMin (fin 0) (-(fin dom.offsetWidth * w.state.scale - fin dom.rectWidth)) ∧
    (doPan q dom (startPan p w)).constraints.minY =
      jsMin (fin 0) (-(fin dom.offsetHeight * w.state.scale - fin dom.rectHeight)) ∧
    (doPan q dom (startPan p w)).constraints.maxX = fin 0 ∧
    (doPan q dom (startPan p w)).constraints.maxY = fin 0 ∧
    (doPan q dom (startPan p w)).state.currentX =
      constrainValue
        (constrainValue (fin q.clientX - (startPan p w).state.startX) w.constraints.minX
          w.constraints.maxX)
        (doPan q dom (startPan p w)).constraints.minX (fin 0) ∧
    (doPan q dom (startPan p w)).state.currentY =
      constrainValue
        (constrainValue (fin q.clientY - (startPan p w).state.startY) w.constraints.minY
          w.constraints.maxY)
        (doPan q dom (startPan p w)).constraints.minY (fin 0) ∧
    (le w.constraints.minX (doPan q dom (startPan p w)).constraints.minX = true →
      le (fin 0) w.constraints.maxX = true →
      (doPan q dom (startPan p w)).state.currentX =
        constrainValue (fin q.clientX - (startPan p w).state.startX)
          (doPan q dom (startPan p w)).constraints.minX (fin 0)) ∧
    (le w.constraints.minY (doPan q dom (startPan p w)).constraints.minY = true →
      le (fin 0) w.constraints.maxY = true →
      (doPan q dom (startPan p w)).state.currentY =
        constrainValue (fin q.clientY - (startPan p w).state.startY)
          (doPan q dom (startPan p w)).constraints.minY (fin 0)) := by
  have hs : startPan p w =
      { w with
        state :=
          { w.state with
            isPanning := true
            startX := fin p.clientX - w.state.offsetX
            startY := fin p.clientY - w.state.offsetY }
        cursor := some "grabbing" } := by
    simp only [startPan]
    rw [if_neg (by simp [hacc])]
  rw [hs]
  refine ⟨rfl, rfl, rfl, rfl, rfl, rfl, rfl, rfl, ?_, ?_⟩
  · intro h1 h2
    exact constrainValue_constrainValue_of_wider h1 h2
      (jsMin_zero_le_zero (ne_nan_of_le_right h1))
  · intro h1 h2
    exact constrainValue_constrainValue_of_wider h1 h2
      (jsMin_zero_le_zero (ne_nan_of_le_right h1))

/-- C6 (as amended), Scenario C: on the freshly constructed wall of Scenario A a
drag accepted at `(100, 100)` sets the drag anchor to `(100, 100)`, and `doPan`
at `(150, 120)` clamps the target pan `(50, 20)` into the bounds. -/
theorem startPan_doPan_clamps_twice_witness :
    ((false || false) = false) ∧
    (startPan ⟨100, 100, false, false⟩ (constructed scenarioDom)).state.startX =
      fin 100 - (constructed scenarioDom).state.offsetX ∧
    (doPan ⟨150, 120, false, false⟩ scenarioDom
      (startPan ⟨100, 100, false, false⟩ (constructed scenarioDom))).state.currentX =
      constrainValue
        (constrainValue
          (fin 150 - (startPan ⟨100, 100, false, false⟩ (constructed scenarioDom)).state.startX)
          (constructed scenarioDom).constraints.minX (constructed scenarioDom).constraints.maxX)
        (doPan ⟨150, 120, false, false⟩ scenarioDom
          (startPan ⟨100, 100, false, false⟩ (constructed scenarioDom))).constraints.minX
        (fin 0) :=
  ⟨rfl,
    (startPan_doPan_clamps_twice (constructed scenarioDom) ⟨100, 100, false, false⟩
      ⟨150, 120, false, false⟩ scenarioDom rfl).1,
    (startPan_doPan_clamps_twice (constructed scenarioDom) ⟨100, 100, false, false⟩
      ⟨150, 120, false, false⟩ scenarioDom rfl).2.2.2.2.2.2.1⟩

/-! ## C7: pinch zoom -/

/-- C7 (as amended): the first `handlePinchZoom` call of a gesture (no baseline
yet, two touches) only records the distance between the touches and the
current scale as the baseline, and changes nothing else; a later call of the
gesture (a baseline is recorded) leaves the scale equal to
`clamp(scale * (1 + delta), minScale, maxScale)` with
`delta = (initialScale * (d / initialDistance) - scale) / scale`, where `scale`
is the scale before the call and `d` the current distance between the touches,
and keeps the baseline. -/
theorem handlePinchZoom_baseline_then_scale (sqrt : ℚ → ℚ) (e : TouchEventData) (dom : Dom)
    (w : PannableNotesWall) (touch1 touch2 : Touch) (he : e.touches = [touch1, touch2]) :
    (w.pinchData = none →
      handlePinchZoom sqrt e dom w =
        { w with
          pinchData :=
            some { initialDistance := fin (touchDistance sqrt touch1 touch2)
                   initialScale := w.state.scale } }) ∧
    (∀ p : PinchData, w.pinchData = some p →
      (handlePinchZoom sqrt e dom w).state.scale =
        constrainValue
          (w.state.scale *
            (fin 1 +
              (p.initialScale * (fin (touchDistance sqrt touch1 touch2) / p.initialDistance) -
                w.state.scale) / w.state.scale))
          w.constraints.minScale w.constraints.maxScale ∧
      (handlePinchZoom sqrt e dom w).pinchData = some p) := by
  constructor
  · intro hp
    simp only [handlePinchZoom, he, hp, touchDistance]
  · intro p hp
    simp only [handlePinchZoom, he, hp]
    rw [zoomAtPoint_scale, zoomAtPoint_pinchData]
    exact ⟨rfl, hp⟩

/-- C7 (as amended), Scenario D: on the freshly constructed wall of Scenario A
(scale `1.0`), a first pinch update with the touches 100 apart and a second with
the touches 200 apart (ratio `2.0`) leave the scale at `2.0`. -/
theorem handlePinchZoom_baseline_then_scale_witness :
    (handlePinchZoom Rat.sqrt ⟨[⟨100, 100⟩, ⟨200, 100⟩], false, false⟩ scenarioDom
      (constructed scenarioDom)).pinchData = some ⟨fin 100, fin 1⟩ ∧
    (handlePinchZoom Rat.sqrt ⟨[⟨100, 100⟩, ⟨200, 100⟩], false, false⟩ scenarioDom
      (constructed scenarioDom)).state = (constructed scenarioDom).state ∧
    (handlePinchZoom Rat.sqrt ⟨[⟨50, 100⟩, ⟨250, 100⟩], false, false⟩ scenarioDom
      (handlePinchZoom Rat.sqrt ⟨[⟨100, 100⟩, ⟨200, 100⟩], false, false⟩ scenarioDom
        (constructed scenarioDom))).state.scale = fin 2 := by
  have hd1 : touchDistance Rat.sqrt ⟨100, 100⟩ ⟨200, 100⟩ = 100 := by
    simp only [touchDistance]
    norm_num [sqrt_10000]
  have hd2 : touchDistance Rat.sqrt ⟨50, 100⟩ ⟨250, 100⟩ = 200 := by
    simp only [touchDistance]
    norm_num [sqrt_40000]
  have h1 := (handlePinchZoom_baseline_then_scale Rat.sqrt
    ⟨[⟨100, 100⟩, ⟨200, 100⟩], false, false⟩ scenarioDom (constructed scenarioDom)
    ⟨100, 100⟩ ⟨200, 100⟩ rfl).1 (by rw [constructed_scenarioDom])
  rw [hd1] at h1
  have h2 := (handlePinchZoom_baseline_then_scale Rat.sqrt
    ⟨[⟨50, 100⟩, ⟨250, 100⟩], false, false⟩ scenarioDom
    (handlePinchZoom Rat.sqrt ⟨[⟨100, 100⟩, ⟨200, 100⟩], false, false⟩ scenarioDom
      (constructed scenarioDom))
    ⟨50, 100⟩ ⟨250, 100⟩ rfl).2 ⟨fin 100, fin 1⟩ (by rw [h1]; rfl)
  refine ⟨by rw [h1]; rfl, by rw [h1], ?_⟩
  rw [h2.1, hd2, h1, constructed_scenarioDom]
  simp [constrainValue, fin_div_fin]
  norm_num

/-! ## C8: `resetView` -/

/-- C8: for every prior state and every geometry, `resetView` leaves the pan at
`(0, 0)`, the committed pan at `(0, 0)` and the scale at `1.0` (the clamp of
`updateTransform` keeps the pan at `0`), it renders that identity transform,
and a second `resetView` changes nothing: the whole controller is the same
under the same geometry, and the state is the same under any geometry. -/
theorem resetView_identity_idempotent (dom dom2 : Dom) (w : PannableNotesWall) :
    (resetView dom w).state.currentX = fin 0 ∧
    (resetView dom w).state.currentY = fin 0 ∧
    (resetView dom w).state.offsetX = fin 0 ∧
    (resetView dom w).state.offsetY = fin 0 ∧
    (resetView dom w).state.scale = fin 1 ∧
    (resetView dom w).transform = some ⟨fin 0, fin 0, fin 1⟩ ∧
    resetView dom (resetView dom w) = resetView dom w ∧
    (resetView dom2 (resetView dom w)).state = (resetView dom w).state := by
  simp [resetView, updateTransform, updateConstraints, constrainValue]

/-! ## C9: `updateConstraints` -/

/-- C9: `updateConstraints` sets `maxX = maxY = 0` and leaves the state, the
scale bounds, the pinch baseline and the rendered styles unchanged; and for
every canvas size, every viewport size and every finite scale `s` it sets, per
axis, `min = min(0, -(canvasSize * s - viewportSize))`, which is at most `0`,
equals minus the overflow when the scaled canvas is larger than the viewport,
and equals `0` when it is not. -/
theorem updateConstraints_bounds (dom : Dom) (w : PannableNotesWall) :
    (updateConstraints dom w).constraints.maxX = fin 0 ∧
    (updateConstraints dom w).constraints.maxY = fin 0 ∧
    (updateConstraints dom w).state = w.state ∧
    (updateConstraints dom w).constraints.minScale = w.constraints.minScale ∧
    (updateConstraints dom w).constraints.maxScale = w.constraints.maxScale ∧
    (updateConstraints dom w).pinchData = w.pinchData ∧
    (updateConstraints dom w).transform = w.transform ∧
    (updateConstraints dom w).cursor = w.cursor ∧
    ∀ s : ℚ, w.state.scale = fin s →
      (updateConstraints dom w).constraints.minX =
        fin (min 0 (-(dom.offsetWidth * s - dom.rectWidth))) ∧
      (updateConstraints dom w).constraints.minY =
        fin (min 0 (-(dom.offsetHeight * s - dom.rectHeight))) ∧
      le (updateConstraints dom w).constraints.minX (fin 0) = true ∧
      le (updateConstraints dom w).constraints.minY (fin 0) = true ∧
      (dom.rectWidth < dom.offsetWidth * s →
        (updateConstraints dom w).constraints.minX =
          fin (-(dom.offsetWidth * s - dom.rectWidth))) ∧
      (dom.rectHeight < dom.offsetHeight * s →
        (updateConstraints dom w).constraints.minY =
          fin (-(dom.offsetHeight * s - dom.rectHeight))) ∧
      (dom.offsetWidth * s ≤ dom.rectWidth →
        (updateConstraints dom w).constraints.minX = fin 0) ∧
      (dom.offsetHeight * s ≤ dom.rectHeight →
        (updateConstraints dom w).constraints.minY = fin 0) := by
  refine ⟨rfl, rfl, rfl, rfl, rfl, rfl, rfl, rfl, ?_⟩
  intro s hs
  simp only [updateConstraints, hs, fin_mul_fin, fin_sub_fin, neg_fin, jsMin_fin_fin,
    le_fin_fin, decide_eq_true_eq, fin.injEq]
  refine ⟨trivial, trivial, min_le_left _ _, min_le_left _ _, ?_, ?_, ?_, ?_⟩
  · intro h
    exact min_eq_right (by linarith)
  · intro h
    exact min_eq_right (by linarith)
  · intro h
    exact min_eq_left (by linarith)
  · intro h
    exact min_eq_left (by linarith)

/-- C9, Scenario A: an 800 by 600 viewport, a 1200 by 1000 canvas and scale
`1.0` give `min = (-400, -400)`. -/
theorem updateConstraints_bounds_witness :
    (constructed scenarioDom).state.scale = fin 1 ∧
    (updateConstraints scenarioDom (constructed scenarioDom)).constraints.minX = fin (-400) ∧
    (updateConstraints scenarioDom (constructed scenarioDom)).constraints.minY = fin (-400) ∧
    (updateConstraints scenarioDom (constructed scenarioDom)).constraints.maxX = fin 0 ∧
    (updateConstraints scenarioDom (constructed scenarioDom)).constraints.maxY = fin 0 := by
  have h := updateConstraints_bounds scenarioDom (constructed scenarioDom)
  have hs : (constructed scenarioDom).state.scale = fin 1 := rfl
  obtain ⟨hx, hy, -⟩ := h.2.2.2.2.2.2.2.2 1 hs
  refine ⟨hs, ?_, ?_, h.1, h.2.1⟩
  · rw [hx]
    norm_num [scenarioDom]
  · rw [hy]
    norm_num [scenarioDom]

/-! ## C10: a canvas that fits the viewport -/

/-- The invariant of a drag over a canvas that fits the viewport: the scale is
`s`, the pan is `(0, 0)` and all numbers are finite. -/
theorem step_drag_invariant (sqrt : ℚ → ℚ) (s : ℚ) (w : PannableNotesWall) (op : Op)
    (hop : isDragOp s op = true)
    (h : w.state.scale = fin s ∧ w.state.currentX = fin 0 ∧ w.state.currentY = fin 0 ∧
      numbersFinite w = true) :
    (step sqrt w op).state.scale = fin s ∧ (step sqrt w op).state.currentX = fin 0 ∧
      (step sqrt w op).state.currentY = fin 0 ∧ numbersFinite (step sqrt w op) = true := by
  obtain ⟨hs, hx, hy, hf⟩ := h
  obtain ⟨⟨ip, sx, sy, cx, cy, ox, oy, sc⟩, ⟨mnx, mxx, mny, mxy, mns, mxs⟩, pd, tr, cu⟩ := w
  simp only [numbersFinite, Bool.and_eq_true] at hf
  obtain ⟨⟨⟨⟨⟨⟨⟨⟨⟨⟨f1, f2⟩, -⟩, -⟩, f5⟩, f6⟩, -⟩, f8⟩, f9⟩, f10⟩, f11⟩ := hf
  obtain ⟨sx, rfl⟩ := eq_fin_of_isFinite f1
  obtain ⟨sy, rfl⟩ := eq_fin_of_isFinite f2
  obtain ⟨ox, rfl⟩ := eq_fin_of_isFinite f5
  obtain ⟨oy, rfl⟩ := eq_fin_of_isFinite f6
  obtain ⟨mnx, rfl⟩ := eq_fin_of_isFinite f8
  obtain ⟨mxx, rfl⟩ := eq_fin_of_isFinite f9
  obtain ⟨mny, rfl⟩ := eq_fin_of_isFinite f10
  obtain ⟨mxy, rfl⟩ := eq_fin_of_isFinite f11
  simp only at hs hx hy
  subst hs hx hy
  cases op with
  | startPan e =>
    simp only [step, startPan]
    split_ifs <;> simp [numbersFinite, isFinite]
  | doPan e dom =>
    simp only [isDragOp, fitsViewport, Bool.and_eq_true, decide_eq_true_eq] at hop
    obtain ⟨hw, hh⟩ := hop
    have e1 : min 0 (dom.rectWidth - dom.offsetWidth * s) = 0 := min_eq_left (by linarith)
    have e2 : min 0 (dom.rectHeight - dom.offsetHeight * s) = 0 := min_eq_left (by linarith)
    simp only [step, doPan]
    split_ifs <;>
      simp [numbersFinite, isFinite, updateTransform, updateConstraints, constrainValue, e1, e2]
  | endPan =>
    simp only [step, endPan]
    split_ifs <;> simp [numbersFinite, isFinite]
  | handleWheel e dom => simp [isDragOp] at hop
  | zoomAtPoint a b c dom => simp [isDragOp] at hop
  | handleTouchStart e => simp [isDragOp] at hop
  | handleTouchMove e dom => simp [isDragOp] at hop
  | handlePinchZoom e dom => simp [isDragOp] at hop
  | handleTouchEnd => simp [isDragOp] at hop
  | handleGesture e dom => simp [isDragOp] at hop
  | resetView dom => simp [isDragOp] at hop
  | zoomIn dom => simp [isDragOp] at hop
  | zoomOut dom => simp [isDragOp] at hop

theorem run_drag_invariant (sqrt : ℚ → ℚ) (s : ℚ) (ops : List Op) :
    ∀ w : PannableNotesWall, (∀ op ∈ ops, isDragOp s op = true) →
      (w.state.scale = fin s ∧ w.state.currentX = fin 0 ∧ w.state.currentY = fin 0 ∧
        numbersFinite w = true) →
      (run sqrt ops w).state.scale = fin s ∧ (run sqrt ops w).state.currentX = fin 0 ∧
        (run sqrt ops w).state.currentY = fin 0 ∧ numbersFinite (run sqrt ops w) = true := by
  induction ops with
  | nil =>
    intro w _ h
    exact h
  | cons op rest ih =>
    intro w hops h
    have h1 := step_drag_invariant sqrt s w op (hops op (List.mem_cons_self _ _)) h
    exact ih (step sqrt w op) (fun o ho => hops o (List.mem_cons_of_mem _ ho)) h1

/-- C10: when the canvas scaled by the finite scale `s` is no larger than the
viewport on both axes, `updateConstraints` gives `panMin = panMax = (0, 0)`;
and from any state with that scale, pan `(0, 0)` and finite numbers, every
sequence of `startPan`, `doPan` and `endPan` calls, with any pointer positions
and targets and with each `doPan` under such a geometry, has the pan at
`(0, 0)` after each of its calls. -/
theorem drag_leaves_pan_zero_when_canvas_fits (sqrt : ℚ → ℚ) (s : ℚ) (w : PannableNotesWall)
    (hs : w.state.scale = fin s) (hx : w.state.currentX = fin 0)
    (hy : w.state.currentY = fin 0) (hf : numbersFinite w = true) :
    (∀ dom : Dom, fitsViewport dom s = true →
      (updateConstraints dom w).constraints.minX = fin 0 ∧
      (updateConstraints dom w).constraints.minY = fin 0 ∧
      (updateConstraints dom w).constraints.maxX = fin 0 ∧
      (updateConstraints dom w).constraints.maxY = fin 0) ∧
    (∀ ops : List Op, (∀ op ∈ ops, isDragOp s op = true) → ∀ k : ℕ,
      (run sqrt (ops.take k) w).state.currentX = fin 0 ∧
      (run sqrt (ops.take k) w).state.currentY = fin 0) := by
  constructor
  · intro dom hd
    simp only [fitsViewport, Bool.and_eq_true, decide_eq_true_eq] at hd
    obtain ⟨hw, hh⟩ := hd
    have e1 : min 0 (dom.rectWidth - dom.offsetWidth * s) = 0 := min_eq_left (by linarith)
    have e2 : min 0 (dom.rectHeight - dom.offsetHeight * s) = 0 := min_eq_left (by linarith)
    simp [updateConstraints, hs, e1, e2]
  · intro ops hops k
    have h := run_drag_invariant sqrt s (ops.take k) w
      (fun o ho => hops o (List.mem_of_mem_take ho)) ⟨hs, hx, hy, hf⟩
    exact ⟨h.2.1, h.2.2.1⟩

/-- C10, Scenario B: on a freshly constructed wall whose 600 by 400 canvas fits
the 800 by 600 viewport, a drag from `(100, 100)` to `(150, 120)` leaves the
pan at `(0, 0)`. -/
theorem drag_leaves_pan_zero_when_canvas_fits_witness :
    (constructed fittingDom).state.scale = fin 1 ∧
    numbersFinite (constructed fittingDom) = true ∧
    (run Rat.sqrt
      ([Op.startPan ⟨100, 100, false, false⟩, Op.doPan ⟨150, 120, false, false⟩ fittingDom,
        Op.endPan].take 2) (constructed fittingDom)).state.currentX = fin 0 ∧
    (run Rat.sqrt
      ([Op.startPan ⟨100, 100, false, false⟩, Op.doPan ⟨150, 120, false, false⟩ fittingDom,
        Op.endPan].take 2) (constructed fittingDom)).state.currentY = fin 0 := by
  have hf : numbersFinite (constructed fittingDom) = true := by
    rw [constructed_fittingDom]
    simp [numbersFinite, isFinite]
  have hops : ∀ op ∈ [Op.startPan ⟨100, 100, false, false⟩,
      Op.doPan ⟨150, 120, false, false⟩ fittingDom, Op.endPan], isDragOp 1 op = true := by
    intro op hop
    simp only [List.mem_cons, List.mem_singleton, List.not_mem_nil, or_false] at hop
    rcases hop with rfl | rfl | rfl
    · rfl
    · simp [isDragOp, fitsViewport, fittingDom]
      norm_num
    · rfl
  exact ⟨rfl, hf,
    (drag_leaves_pan_zero_when_canvas_fits Rat.sqrt 1 (constructed fittingDom) rfl
      (by rw [constructed_fittingDom]) (by rw [constructed_fittingDom]) hf).2 _ hops 2⟩

/-! ## C11: `startPan` -/

/-- C11: when the event target is a note or is inside one, `startPan` leaves the
whole controller unchanged (`isPanning`, drag anchor, pan, committed pan and
scale included) and does not call `preventDefault`; for every other target it
sets `isPanning = true` and the drag anchor to the pointer position minus the
committed pan, shows the grabbing cursor, suppresses the default action, and
leaves pan, committed pan, scale, constraints, pinch baseline and rendered
transform unchanged. -/
theorem startPan_frame (e : TouchEventLike) (w : PannableNotesWall) :
    ((e.targetHasNoteClass = true ∨ e.targetClosestNote = true) →
      startPan e w = w ∧ startPanPreventsDefault e = false) ∧
    ((e.targetHasNoteClass = false ∧ e.targetClosestNote = false) →
      (startPan e w).state.isPanning = true ∧
      (startPan e w).state.startX = fin e.clientX - w.state.offsetX ∧
      (startPan e w).state.startY = fin e.clientY - w.state.offsetY ∧
      (startPan e w).state.currentX = w.state.currentX ∧
      (startPan e w).state.currentY = w.state.currentY ∧
      (startPan e w).state.offsetX = w.state.offsetX ∧
      (startPan e w).state.offsetY = w.state.offsetY ∧
      (startPan e w).state.scale = w.state.scale ∧
      (startPan e w).constraints = w.constraints ∧
      (startPan e w).pinchData = w.pinchData ∧
      (startPan e w).transform = w.transform ∧
      (startPan e w).cursor = some "grabbing" ∧
      startPanPreventsDefault e = true) := by
  constructor
  · intro h
    have hn : (e.targetHasNoteClass || e.targetClosestNote) = true := by
      rcases h with h | h <;> simp [h]
    simp [startPan, startPanPreventsDefault, hn]
  · rintro ⟨h1, h2⟩
    simp [startPan, startPanPreventsDefault, h1, h2]

/-- C11, on the freshly constructed wall of Scenario A: a press on a note
changes nothing, a press at `(100, 100)` on the empty wall starts a drag. -/
theorem startPan_frame_witness :
    startPan ⟨100, 100, true, true⟩ (constructed scenarioDom) = constructed scenarioDom ∧
    (startPan ⟨100, 100, false, false⟩ (constructed scenarioDom)).state.isPanning = true ∧
    (startPan ⟨100, 100, false, false⟩ (constructed scenarioDom)).state.scale =
      (constructed scenarioDom).state.scale :=
  ⟨((startPan_frame ⟨100, 100, true, true⟩ (constructed scenarioDom)).1 (Or.inl rfl)).1,
    ((startPan_frame ⟨100, 100, false, false⟩ (constructed scenarioDom)).2 ⟨rfl, rfl⟩).1,
    ((startPan_frame ⟨100, 100, false, false⟩ (constructed scenarioDom)).2
      ⟨rfl, rfl⟩).2.2.2.2.2.2.2.1⟩

/-! ## C12: handlers on an invalid precondition -/

/-- C12: the handlers return the controller unchanged, rendered transform
included, on an invalid precondition: `doPan` and `endPan` when `isPanning` is
false, `handleTouchMove` with a touch count other than 1 or 2, or with one
touch while not panning, and `handlePinchZoom` with a touch count other than
2.  The handlers are total functions: none of them raises. -/
theorem handlers_noop_on_invalid_precondition (sqrt : ℚ → ℚ) (w : PannableNotesWall)
    (dom : Dom) :
    (w.state.isPanning = false → ∀ e : TouchEventLike, doPan e dom w = w) ∧
    (w.state.isPanning = false → endPan w = w) ∧
    (∀ e : TouchEventData, e.touches.length ≠ 1 → e.touches.length ≠ 2 →
      handleTouchMove sqrt e dom w = w) ∧
    (w.state.isPanning = false → ∀ e : TouchEventData, e.touches.length = 1 →
      handleTouchMove sqrt e dom w = w) ∧
    (∀ e : TouchEventData, e.touches.length ≠ 2 → handlePinchZoom sqrt e dom w = w) := by
  refine ⟨?_, ?_, ?_, ?_, ?_⟩
  · intro h e
    simp [doPan, h]
  · intro h
    simp [endPan, h]
  · intro e h1 h2
    obtain ⟨touches, a, b⟩ := e
    match touches, h1, h2 with
    | [], _, _ => rfl
    | [_], h1, _ => exact absurd rfl h1
    | [_, _], _, h2 => exact absurd rfl h2
    | _ :: _ :: _ :: _, _, _ => rfl
  · intro h e h1
    obtain ⟨touches, a, b⟩ := e
    match touches, h1 with
    | [t], _ => simp [handleTouchMove, h]
  · intro e h2
    obtain ⟨touches, a, b⟩ := e
    match touches, h2 with
    | [], _ => rfl
    | [_], _ => rfl
    | [_, _], h2 => exact absurd rfl h2
    | _ :: _ :: _ :: _, _ => rfl

/-- C12, on the freshly constructed wall of Scenario A, which is not panning. -/
theorem handlers_noop_on_invalid_precondition_witness :
    (constructed scenarioDom).state.isPanning = false ∧
    doPan ⟨150, 120, false, false⟩ scenarioDom (constructed scenarioDom) =
      constructed scenarioDom ∧
    endPan (constructed scenarioDom) = constructed scenarioDom ∧
    handleTouchMove Rat.sqrt ⟨[⟨1, 1⟩, ⟨2, 2⟩, ⟨3, 3⟩], false, false⟩ scenarioDom
      (constructed scenarioDom) = constructed scenarioDom ∧
    handleTouchMove Rat.sqrt ⟨[⟨1, 1⟩], false, false⟩ scenarioDom (constructed scenarioDom) =
      constructed scenarioDom ∧
    handlePinchZoom Rat.sqrt ⟨[⟨1, 1⟩], false, false⟩ scenarioDom (constructed scenarioDom) =
      constructed scenarioDom :=
  ⟨rfl,
    (handlers_noop_on_invalid_precondition Rat.sqrt (constructed scenarioDom) scenarioDom).1
      rfl _,
    (handlers_noop_on_invalid_precondition Rat.sqrt (constructed scenarioDom) scenarioDom).2.1
      rfl,
    (handlers_noop_on_invalid_precondition Rat.sqrt (constructed scenarioDom)
      scenarioDom).2.2.1 _ (by decide) (by decide),
    (handlers_noop_on_invalid_precondition Rat.sqrt (constructed scenarioDom)
      scenarioDom).2.2.2.1 rfl _ rfl,
    (handlers_noop_on_invalid_precondition Rat.sqrt (constructed scenarioDom)
      scenarioDom).2.2.2.2 _ (by decide)⟩

/-! ## Lemmas on `doPan`, `updateTransform` and construction -/

theorem mul_fin_comm (c : ℚ) (x : JSNum) : x * fin c = fin c * x := by
  cases x with
  | fin q => simp [mul_comm]
  | posInf => rfl
  | negInf => rfl
  | nan => simp

theorem le_refl_of_le_right {a c : JSNum} (h : le a c = true) : le c c = true := by
  cases c with
  | fin q => simp
  | posInf => rfl
  | negInf => rfl
  | nan => simp at h

theorem constrainValue_idem_zero (x m : JSNum) :
    constrainValue (constrainValue x (jsMin (fin 0) m) (fin 0)) (jsMin (fin 0) m) (fin 0) =
      constrainValue x (jsMin (fin 0) m) (fin 0) := by
  cases x <;> cases m <;> simp [constrainValue]

/-- Calling `updateTransform` twice under one geometry is calling it once. -/
theorem updateTransform_idem (dom : Dom) (w : PannableNotesWall) :
    updateTransform dom (updateTransform dom w) = updateTransform dom w := by
  simp only [updateTransform, updateConstraints, constrainValue_idem_zero]

theorem updateTransform_transform (dom : Dom) (w : PannableNotesWall) :
    (updateTransform dom w).transform =
      some ⟨(updateTransform dom w).state.currentX, (updateTransform dom w).state.currentY,
        (updateTransform dom w).state.scale⟩ := rfl

theorem doPan_of_isPanning (e : TouchEventLike) (dom : Dom) (w : PannableNotesWall)
    (h : w.state.isPanning = true) :
    doPan e dom w =
      updateTransform dom
        { w with
          state :=
            { w.state with
              currentX := constrainValue (fin e.clientX - w.state.startX) w.constraints.minX
                w.constraints.maxX
              currentY := constrainValue (fin e.clientY - w.state.startY) w.constraints.minY
                w.constraints.maxY } } := by
  simp [doPan, h]

theorem doPan_pinchData (e : TouchEventLike) (dom : Dom) (w : PannableNotesWall) :
    (doPan e dom w).pinchData = w.pinchData := by
  simp only [doPan]
  split_ifs
  · rfl
  · rfl

/-- The state after construction is the identity, whatever the geometry. -/
theorem constructed_state (dom : Dom) :
    (constructed dom).state =
      { isPanning := false, startX := fin 0, startY := fin 0, currentX := fin 0,
        currentY := fin 0, offsetX := fin 0, offsetY := fin 0, scale := fin 1 } := by
  simp [constructed, updateTransform, updateConstraints, constrainValue]

theorem draggedWall_eq :
    draggedWall =
      { state :=
          { isPanning := true, startX := fin 100, startY := fin 100, currentX := fin (-50),
            currentY := fin (-20), offsetX := fin 0, offsetY := fin 0, scale := fin 1 }
        constraints :=
          { minX := fin (-400), maxX := fin 0, minY := fin (-400), maxY := fin 0,
            minScale := fin (8 / 10), maxScale := fin 2 }
        pinchData := none
        transform := some ⟨fin (-50), fin (-20), fin 1⟩
        cursor := some "grabbing" } := by
  rw [draggedWall, constructed_scenarioDom]
  simp [startPan, doPan, scenarioDom, updateTransform, updateConstraints, constrainValue]
  norm_num

/-! ## The controller in step with the geometry -/

/-- A controller that `updateTransform` leaves as it is stays so when fields
that `updateTransform` neither reads nor writes change. -/
theorem updateTransform_fixed_of_same_render (dom : Dom) (w v : PannableNotesWall)
    (h : updateTransform dom w = w) (h1 : v.state.currentX = w.state.currentX)
    (h2 : v.state.currentY = w.state.currentY) (h3 : v.state.scale = w.state.scale)
    (h4 : v.constraints = w.constraints) (h5 : v.transform = w.transform) :
    updateTransform dom v = v := by
  obtain ⟨⟨ip, sx, sy, cx, cy, ox, oy, sc⟩, ⟨mnx, mxx, mny, mxy, mns, mxs⟩, pd, tr, cu⟩ := w
  obtain ⟨⟨ip2, sx2, sy2, cx2, cy2, ox2, oy2, sc2⟩, c2, pd2, tr2, cu2⟩ := v
  simp only at h1 h2 h3 h4 h5
  subst h1 h2 h3 h4 h5
  simp only [updateTransform, updateConstraints, PannableNotesWall.mk.injEq, PanState.mk.injEq,
    PanConstraints.mk.injEq, true_and, and_true] at h ⊢
  exact h

theorem zoomAtPoint_fixed (a b c : JSNum) (dom : Dom) (w : PannableNotesWall)
    (h : updateTransform dom w = w) :
    updateTransform dom (zoomAtPoint a b c dom w) = zoomAtPoint a b c dom w := by
  cases hc : strictEq (constrainValue (newScale w c) w.constraints.minScale
      w.constraints.maxScale) w.state.scale with
  | true =>
    rw [zoomAtPoint_of_strictEq _ _ _ _ _ hc]
    exact h
  | false =>
    rw [zoomAtPoint_of_not_strictEq _ _ _ _ _ hc]
    exact updateTransform_idem dom _

theorem doPan_fixed (e : TouchEventLike) (dom : Dom) (w : PannableNotesWall)
    (h : updateTransform dom w = w) :
    updateTransform dom (doPan e dom w) = doPan e dom w := by
  cases hp : w.state.isPanning with
  | false =>
    have hd : doPan e dom w = w := by simp [doPan, hp]
    rw [hd]
    exact h
  | true =>
    rw [doPan_of_isPanning e dom w hp]
    exact updateTransform_idem dom _

theorem startPan_fixed (e : TouchEventLike) (dom : Dom) (w : PannableNotesWall)
    (h : updateTransform dom w = w) :
    updateTransform dom (startPan e w) = startPan e w := by
  refine updateTransform_fixed_of_same_render dom w _ h ?_ ?_ ?_ ?_ ?_ <;>
    (simp only [startPan]
     split_ifs <;> rfl)

theorem endPan_fixed (dom : Dom) (w : PannableNotesWall) (h : updateTransform dom w = w) :
    updateTransform dom (endPan w) = endPan w := by
  refine updateTransform_fixed_of_same_render dom w _ h ?_ ?_ ?_ ?_ ?_ <;>
    (simp only [endPan]
     split_ifs <;> rfl)

theorem handlePinchZoom_fixed (sqrt : ℚ → ℚ) (e : TouchEventData) (dom : Dom)
    (w : PannableNotesWall) (h : updateTransform dom w = w) :
    updateTransform dom (handlePinchZoom sqrt e dom w) = handlePinchZoom sqrt e dom w := by
  simp only [handlePinchZoom]
  split
  · split
    · exact updateTransform_fixed_of_same_render dom w _ h rfl rfl rfl rfl rfl
    · exact zoomAtPoint_fixed _ _ _ dom w h
  · exact h

/-- A call under the geometry `dom` keeps the controller in step with `dom`:
if `updateTransform` under `dom` left it as it was before the call, it does
after. -/
theorem step_fixed (sqrt : ℚ → ℚ) (dom : Dom) (w : PannableNotesWall) (op : Op)
    (hop : underGeometry dom op = true) (h : updateTransform dom w = w) :
    updateTransform dom (step sqrt w op) = step sqrt w op := by
  cases op with
  | startPan e => exact startPan_fixed e dom w h
  | doPan e d =>
    obtain rfl : d = dom := by simpa [underGeometry] using hop
    exact doPan_fixed e d w h
  | endPan => exact endPan_fixed dom w h
  | handleWheel e d =>
    obtain rfl : d = dom := by simpa [underGeometry] using hop
    exact zoomAtPoint_fixed _ _ _ d w h
  | zoomAtPoint a b c d =>
    obtain rfl : d = dom := by simpa [underGeometry] using hop
    exact zoomAtPoint_fixed _ _ _ d w h
  | handleTouchStart e =>
    simp only [step, handleTouchStart]
    split
    · exact startPan_fixed _ dom w h
    · exact h
  | handleTouchMove e d =>
    obtain rfl : d = dom := by simpa [underGeometry] using hop
    simp only [step, handleTouchMove]
    split
    · split_ifs
      · exact doPan_fixed _ d w h
      · exact h
    · exact handlePinchZoom_fixed sqrt e d w h
    · exact h
  | handlePinchZoom e d =>
    obtain rfl : d = dom := by simpa [underGeometry] using hop
    exact handlePinchZoom_fixed sqrt e d w h
  | handleTouchEnd =>
    refine updateTransform_fixed_of_same_render dom w _ h ?_ ?_ ?_ ?_ ?_ <;>
      (simp only [step, handleTouchEnd, endPan]
       split_ifs <;> rfl)
  | handleGesture e d =>
    obtain rfl : d = dom := by simpa [underGeometry] using hop
    simp only [step, handleGesture]
    split_ifs
    · exact updateTransform_idem d _
    · exact h
  | resetView d =>
    obtain rfl : d = dom := by simpa [underGeometry] using hop
    exact updateTransform_idem d _
  | zoomIn d =>
    obtain rfl : d = dom := by simpa [underGeometry] using hop
    exact zoomAtPoint_fixed _ _ _ d w h
  | zoomOut d =>
    obtain rfl : d = dom := by simpa [underGeometry] using hop
    exact zoomAtPoint_fixed _ _ _ d w h

/-- While the geometry does not change, from construction on, `updateTransform`
leaves every reachable state as it is. -/
theorem run_fixed (sqrt : ℚ → ℚ) (dom : Dom) (ops : List Op)
    (hops : ∀ op ∈ ops, underGeometry dom op = true) :
    updateTransform dom (run sqrt ops (constructed dom)) = run sqrt ops (constructed dom) := by
  have key : ∀ (l : List Op) (w : PannableNotesWall),
      (∀ op ∈ l, underGeometry dom op = true) → updateTransform dom w = w →
      updateTransform dom (run sqrt l w) = run sqrt l w := by
    intro l
    induction l with
    | nil =>
      intro w _ h
      exact h
    | cons op rest ih =>
      intro w hl h
      exact ih (step sqrt w op) (fun o ho => hl o (List.mem_cons_of_mem _ ho))
        (step_fixed sqrt dom w op (hl op (List.mem_cons_self _ _)) h)
  exact key ops (constructed dom) hops (updateTransform_idem dom _)

/-! ## C13: `endPan` -/

/-- C13 (as amended): when `isPanning` is true, `endPan` sets
`isPanning = false` and the committed pan to the pan, shows the grab cursor,
and leaves pan, scale, drag anchor, constraints, pinch baseline and rendered
transform unchanged; consequently, when the geometry is unchanged
(`updateTransform` under it leaves the controller as it is, which is the case
in every state reached from construction by calls under that geometry), a new
drag accepted at a pointer position `p` has the anchor `p - pan`, and continued
at a pointer position `q` it leaves the scale and the pan bounds as they were
and sets the pan to `clamp(q - (p - pan), min, max)` on both axes, which is
what it renders. -/
theorem endPan_commits_pan (w : PannableNotesWall) (h : w.state.isPanning = true) :
    (endPan w).state.isPanning = false ∧
    (endPan w).state.offsetX = w.state.currentX ∧
    (endPan w).state.offsetY = w.state.currentY ∧
    (endPan w).state.currentX = w.state.currentX ∧
    (endPan w).state.currentY = w.state.currentY ∧
    (endPan w).state.scale = w.state.scale ∧
    (endPan w).state.startX = w.state.startX ∧
    (endPan w).state.startY = w.state.startY ∧
    (endPan w).constraints = w.constraints ∧
    (endPan w).pinchData = w.pinchData ∧
    (endPan w).transform = w.transform ∧
    (endPan w).cursor = some "grab" ∧
    (∀ (p q : TouchEventLike) (dom : Dom),
      p.targetHasNoteClass = false → p.targetClosestNote = false →
      updateTransform dom w = w →
      (startPan p (endPan w)).state.startX = fin p.clientX - w.state.currentX ∧
      (startPan p (endPan w)).state.startY = fin p.clientY - w.state.currentY ∧
      (doPan q dom (startPan p (endPan w))).state.currentX =
        constrainValue (fin q.clientX - (fin p.clientX - w.state.currentX))
          w.constraints.minX w.constraints.maxX ∧
      (doPan q dom (startPan p (endPan w))).state.currentY =
        constrainValue (fin q.clientY - (fin p.clientY - w.state.currentY))
          w.constraints.minY w.constraints.maxY ∧
      (doPan q dom (startPan p (endPan w))).state.scale = w.state.scale ∧
      (doPan q dom (startPan p (endPan w))).constraints = w.constraints ∧
      (doPan q dom (startPan p (endPan w))).transform =
        some ⟨(doPan q dom (startPan p (endPan w))).state.currentX,
          (doPan q dom (startPan p (endPan w))).state.currentY, w.state.scale⟩) ∧
    (∀ (sqrt : ℚ → ℚ) (ops : List Op) (p q : TouchEventLike) (dom : Dom),
      w = run sqrt ops (constructed dom) → (∀ op ∈ ops, underGeometry dom op = true) →
      p.targetHasNoteClass = false → p.targetClosestNote = false →
      (doPan q dom (startPan p (endPan w))).state.currentX =
        constrainValue (fin q.clientX - (fin p.clientX - w.state.currentX))
          w.constraints.minX w.constraints.maxX ∧
      (doPan q dom (startPan p (endPan w))).state.currentY =
        constrainValue (fin q.clientY - (fin p.clientY - w.state.currentY))
          w.constraints.minY w.constraints.maxY ∧
      (doPan q dom (startPan p (endPan w))).state.scale = w.state.scale) := by
  have he : endPan w =
      { w with
        state :=
          { w.state with
            isPanning := false
            offsetX := w.state.currentX
            offsetY := w.state.currentY }
        cursor := some "grab" } := by
    simp [endPan, h]
  have main : ∀ (p q : TouchEventLike) (dom : Dom),
      p.targetHasNoteClass = false → p.targetClosestNote = false →
      updateTransform dom w = w →
      (startPan p (endPan w)).state.startX = fin p.clientX - w.state.currentX ∧
      (startPan p (endPan w)).state.startY = fin p.clientY - w.state.currentY ∧
      (doPan q dom (startPan p (endPan w))).state.currentX =
        constrainValue (fin q.clientX - (fin p.clientX - w.state.currentX))
          w.constraints.minX w.constraints.maxX ∧
      (doPan q dom (startPan p (endPan w))).state.currentY =
        constrainValue (fin q.clientY - (fin p.clientY - w.state.currentY))
          w.constraints.minY w.constraints.maxY ∧
      (doPan q dom (startPan p (endPan w))).state.scale = w.state.scale ∧
      (doPan q dom (startPan p (endPan w))).constraints = w.constraints ∧
      (doPan q dom (startPan p (endPan w))).transform =
        some ⟨(doPan q dom (startPan p (endPan w))).state.currentX,
          (doPan q dom (startPan p (endPan w))).state.currentY, w.state.scale⟩ := by
    intro p q dom hp1 hp2 hfix
    have hcs := congrArg (fun v => v.constraints) hfix
    have hmnx := congrArg (fun v => v.constraints.minX) hfix
    have hmny := congrArg (fun v => v.constraints.minY) hfix
    have hmxx := congrArg (fun v => v.constraints.maxX) hfix
    have hmxy := congrArg (fun v => v.constraints.maxY) hfix
    simp only [updateTransform, updateConstraints] at hcs hmnx hmny hmxx hmxy
    rw [he]
    simp only [startPan, doPan, updateTransform, updateConstraints, hp1, hp2,
      Bool.or_self, Bool.false_eq_true, if_false, Bool.not_true]
    rw [← hmnx, ← hmny, ← hmxx, ← hmxy, constrainValue_idem_zero, constrainValue_idem_zero]
    exact ⟨trivial, trivial, rfl, rfl, trivial, hcs, trivial⟩
  refine ⟨by rw [he], by rw [he], by rw [he], by rw [he], by rw [he], by rw [he], by rw [he],
    by rw [he], by rw [he], by rw [he], by rw [he], by rw [he], main, ?_⟩
  intro sqrt ops p q dom hw hops hp1 hp2
  have hm := main p q dom hp1 hp2 (by rw [hw]; exact run_fixed sqrt dom ops hops)
  exact ⟨hm.2.2.1, hm.2.2.2.1, hm.2.2.2.2.1⟩

/-- C13 (as amended), on the wall of Scenario A dragged to the pan `(-50, -20)`:
the drag ends, a new drag begins at `(300, 300)` and continues there, and the
pan on the x axis is `clamp(300 - (300 - (-50)), -400, 0) = -50`. -/
theorem endPan_commits_pan_witness :
    draggedWall.state.isPanning = true ∧
    updateTransform scenarioDom draggedWall = draggedWall ∧
    (endPan draggedWall).state.offsetX = fin (-50) ∧
    (doPan ⟨300, 300, false, false⟩ scenarioDom
      (startPan ⟨300, 300, false, false⟩ (endPan draggedWall))).state.currentX =
      constrainValue (fin 300 - (fin 300 - draggedWall.state.currentX))
        draggedWall.constraints.minX draggedWall.constraints.maxX ∧
    constrainValue (fin 300 - (fin 300 - draggedWall.state.currentX))
      draggedWall.constraints.minX draggedWall.constraints.maxX = fin (-50) := by
  have hp : draggedWall.state.isPanning = true := by rw [draggedWall_eq]
  have hfix : updateTransform scenarioDom draggedWall = draggedWall := by
    rw [draggedWall, doPan_of_isPanning _ _ _ rfl, updateTransform_idem]
  have h := endPan_commits_pan draggedWall hp
  have hx : draggedWall.state.currentX = fin (-50) := by rw [draggedWall_eq]
  have h2 := h.2.2.2.2.2.2.2.2.2.2.2.2.1 ⟨300, 300, false, false⟩ ⟨300, 300, false, false⟩
    scenarioDom rfl rfl hfix
  refine ⟨hp, hfix, h.2.1.trans hx, h2.2.2.1, ?_⟩
  rw [draggedWall_eq]
  simp [constrainValue]
  norm_num

/-! ## C14: `handleWheel` -/

/-- C14: `handleWheel` is `zoomAtPoint` anchored at the pointer position minus
the top-left corner of the wall, with delta `-0.1` when `deltaY > 0` and `0.1`
otherwise; hence two wheel events with the same pointer position whose
`deltaY` are both positive, or both not, leave the same controller, whatever
the magnitudes (so do, in particular, two events with the same sign of
`deltaY`). -/
theorem handleWheel_fixed_step (w : PannableNotesWall) (dom : Dom) (e : WheelEventData) :
    handleWheel e dom w =
      zoomAtPoint (fin (e.clientX - dom.rectLeft)) (fin (e.clientY - dom.rectTop))
        (if 0 < e.deltaY then fin (-(1 / 10)) else fin (1 / 10)) dom w ∧
    (∀ e2 : WheelEventData, e2.clientX = e.clientX → e2.clientY = e.clientY →
      (0 < e2.deltaY ↔ 0 < e.deltaY) → handleWheel e2 dom w = handleWheel e dom w) ∧
    (∀ e2 : WheelEventData, e2.clientX = e.clientX → e2.clientY = e.clientY →
      SignType.sign e2.deltaY = SignType.sign e.deltaY →
      handleWheel e2 dom w = handleWheel e dom w) := by
  have key : ∀ e2 : WheelEventData, e2.clientX = e.clientX → e2.clientY = e.clientY →
      (0 < e2.deltaY ↔ 0 < e.deltaY) → handleWheel e2 dom w = handleWheel e dom w := by
    intro e2 hx hy hs
    simp only [handleWheel, hx, hy, lt_fin_fin]
    by_cases h : 0 < e.deltaY
    · simp [h, hs.mpr h]
    · simp [h, mt hs.mp h]
  refine ⟨?_, key, ?_⟩
  · simp only [handleWheel, lt_fin_fin, fin_sub_fin]
    by_cases h : 0 < e.deltaY
    · simp [h]
    · simp [h]
  · intro e2 hx hy hs
    refine key e2 hx hy ?_
    rw [← sign_eq_one_iff, ← sign_eq_one_iff, hs]

/-- C14, on the freshly constructed wall of Scenario A: scrolling down by 3 and
by 120 at `(400, 300)` leave the same controller. -/
theorem handleWheel_fixed_step_witness :
    SignType.sign (120 : ℚ) = SignType.sign (3 : ℚ) ∧
    handleWheel ⟨120, 400, 300⟩ scenarioDom (constructed scenarioDom) =
      handleWheel ⟨3, 400, 300⟩ scenarioDom (constructed scenarioDom) := by
  have hs : SignType.sign (120 : ℚ) = SignType.sign (3 : ℚ) := by
    rw [sign_pos (by norm_num), sign_pos (by norm_num)]
  exact ⟨hs, (handleWheel_fixed_step (constructed scenarioDom) scenarioDom ⟨3, 400, 300⟩).2.2
    ⟨120, 400, 300⟩ rfl rfl hs⟩

/-! ## C15: `zoomIn` and `zoomOut` -/

/-- C15: `zoomIn` and `zoomOut` are `zoomAtPoint` anchored at
`(width / 2, height / 2)` of the wall with delta `0.2` and `-0.2`; hence from
scale `s` the scale after `zoomIn` is `clamp(1.2 * s, minScale, maxScale)` and
the scale after `zoomOut` is `clamp(0.8 * s, minScale, maxScale)`. -/
theorem zoomIn_zoomOut_step (w : PannableNotesWall) (dom : Dom) :
    zoomIn dom w =
      zoomAtPoint (fin (dom.rectWidth / 2)) (fin (dom.rectHeight / 2)) (fin (2 / 10)) dom w ∧
    zoomOut dom w =
      zoomAtPoint (fin (dom.rectWidth / 2)) (fin (dom.rectHeight / 2)) (fin (-(2 / 10))) dom
        w ∧
    (zoomIn dom w).state.scale =
      constrainValue (fin (12 / 10) * w.state.scale) w.constraints.minScale
        w.constraints.maxScale ∧
    (zoomOut dom w).state.scale =
      constrainValue (fin (8 / 10) * w.state.scale) w.constraints.minScale
        w.constraints.maxScale := by
  have h2 : (2 : ℚ) ≠ 0 := two_ne_zero
  have e1 : fin (1 : ℚ) + fin (2 / 10) = fin (12 / 10) := by
    rw [fin_add_fin]
    norm_num
  have e2 : fin (1 : ℚ) + fin (-(2 / 10)) = fin (8 / 10) := by
    rw [fin_add_fin]
    norm_num
  refine ⟨?_, ?_, ?_, ?_⟩
  · simp only [zoomIn, fin_div_fin _ h2]
  · simp only [zoomOut, fin_div_fin _ h2]
  · simp only [zoomIn]
    rw [zoomAtPoint_scale, newScale, e1, mul_fin_comm]
  · simp only [zoomOut]
    rw [zoomAtPoint_scale, newScale, e2, mul_fin_comm]

/-! ## C16: the rendered transform -/

theorem zoomAtPoint_unchanged_or_rendered (mouseX mouseY zoomDelta : JSNum) (dom : Dom)
    (w : PannableNotesWall) :
    zoomAtPoint mouseX mouseY zoomDelta dom w = w ∨
      (zoomAtPoint mouseX mouseY zoomDelta dom w).transform =
        some ⟨(zoomAtPoint mouseX mouseY zoomDelta dom w).state.currentX,
          (zoomAtPoint mouseX mouseY zoomDelta dom w).state.currentY,
          (zoomAtPoint mouseX mouseY zoomDelta dom w).state.scale⟩ := by
  cases hc : strictEq (constrainValue (newScale w zoomDelta) w.constraints.minScale
      w.constraints.maxScale) w.state.scale with
  | true => exact Or.inl (zoomAtPoint_of_strictEq _ _ _ _ _ hc)
  | false =>
    right
    rw [zoomAtPoint_of_not_strictEq _ _ _ _ _ hc]
    rfl

/-- Every call leaves the pan, the scale and the rendered transform as they
were, or leaves the rendered transform built from the pan and the scale it
leaves. -/
theorem step_unchanged_or_rendered (sqrt : ℚ → ℚ) (w : PannableNotesWall) (op : Op) :
    ((step sqrt w op).state.currentX = w.state.currentX ∧
      (step sqrt w op).state.currentY = w.state.currentY ∧
      (step sqrt w op).state.scale = w.state.scale ∧
      (step sqrt w op).transform = w.transform) ∨
    (step sqrt w op).transform =
      some ⟨(step sqrt w op).state.currentX, (step sqrt w op).state.currentY,
        (step sqrt w op).state.scale⟩ := by
  have hz : ∀ (a b c : JSNum) (dom : Dom),
      ((zoomAtPoint a b c dom w).state.currentX = w.state.currentX ∧
        (zoomAtPoint a b c dom w).state.currentY = w.state.currentY ∧
        (zoomAtPoint a b c dom w).state.scale = w.state.scale ∧
        (zoomAtPoint a b c dom w).transform = w.transform) ∨
      (zoomAtPoint a b c dom w).transform =
        some ⟨(zoomAtPoint a b c dom w).state.currentX, (zoomAtPoint a b c dom w).state.currentY,
          (zoomAtPoint a b c dom w).state.scale⟩ := by
    intro a b c dom
    rcases zoomAtPoint_unchanged_or_rendered a b c dom w with h | h
    · left
      rw [h]
      exact ⟨rfl, rfl, rfl, rfl⟩
    · exact Or.inr h
  have hd : ∀ (e : TouchEventLike) (dom : Dom),
      ((doPan e dom w).state.currentX = w.state.currentX ∧
        (doPan e dom w).state.currentY = w.state.currentY ∧
        (doPan e dom w).state.scale = w.state.scale ∧
        (doPan e dom w).transform = w.transform) ∨
      (doPan e dom w).transform =
        some ⟨(doPan e dom w).state.currentX, (doPan e dom w).state.currentY,
          (doPan e dom w).state.scale⟩ := by
    intro e dom
    cases h : w.state.isPanning with
    | false =>
      left
      simp [doPan, h]
    | true =>
      right
      rw [doPan_of_isPanning e dom w h]
      rfl
  have hs : ∀ e : TouchEventLike,
      (startPan e w).state.currentX = w.state.currentX ∧
        (startPan e w).state.currentY = w.state.currentY ∧
        (startPan e w).state.scale = w.state.scale ∧
        (startPan e w).transform = w.transform := by
    intro e
    simp only [startPan]
    split_ifs
    · exact ⟨rfl, rfl, rfl, rfl⟩
    · exact ⟨rfl, rfl, rfl, rfl⟩
  have he : (endPan w).state.currentX = w.state.currentX ∧
      (endPan w).state.currentY = w.state.currentY ∧
      (endPan w).state.scale = w.state.scale ∧
      (endPan w).transform = w.transform := by
    simp only [endPan]
    split_ifs
    · exact ⟨rfl, rfl, rfl, rfl⟩
    · exact ⟨rfl, rfl, rfl, rfl⟩
  have hp : ∀ (e : TouchEventData) (dom : Dom),
      ((handlePinchZoom sqrt e dom w).state.currentX = w.state.currentX ∧
        (handlePinchZoom sqrt e dom w).state.currentY = w.state.currentY ∧
        (handlePinchZoom sqrt e dom w).state.scale = w.state.scale ∧
        (handlePinchZoom sqrt e dom w).transform = w.transform) ∨
      (handlePinchZoom sqrt e dom w).transform =
        some ⟨(handlePinchZoom sqrt e dom w).state.currentX,
          (handlePinchZoom sqrt e dom w).state.currentY,
          (handlePinchZoom sqrt e dom w).state.scale⟩ := by
    intro e dom
    simp only [handlePinchZoom]
    split
    · split
      · exact Or.inl ⟨rfl, rfl, rfl, rfl⟩
      · exact hz _ _ _ dom
    · exact Or.inl ⟨rfl, rfl, rfl, rfl⟩
  cases op with
  | startPan e => exact Or.inl (hs e)
  | doPan e dom => exact hd e dom
  | endPan => exact Or.inl he
  | handleWheel e dom => exact hz _ _ _ dom
  | zoomAtPoint a b c dom => exact hz _ _ _ dom
  | handleTouchStart e =>
    simp only [step, handleTouchStart]
    split
    · exact Or.inl (hs _)
    · exact Or.inl ⟨rfl, rfl, rfl, rfl⟩
  | handleTouchMove e dom =>
    simp only [step, handleTouchMove]
    split
    · split_ifs
      · exact hd _ dom
      · exact Or.inl ⟨rfl, rfl, rfl, rfl⟩
    · exact hp e dom
    · exact Or.inl ⟨rfl, rfl, rfl, rfl⟩
  | handlePinchZoom e dom => exact hp e dom
  | handleTouchEnd => exact Or.inl he
  | handleGesture e dom =>
    simp only [step, handleGesture]
    split_ifs
    · exact Or.inr rfl
    · exact Or.inl ⟨rfl, rfl, rfl, rfl⟩
  | resetView dom => exact Or.inr rfl
  | zoomIn dom => exact hz _ _ _ dom
  | zoomOut dom => exact hz _ _ _ dom

/-- C16: after construction and after every sequence of calls, the transform
applied to the canvas is the one built from the pan and the scale of the
state, that is the string `translate(<currentX>px, <currentY>px)
scale(<scale>)`; and from any state whatever, every call (`doPan`,
`zoomAtPoint`, `handleGesture`, `resetView`, `zoomIn`, `zoomOut` and the
others) either leaves pan, scale and transform as they were or leaves the
transform built from the pan and the scale it leaves. -/
theorem transform_matches_state (sqrt : ℚ → ℚ) (numberToString : JSNum → String) (dom : Dom)
    (ops : List Op) :
    (constructed dom).transform =
      some ⟨(constructed dom).state.currentX, (constructed dom).state.currentY,
        (constructed dom).state.scale⟩ ∧
    (run sqrt ops (constructed dom)).transform =
      some ⟨(run sqrt ops (constructed dom)).state.currentX,
        (run sqrt ops (constructed dom)).state.currentY,
        (run sqrt ops (constructed dom)).state.scale⟩ ∧
    (run sqrt ops (constructed dom)).transform.map (Transform.cssText numberToString) =
      some ("translate(" ++ numberToString (run sqrt ops (constructed dom)).state.currentX ++
        "px, " ++ numberToString (run sqrt ops (constructed dom)).state.currentY ++
        "px) scale(" ++ numberToString (run sqrt ops (constructed dom)).state.scale ++ ")") ∧
    (∀ (w : PannableNotesWall) (op : Op),
      ((step sqrt w op).state.currentX = w.state.currentX ∧
        (step sqrt w op).state.currentY = w.state.currentY ∧
        (step sqrt w op).state.scale = w.state.scale ∧
        (step sqrt w op).transform = w.transform) ∨
      (step sqrt w op).transform =
        some ⟨(step sqrt w op).state.currentX, (step sqrt w op).state.currentY,
          (step sqrt w op).state.scale⟩) := by
  have key : ∀ (l : List Op) (w : PannableNotesWall),
      w.transform = some ⟨w.state.currentX, w.state.currentY, w.state.scale⟩ →
      (run sqrt l w).transform =
        some ⟨(run sqrt l w).state.currentX, (run sqrt l w).state.currentY,
          (run sqrt l w).state.scale⟩ := by
    intro l
    induction l with
    | nil =>
      intro w h
      exact h
    | cons op rest ih =>
      intro w h
      refine ih (step sqrt w op) ?_
      rcases step_unchanged_or_rendered sqrt w op with ⟨h1, h2, h3, h4⟩ | h5
      · rw [h4, h1, h2, h3]
        exact h
      · exact h5
  have h0 : (constructed dom).transform =
      some ⟨(constructed dom).state.currentX, (constructed dom).state.currentY,
        (constructed dom).state.scale⟩ := rfl
  have h1 := key ops (constructed dom) h0
  refine ⟨h0, h1, ?_, step_unchanged_or_rendered sqrt⟩
  rw [h1]
  simp [Transform.cssText]

/-! ## C17: the pinch baseline over touch events -/

/-- C17 (as stated, it fails): on the freshly constructed wall of Scenario A a
finger lands, a second lands, the two move, and a third finger lands; after
this last event three touch points are active and the pinch baseline is still
non-null. -/
theorem pinchData_kept_when_third_finger_lands :
    (run Rat.sqrt (thirdFingerLands scenarioDom) (constructed scenarioDom)).pinchData =
      some ⟨fin 120, fin 1⟩ ∧
    (thirdFingerLands scenarioDom).getLast? =
      some (Op.handleTouchStart ⟨[⟨90, 100⟩, ⟨210, 100⟩, ⟨300, 300⟩], false, false⟩) ∧
    [(⟨90, 100⟩ : Touch), ⟨210, 100⟩, ⟨300, 300⟩].length = 3 ∧
    (run Rat.sqrt (thirdFingerLands scenarioDom) (constructed scenarioDom)).pinchData ≠ none := by
  have hd : Rat.sqrt ((210 - 90) ^ 2) = 120 := by
    rw [show ((210 : ℚ) - 90) ^ 2 = 120 * 120 by norm_num, Rat.sqrt_eq]
    norm_num
  have h : (run Rat.sqrt (thirdFingerLands scenarioDom) (constructed scenarioDom)).pinchData =
      some ⟨fin 120, fin 1⟩ := by
    rw [constructed_scenarioDom]
    simp [run, step, thirdFingerLands, handleTouchStart, handleTouchMove, handlePinchZoom,
      startPan, hd]
  refine ⟨h, rfl, rfl, ?_⟩
  rw [h]
  simp

/-- C17 (as amended): over touch events from any state, the pinch baseline goes
from null to non-null only in a `touchmove` carrying exactly two touches, in
which case it records the distance between them and the current scale; every
`touchstart` and every `touchmove` carrying another number of touches, or
arriving when a baseline is recorded, leaves it as it is, whatever the number
of active touches; and it is null after every `touchend`. -/
theorem pinchData_over_touch_events (sqrt : ℚ → ℚ) (w : PannableNotesWall) (dom : Dom) :
    (∀ e : TouchEventData, (handleTouchStart e w).pinchData = w.pinchData) ∧
    (handleTouchEnd w).pinchData = none ∧
    (∀ e : TouchEventData, e.touches.length ≠ 2 →
      (handleTouchMove sqrt e dom w).pinchData = w.pinchData) ∧
    (∀ e : TouchEventData, w.pinchData ≠ none →
      (handleTouchMove sqrt e dom w).pinchData = w.pinchData) ∧
    (∀ (e : TouchEventData) (touch1 touch2 : Touch), w.pinchData = none →
      e.touches = [touch1, touch2] →
      (handleTouchMove sqrt e dom w).pinchData =
        some ⟨fin (touchDistance sqrt touch1 touch2), w.state.scale⟩) ∧
    (∀ e : TouchEventData, w.pinchData = none →
      (handleTouchMove sqrt e dom w).pinchData ≠ none → e.touches.length = 2) := by
  have hmove : ∀ e : TouchEventData, e.touches.length ≠ 2 →
      (handleTouchMove sqrt e dom w).pinchData = w.pinchData := by
    intro e h2
    obtain ⟨touches, a, b⟩ := e
    match touches, h2 with
    | [], _ => rfl
    | [t], _ =>
      simp only [handleTouchMove]
      split_ifs
      · exact doPan_pinchData _ _ _
      · rfl
    | [_, _], h2 => exact absurd rfl h2
    | _ :: _ :: _ :: _, _ => rfl
  refine ⟨?_, rfl, hmove, ?_, ?_, ?_⟩
  · intro e
    simp only [handleTouchStart]
    split
    · simp only [startPan]
      split_ifs
      · rfl
      · rfl
    · rfl
  · intro e hne
    by_cases h2 : e.touches.length = 2
    · obtain ⟨touches, a, b⟩ := e
      match touches, h2 with
      | [t1, t2], _ =>
        cases hp : w.pinchData with
        | none => exact absurd hp hne
        | some p =>
          simp only [handleTouchMove, handlePinchZoom, hp]
          exact (zoomAtPoint_pinchData _ _ _ _ _).trans hp
    · exact hmove e h2
  · intro e t1 t2 hp he
    obtain ⟨touches, a, b⟩ := e
    simp only at he
    subst he
    simp only [handleTouchMove, handlePinchZoom, hp, touchDistance]
  · intro e hp hne
    by_contra h2
    exact hne ((hmove e h2).trans hp)

/-- C17 (as amended), on the freshly constructed wall of Scenario A: a
`touchmove` with two touches 120 apart records the baseline, and a `touchend`
clears it. -/
theorem pinchData_over_touch_events_witness :
    (constructed scenarioDom).pinchData = none ∧
    (handleTouchMove Rat.sqrt ⟨[⟨90, 100⟩, ⟨210, 100⟩], false, false⟩ scenarioDom
      (constructed scenarioDom)).pinchData =
      some ⟨fin (touchDistance Rat.sqrt ⟨90, 100⟩ ⟨210, 100⟩),
        (constructed scenarioDom).state.scale⟩ ∧
    (handleTouchEnd
      (handleTouchMove Rat.sqrt ⟨[⟨90, 100⟩, ⟨210, 100⟩], false, false⟩ scenarioDom
        (constructed scenarioDom))).pinchData = none :=
  ⟨rfl,
    (pinchData_over_touch_events Rat.sqrt (constructed scenarioDom) scenarioDom).2.2.2.2.1
      ⟨[⟨90, 100⟩, ⟨210, 100⟩], false, false⟩ ⟨90, 100⟩ ⟨210, 100⟩ rfl rfl,
    (pinchData_over_touch_events Rat.sqrt
      (handleTouchMove Rat.sqrt ⟨[⟨90, 100⟩, ⟨210, 100⟩], false, false⟩ scenarioDom
        (constructed scenarioDom)) scenarioDom).2.1⟩

/-! ## C18: construction and its failure -/

/-- C18: the constructor fails exactly when the selector matches no element
(`document.querySelector` throws or returns null), with the message `Notes
wall element not found: <selector>` when it returns null; otherwise it yields
a controller in the identity state (not panning, pan `(0, 0)`, committed pan
`(0, 0)`, scale `1.0`); and `initPannableNotesWall` returns normally for every
selector, page and registry: it never propagates an error to its caller. -/
theorem construct_fails_iff_no_element
    (querySelector : String → Except String (Option Dom)) (wallSelector : String) :
    ((∃ error, construct querySelector wallSelector = Except.error error) ↔
      ¬ ∃ dom, querySelector wallSelector = Except.ok (some dom)) ∧
    (querySelector wallSelector = Except.ok none →
      construct querySelector wallSelector =
        Except.error ("Notes wall element not found: " ++ wallSelector)) ∧
    (∀ dom, querySelector wallSelector = Except.ok (some dom) →
      ∃ w, construct querySelector wallSelector = Except.ok w ∧
        w.state =
          { isPanning := false, startX := fin 0, startY := fin 0, currentX := fin 0,
            currentY := fin 0, offsetX := fin 0, offsetY := fin 0, scale := fin 1 } ∧
        w.pinchData = none) ∧
    (∀ (pathname : String) (pannableInstances : Registry),
      ∃ result,
        initPannableNotesWall pathname querySelector wallSelector pannableInstances =
          Except.ok result) := by
  refine ⟨?_, ?_, ?_, ?_⟩
  · cases h : querySelector wallSelector with
    | error e => simp [construct, h]
    | ok el =>
      cases el with
      | none => simp [construct, h]
      | some dom => simp [construct, h]
  · intro h
    simp [construct, h]
  · intro dom h
    exact ⟨constructed dom, by simp [construct, h], constructed_state dom, rfl⟩
  · intro pathname pannableInstances
    simp only [initPannableNotesWall]
    split_ifs
    · exact ⟨_, rfl⟩
    all_goals
      cases construct querySelector wallSelector with
      | error e => exact ⟨_, rfl⟩
      | ok v => exact ⟨_, rfl⟩

/-- C18, for a document in which only `#notes-wall` matches an element: the
selector `#missing` fails with the message of the constructor, the selector
`###` fails with the error of `querySelector`, and `#notes-wall` yields the
identity state. -/
theorem construct_fails_iff_no_element_witness :
    construct exampleQuerySelector "#missing" =
      Except.error "Notes wall element not found: #missing" ∧
    (∃ error, construct exampleQuerySelector "###" = Except.error error) ∧
    ∃ w, construct exampleQuerySelector "#notes-wall" = Except.ok w ∧
      w.state =
        { isPanning := false, startX := fin 0, startY := fin 0, currentX := fin 0,
          currentY := fin 0, offsetX := fin 0, offsetY := fin 0, scale := fin 1 } ∧
      w.pinchData = none :=
  ⟨(construct_fails_iff_no_element exampleQuerySelector "#missing").2.1
      (by simp [exampleQuerySelector]),
    (construct_fails_iff_no_element exampleQuerySelector "###").1.mpr
      (by simp [exampleQuerySelector]),
    (construct_fails_iff_no_element exampleQuerySelector "#notes-wall").2.2.1 scenarioDom
      (by simp [exampleQuerySelector])⟩

/-! ## C19: the registry after a successful initialisation -/

/-- C19: when `initPannableNotesWall` succeeds, that is when it reports
`Pannable notes wall initialized` on the console, the selector matches an
element, the registry maps the selector to the controller the constructor
builds from that element alone, which is in the identity state whatever the
registry held before, and the entries of all other selectors are unchanged. -/
theorem initPannableNotesWall_success (pathname : String)
    (querySelector : String → Except String (Option Dom)) (wallSelector : String)
    (pannableInstances result : Registry) (calls : List ConsoleCall)
    (h : initPannableNotesWall pathname querySelector wallSelector pannableInstances =
      Except.ok (result, calls))
    (hs : ConsoleCall.log ["✅ Pannable notes wall initialized for", wallSelector] ∈ calls) :
    ∃ dom, querySelector wallSelector = Except.ok (some dom) ∧
      result wallSelector = some (constructed dom) ∧
      (constructed dom).state =
        { isPanning := false, startX := fin 0, startY := fin 0, currentX := fin 0,
          currentY := fin 0, offsetX := fin 0, offsetY := fin 0, scale := fin 1 } ∧
      ∀ other, other ≠ wallSelector → result other = pannableInstances other := by
  simp only [initPannableNotesWall] at h
  by_cases hg : pathname = "/" ∧ wallSelector = "#recent-messages"
  · rw [if_pos hg] at h
    simp only [Except.ok.injEq, Prod.mk.injEq] at h
    rw [← h.2] at hs
    simp at hs
  · rw [if_neg hg] at h
    cases hq : querySelector wallSelector with
    | error e =>
      simp only [construct, hq, Except.ok.injEq, Prod.mk.injEq] at h
      rw [← h.2] at hs
      simp at hs
    | ok el =>
      cases el with
      | none =>
        simp only [construct, hq, Except.ok.injEq, Prod.mk.injEq] at h
        rw [← h.2] at hs
        simp at hs
      | some dom =>
        simp only [construct, hq, Except.ok.injEq, Prod.mk.injEq] at h
        refine ⟨dom, rfl, ?_, constructed_state dom, ?_⟩
        · rw [← h.1]
          simp [Registry.set]
        · intro other ho
          rw [← h.1]
          by_cases hh : pannableInstances.has wallSelector = true
          · simp [Registry.set, Registry.delete, hh, ho]
          · simp [Registry.set, hh, ho]

/-- C19, on the page `/write-note`, for a registry that holds a dragged wall for
`#notes-wall`: after the initialisation the registry holds for `#notes-wall`
the freshly constructed wall of Scenario A, and the entry of `#other` is as
before. -/
theorem initPannableNotesWall_success_witness :
    initPannableNotesWall "/write-note" exampleQuerySelector "#notes-wall" exampleRegistry =
      Except.ok ((exampleRegistry.delete "#notes-wall").set "#notes-wall"
          (constructed scenarioDom),
        [ConsoleCall.log ["✅ Pannable notes wall initialized for", "#notes-wall"]]) ∧
    exampleRegistry "#notes-wall" = some draggedWall ∧
    ∃ dom, exampleQuerySelector "#notes-wall" = Except.ok (some dom) ∧
      ((exampleRegistry.delete "#notes-wall").set "#notes-wall" (constructed scenarioDom))
        "#notes-wall" = some (constructed dom) ∧
      (constructed dom).state =
        { isPanning := false, startX := fin 0, startY := fin 0, currentX := fin 0,
          currentY := fin 0, offsetX := fin 0, offsetY := fin 0, scale := fin 1 } ∧
      ∀ other, other ≠ "#notes-wall" →
        ((exampleRegistry.delete "#notes-wall").set "#notes-wall" (constructed scenarioDom))
          other = exampleRegistry other := by
  have h : initPannableNotesWall "/write-note" exampleQuerySelector "#notes-wall"
      exampleRegistry =
      Except.ok ((exampleRegistry.delete "#notes-wall").set "#notes-wall"
          (constructed scenarioDom),
        [ConsoleCall.log ["✅ Pannable notes wall initialized for", "#notes-wall"]]) := by
    simp [initPannableNotesWall, construct, exampleQuerySelector, Registry.has, exampleRegistry]
  exact ⟨h, by simp [exampleRegistry],
    initPannableNotesWall_success "/write-note" exampleQuerySelector "#notes-wall"
      exampleRegistry _ _ h (by simp)⟩

/-! ## C20: duplicated events -/

/-- C20 (as stated, it fails): the controller is constructed while the canvas is
1000 by 600, a drag starts at `(500, 300)` and the canvas grows to 1200 by
1000; the `doPan` event at `(200, 0)` delivered once leaves the pan at
`(-200, 0)`, delivered twice it leaves the pan at `(-300, -300)`. -/
theorem doPan_twice_differs_after_canvas_grew :
    (doPan ⟨200, 0, false, false⟩ scenarioDom pressedSmallCanvasWall).state.currentX =
      fin (-200) ∧
    (doPan ⟨200, 0, false, false⟩ scenarioDom pressedSmallCanvasWall).state.currentY = fin 0 ∧
    (doPan ⟨200, 0, false, false⟩ scenarioDom
      (doPan ⟨200, 0, false, false⟩ scenarioDom pressedSmallCanvasWall)).state.currentX =
        fin (-300) ∧
    (doPan ⟨200, 0, false, false⟩ scenarioDom
      (doPan ⟨200, 0, false, false⟩ scenarioDom pressedSmallCanvasWall)).state.currentY =
        fin (-300) ∧
    doPan ⟨200, 0, false, false⟩ scenarioDom
      (doPan ⟨200, 0, false, false⟩ scenarioDom pressedSmallCanvasWall) ≠
      doPan ⟨200, 0, false, false⟩ scenarioDom pressedSmallCanvasWall := by
  rw [pressedSmallCanvasWall, constructed_smallCanvasDom]
  simp [startPan, doPan, scenarioDom, updateTransform, updateConstraints, constrainValue]
  norm_num

/-- C20 (as amended): for every state and every geometry, calling
`updateTransform` twice leaves the same controller as calling it once; the
same `doPan` event delivered three times under the same geometry leaves the
same controller as delivering it twice; and delivering it twice leaves the same
controller, rendered transform included, as delivering it once whenever the
stored pan bounds are at least as wide as the bounds recomputed from the
geometry (`storedMin <= panMin` and `0 <= storedMax` on both axes), and
whenever the geometry is unchanged (`updateTransform` under it leaves the
controller as it is). -/
theorem doPan_duplicate_harmless_when_bounds_wide (w : PannableNotesWall) (e : TouchEventLike)
    (dom : Dom) :
    updateTransform dom (updateTransform dom w) = updateTransform dom w ∧
    doPan e dom (doPan e dom (doPan e dom w)) = doPan e dom (doPan e dom w) ∧
    (le w.constraints.minX (updateConstraints dom w).constraints.minX = true →
      le (fin 0) w.constraints.maxX = true →
      le w.constraints.minY (updateConstraints dom w).constraints.minY = true →
      le (fin 0) w.constraints.maxY = true →
      doPan e dom (doPan e dom w) = doPan e dom w) ∧
    (updateTransform dom w = w → doPan e dom (doPan e dom w) = doPan e dom w) := by
  refine ⟨updateTransform_idem dom w, ?_, ?_, ?_⟩
  · cases h : w.state.isPanning with
    | false => simp [doPan, h]
    | true =>
      have h1 : (doPan e dom w).state.isPanning = true := by
        rw [doPan_of_isPanning e dom w h]
        exact h
      have h2 : (doPan e dom (doPan e dom w)).state.isPanning = true := by
        rw [doPan_of_isPanning e dom _ h1]
        exact h1
      rw [doPan_of_isPanning e dom _ h2, doPan_of_isPanning e dom _ h1,
        doPan_of_isPanning e dom w h]
      simp only [updateTransform, updateConstraints]
  · intro hx1 hx2 hy1 hy2
    cases h : w.state.isPanning with
    | false => simp [doPan, h]
    | true =>
      have h1 : (doPan e dom w).state.isPanning = true := by
        rw [doPan_of_isPanning e dom w h]
        exact h
      rw [doPan_of_isPanning e dom _ h1, doPan_of_isPanning e dom w h]
      simp only [updateTransform, updateConstraints] at hx1 hy1 ⊢
      have hcx := jsMin_zero_le_zero (ne_nan_of_le_right hx1)
      have hcy := jsMin_zero_le_zero (ne_nan_of_le_right hy1)
      have hxx := le_refl_of_le_right hx1
      have hyy := le_refl_of_le_right hy1
      have h00 : le (fin 0) (fin 0) = true := by simp
      rw [constrainValue_constrainValue_of_wider hx1 hx2 hcx,
        constrainValue_constrainValue_of_wider hy1 hy2 hcy,
        constrainValue_constrainValue_of_wider hxx h00 hcx,
        constrainValue_constrainValue_of_wider hyy h00 hcy]
  · intro hfix
    cases h : w.state.isPanning with
    | false => simp [doPan, h]
    | true =>
      have h1 : (doPan e dom w).state.isPanning = true := by
        rw [doPan_of_isPanning e dom w h]
        exact h
      have hmnx := congrArg (fun v => v.constraints.minX) hfix
      have hmny := congrArg (fun v => v.constraints.minY) hfix
      have hmxx := congrArg (fun v => v.constraints.maxX) hfix
      have hmxy := congrArg (fun v => v.constraints.maxY) hfix
      simp only [updateTransform, updateConstraints] at hmnx hmny hmxx hmxy
      rw [doPan_of_isPanning e dom _ h1, doPan_of_isPanning e dom w h]
      simp only [updateTransform, updateConstraints]
      rw [← hmnx, ← hmny, ← hmxx, ← hmxy]

/-- C20 (as amended), on the wall of Scenario A dragged to `(50, 80)`: the
stored bounds are the recomputed ones, and a second `doPan` at `(50, 80)`
changes nothing. -/
theorem doPan_duplicate_harmless_when_bounds_wide_witness :
    le draggedWall.constraints.minX
      (updateConstraints scenarioDom draggedWall).constraints.minX = true ∧
    le (fin 0) draggedWall.constraints.maxX = true ∧
    doPan ⟨50, 80, false, false⟩ scenarioDom
      (doPan ⟨50, 80, false, false⟩ scenarioDom draggedWall) =
      doPan ⟨50, 80, false, false⟩ scenarioDom draggedWall := by
  have h1 : le draggedWall.constraints.minX
      (updateConstraints scenarioDom draggedWall).constraints.minX = true := by
    rw [draggedWall_eq]
    simp [updateConstraints, scenarioDom]
    norm_num
  have h2 : le (fin 0) draggedWall.constraints.maxX = true := by
    rw [draggedWall_eq]
    simp
  have h3 : le draggedWall.constraints.minY
      (updateConstraints scenarioDom draggedWall).constraints.minY = true := by
    rw [draggedWall_eq]
    simp [updateConstraints, scenarioDom]
    norm_num
  have h4 : le (fin 0) draggedWall.constraints.maxY = true := by
    rw [draggedWall_eq]
    simp
  exact ⟨h1, h2,
    (doPan_duplicate_harmless_when_bounds_wide draggedWall ⟨50, 80, false, false⟩
      scenarioDom).2.2.1 h1 h2 h3 h4⟩

end PannableNotesWall

namespace Security

open JSString

/-! ## C21: `escapeHtml` -/

theorem escapeHtml_cons (x : Char) (l : List Char) :
    (escapeHtml (JSValue.str ⟨x :: l⟩)).data =
      (escapeHtml (JSValue.str ⟨[x]⟩)).data ++ (escapeHtml (JSValue.str ⟨l⟩)).data := by
  simp only [escapeHtml, replaceChar, List.flatMap_cons, List.flatMap_append, List.flatMap_nil,
    List.append_nil]

theorem escapeHtml_single (x : Char) :
    (escapeHtml (JSValue.str ⟨[x]⟩)).data = escapeChar x := by
  by_cases h1 : x = '&'
  · subst h1
    decide
  by_cases h2 : x = '<'
  · subst h2
    decide
  by_cases h3 : x = '>'
  · subst h3
    decide
  by_cases h4 : x = doubleQuote
  · subst h4
    decide
  by_cases h5 : x = singleQuote
  · subst h5
    decide
  by_cases h6 : x = '/'
  · subst h6
    decide
  by_cases h7 : x = backtick
  · subst h7
    decide
  by_cases h8 : x = '='
  · subst h8
    decide
  simp [escapeHtml, replaceChar, escapeChar, h1, h2, h3, h4, h5, h6, h7, h8]

/-- `escapeHtml` works character by character. -/
theorem escapeHtml_data (s : String) :
    (escapeHtml (JSValue.str s)).data = s.data.flatMap escapeChar := by
  obtain ⟨l⟩ := s
  induction l with
  | nil => rfl
  | cons x l ih =>
    rw [escapeHtml_cons, escapeHtml_single, ih]
    rfl

/-- The characters `escapeHtml` replaces, each with its entity. -/
theorem escapeChar_eq (x : Char) :
    (∃ p ∈ (('&' :: escapedChars).zip entities), p.1 = x ∧ escapeChar x = p.2.data) ∨
      (escapeChar x = [x] ∧ x ∉ '&' :: escapedChars) := by
  simp only [escapeChar]
  split_ifs with h1 h2 h3 h4 h5 h6 h7 h8
  · exact Or.inl ⟨('&', "&amp;"), by decide, h1.symm, rfl⟩
  · exact Or.inl ⟨('<', "&lt;"), by decide, h2.symm, rfl⟩
  · exact Or.inl ⟨('>', "&gt;"), by decide, h3.symm, rfl⟩
  · exact Or.inl ⟨(doubleQuote, "&quot;"), by decide, h4.symm, rfl⟩
  · exact Or.inl ⟨(singleQuote, "&#039;"), by decide, h5.symm, rfl⟩
  · exact Or.inl ⟨('/', "&#x2F;"), by decide, h6.symm, rfl⟩
  · exact Or.inl ⟨(backtick, "&#x60;"), by decide, h7.symm, rfl⟩
  · exact Or.inl ⟨('=', "&#x3D;"), by decide, h8.symm, rfl⟩
  · refine Or.inr ⟨rfl, ?_⟩
    simp [escapedChars, h1, h2, h3, h4, h5, h6, h7, h8]

/-- No entity begins another, or is another: two entities one of which is a
prefix of the other stand for the same character. -/
theorem entities_prefix_free :
    ∀ p ∈ (('&' :: escapedChars).zip entities), ∀ q ∈ (('&' :: escapedChars).zip entities),
      (p.2.data <+: q.2.data ∨ q.2.data <+: p.2.data) → p.1 = q.1 := by
  decide

/-- Each entity begins with `&`, has no other `&`, holds none of the replaced
characters, and is one of the eight. -/
theorem entities_shape :
    ∀ p ∈ (('&' :: escapedChars).zip entities),
      p.2.data.head? = some '&' ∧ '&' ∉ p.2.data.tail ∧ p.2 ∈ entities ∧
        ∀ c ∈ p.2.data, c ∉ escapedChars := by
  decide

theorem escapeChar_append_inj {x y : Char} {a b : List Char}
    (h : escapeChar x ++ a = escapeChar y ++ b) : x = y := by
  rcases escapeChar_eq x with ⟨p, hp, hpx, hx⟩ | ⟨hx, hxn⟩
  · rcases escapeChar_eq y with ⟨q, hq, hqy, hy⟩ | ⟨hy, hyn⟩
    · rw [hx, hy] at h
      have h1 : p.2.data <+: q.2.data ++ b := ⟨a, h⟩
      have h2 : q.2.data <+: q.2.data ++ b := ⟨b, rfl⟩
      rw [← hpx, ← hqy]
      exact entities_prefix_free p hp q hq (List.prefix_or_prefix_of_prefix h1 h2)
    · rw [hx, hy] at h
      have hs := (entities_shape p hp).1
      cases hd : p.2.data with
      | nil => simp [hd] at hs
      | cons c t =>
        rw [hd] at h hs
        simp only [List.head?_cons, Option.some.injEq] at hs
        simp only [List.cons_append, List.singleton_append, List.cons.injEq] at h
        exact absurd (h.1.symm.trans hs) (fun hy0 => hyn (by simp [hy0]))
  · rcases escapeChar_eq y with ⟨q, hq, hqy, hy⟩ | ⟨hy, hyn⟩
    · rw [hx, hy] at h
      have hs := (entities_shape q hq).1
      cases hd : q.2.data with
      | nil => simp [hd] at hs
      | cons c t =>
        rw [hd] at h hs
        simp only [List.head?_cons, Option.some.injEq] at hs
        simp only [List.cons_append, List.singleton_append, List.cons.injEq] at h
        exact absurd (h.1.trans hs) (fun hx0 => hxn (by simp [hx0]))
    · rw [hx, hy] at h
      simp only [List.singleton_append, List.cons.injEq] at h
      exact h.1

theorem escapeChar_ne_nil (x : Char) : escapeChar x ≠ [] := by
  rcases escapeChar_eq x with ⟨p, hp, _, hx⟩ | ⟨hx, _⟩
  · rw [hx]
    intro h0
    have hs := (entities_shape p hp).1
    simp [h0] at hs
  · rw [hx]
    simp

theorem flatMap_escapeChar_injective :
    ∀ l m : List Char, l.flatMap escapeChar = m.flatMap escapeChar → l = m := by
  intro l
  induction l with
  | nil =>
    intro m h
    cases m with
    | nil => rfl
    | cons y m =>
      simp only [List.flatMap_nil, List.flatMap_cons] at h
      exact absurd (List.append_eq_nil.1 h.symm).1 (escapeChar_ne_nil y)
  | cons x l ih =>
    intro m h
    cases m with
    | nil =>
      simp only [List.flatMap_nil, List.flatMap_cons] at h
      exact absurd (List.append_eq_nil.1 h).1 (escapeChar_ne_nil x)
    | cons y m =>
      simp only [List.flatMap_cons] at h
      have hxy := escapeChar_append_inj h
      subst hxy
      rw [ih m (List.append_cancel_left h)]

theorem flatMap_escapeChar_amp :
    ∀ (l pre post : List Char), l.flatMap escapeChar = pre ++ '&' :: post →
      ∃ e ∈ entities, e.data <+: '&' :: post := by
  intro l
  induction l with
  | nil =>
    intro pre post h
    simp at h
  | cons x l ih =>
    intro pre post h
    rw [List.flatMap_cons] at h
    rcases List.append_eq_append_iff.1 h with ⟨a, _, h2⟩ | ⟨c, h1, h2⟩
    · exact ih a post h2
    · cases c with
      | nil => exact ih [] post (by simpa using h2.symm)
      | cons d c =>
        simp only [List.cons_append, List.cons.injEq] at h2
        obtain ⟨hd, hpost⟩ := h2
        subst hd
        rcases escapeChar_eq x with ⟨p, hp, _, hx⟩ | ⟨hx, hxn⟩
        · obtain ⟨hs1, hs2, hs3, _⟩ := entities_shape p hp
          refine ⟨p.2, hs3, ?_⟩
          rw [hx] at h1
          cases pre with
          | nil =>
            rw [hpost, h1]
            exact ⟨l.flatMap escapeChar, by simp⟩
          | cons u pre =>
            rw [h1] at hs2
            simp at hs2
        · rw [hx] at h1
          cases pre with
          | nil =>
            simp only [List.nil_append, List.cons.injEq] at h1
            exact absurd h1.1 (fun hx0 => hxn (by simp [hx0]))
          | cons u pre =>
            simp at h1

/-- C21: for every string, the result of `escapeHtml` holds none of the
characters `<`, `>`, `"`, `'`, `/`, the backtick and `=`; wherever it holds an
`&`, one of the eight entities the function emits begins there; two different
strings never have the same result; and for a value that is not a string the
result is the empty string. -/
theorem escapeHtml_safe_and_injective :
    (∀ s : String, ∀ c ∈ (escapeHtml (JSValue.str s)).data, c ∉ escapedChars) ∧
    (∀ (s : String) (pre post : List Char),
      (escapeHtml (JSValue.str s)).data = pre ++ '&' :: post →
        ∃ e ∈ entities, e.data <+: '&' :: post) ∧
    (∀ s t : String, escapeHtml (JSValue.str s) = escapeHtml (JSValue.str t) → s = t) ∧
    (∀ v : JSValue, v.typeOf ≠ "string" → escapeHtml v = "") := by
  refine ⟨?_, ?_, ?_, ?_⟩
  · intro s c hc
    rw [escapeHtml_data, List.mem_flatMap] at hc
    obtain ⟨x, _, hcx⟩ := hc
    rcases escapeChar_eq x with ⟨p, hp, _, hx⟩ | ⟨hx, hxn⟩
    · rw [hx] at hcx
      exact (entities_shape p hp).2.2.2 c hcx
    · rw [hx] at hcx
      simp only [List.mem_singleton] at hcx
      subst hcx
      exact fun hm => hxn (List.mem_cons_of_mem _ hm)
  · intro s pre post h
    rw [escapeHtml_data] at h
    exact flatMap_escapeChar_amp s.data pre post h
  · intro s t h
    have h2 := congrArg String.data h
    rw [escapeHtml_data, escapeHtml_data] at h2
    have h3 := flatMap_escapeChar_injective _ _ h2
    cases s
    cases t
    simp only at h3
    rw [h3]
  · intro v hv
    cases v <;> first | rfl | exact absurd rfl hv

/-- C21, for the string `<b>1/2 = x</b>`. -/
theorem escapeHtml_safe_and_injective_witness :
    escapeHtml (JSValue.str "<b>1/2 = x</b>") =
      "&lt;b&gt;1&#x2F;2 &#x3D; x&lt;&#x2F;b&gt;" ∧
    ∀ c ∈ (escapeHtml (JSValue.str "<b>1/2 = x</b>")).data, c ∉ escapedChars :=
  ⟨by decide, escapeHtml_safe_and_injective.1 "<b>1/2 = x</b>"⟩

end Security

namespace Regex

open JSString

/-! ## C22: `createNote` -/

theorem greedy_some (k : List Char → Option (List Char)) (cls : Char → Bool) :
    ∀ (s rest : List Char), greedy k cls s = some rest → ∃ t, t <:+ s ∧ k t = some rest := by
  intro s
  induction s with
  | nil =>
    intro rest h
    exact ⟨[], List.suffix_refl _, h⟩
  | cons x s ih =>
    intro rest h
    simp only [greedy] at h
    split_ifs at h with hc
    · cases hg : greedy k cls s with
      | some r =>
        rw [hg] at h
        obtain ⟨t, ht, hk⟩ := ih r hg
        simp only [Option.some.injEq] at h
        subst h
        exact ⟨t, ht.trans (List.suffix_cons x s), hk⟩
      | none =>
        rw [hg] at h
        exact ⟨x :: s, List.suffix_refl _, h⟩
    · exact ⟨x :: s, List.suffix_refl _, h⟩

theorem lazy_some (k : List Char → Option (List Char)) (cls : Char → Bool) :
    ∀ (s rest : List Char), lazy k cls s = some rest → ∃ t, t <:+ s ∧ k t = some rest := by
  intro s
  induction s with
  | nil =>
    intro rest h
    exact ⟨[], List.suffix_refl _, h⟩
  | cons x s ih =>
    intro rest h
    simp only [lazy] at h
    cases hk : k (x :: s) with
    | some r =>
      rw [hk] at h
      simp only [Option.some.injEq] at h
      subst h
      exact ⟨x :: s, List.suffix_refl _, hk⟩
    | none =>
      rw [hk] at h
      simp only at h
      split_ifs at h with hc
      obtain ⟨t, ht, hkt⟩ := ih rest h
      exact ⟨t, ht.trans (List.suffix_cons x s), hkt⟩

/-- A match of a pattern that holds the literal character `c`, which no other
character matches, lies in an input that holds `c`. -/
theorem mem_of_matchItems (c : Char) (hc : ∀ x, matchesChar x c = true → x = c) :
    ∀ (items : List RegexItem) (s rest : List Char), RegexItem.char c ∈ items →
      matchItems items s = some rest → c ∈ s := by
  intro items
  induction items with
  | nil =>
    intro s rest hm
    simp at hm
  | cons item items ih =>
    intro s rest hm h
    cases item with
    | char d =>
      cases s with
      | nil => simp [matchItems] at h
      | cons x s =>
        simp only [matchItems] at h
        split_ifs at h with hx
        rcases List.mem_cons.1 hm with hd | hd
        · simp only [RegexItem.char.injEq] at hd
          subst hd
          rw [hc x hx]
          exact List.mem_cons_self _ _
        · exact List.mem_cons_of_mem _ (ih s rest hd h)
    | star cls =>
      have hm2 : RegexItem.char c ∈ items := by simpa using hm
      simp only [matchItems] at h
      obtain ⟨t, ht, hk⟩ := greedy_some _ _ _ _ h
      exact ht.subset (ih t rest hm2 hk)
    | plus cls =>
      have hm2 : RegexItem.char c ∈ items := by simpa using hm
      cases s with
      | nil => simp [matchItems] at h
      | cons x s =>
        simp only [matchItems] at h
        split_ifs at h with hx
        obtain ⟨t, ht, hk⟩ := greedy_some _ _ _ _ h
        exact List.mem_cons_of_mem _ (ht.subset (ih t rest hm2 hk))
    | lazyStar cls =>
      have hm2 : RegexItem.char c ∈ items := by simpa using hm
      simp only [matchItems] at h
      obtain ⟨t, ht, hk⟩ := lazy_some _ _ _ _ h
      exact ht.subset (ih t rest hm2 hk)

/-- A string in which a pattern holding the literal character `c` is found
holds `c`. -/
theorem mem_of_test (c : Char) (hc : ∀ x, matchesChar x c = true → x = c)
    (pattern : List RegexItem) (s : String) (hm : RegexItem.char c ∈ pattern)
    (h : test pattern s = true) : c ∈ s.data := by
  simp only [test, List.any_eq_true] at h
  obtain ⟨t, ht, hs⟩ := h
  rw [List.mem_tails] at ht
  cases hr : matchItems pattern t with
  | none => simp [hr] at hs
  | some rest => exact ht.subset (mem_of_matchItems c hc pattern t rest hm hr)

/-- A character that is not an ASCII letter is matched by itself only. -/
theorem eq_of_matchesChar {x c : Char} (hc : isAsciiLetter c = false)
    (h : matchesChar x c = true) : x = c := by
  simpa [matchesChar, hc] using h

end Regex

namespace Notes

open JSString Regex

theorem isSafeChar_of_isNameChar {c : Char} (h : isNameChar c = true) : isSafeChar c = true := by
  simp only [isNameChar, Bool.or_eq_true] at h
  simp only [isSafeChar, Bool.or_eq_true]
  tauto

theorem toNat_lt_of_isSafeChar {c : Char} (h : isSafeChar c = true) : c.toNat < 65536 := by
  simp only [isSafeChar, isWordChar, isWhiteSpace, Bool.or_eq_true, Bool.and_eq_true,
    decide_eq_true_eq] at h
  omega

/-- A string of characters below `0x10000` has as many UTF-16 code units as
characters. -/
theorem utf16Length_eq_length (s : String) (h : ∀ c ∈ s.data, c.toNat < 65536) :
    utf16Length s = s.length := by
  obtain ⟨l⟩ := s
  simp only [utf16Length, String.length]
  induction l with
  | nil => rfl
  | cons x l ih =>
    have hx : x.toNat < 65536 := h x (List.mem_cons_self _ _)
    have hl := ih (fun c hc => h c (List.mem_cons_of_mem _ hc))
    simp only at hl
    simp only [List.map_cons, List.sum_cons, List.length_cons, hx, if_true, hl]
    omega

/-- The number of UTF-16 code units is at least the number of characters. -/
theorem length_le_utf16Length (s : String) : s.length ≤ utf16Length s := by
  obtain ⟨l⟩ := s
  simp only [utf16Length, String.length]
  induction l with
  | nil => simp
  | cons x l ih =>
    simp only [List.map_cons, List.sum_cons, List.length_cons]
    split_ifs <;> omega

/-- None of the suspicious patterns is found in a string of characters of the
class of `safePattern`: each holds one of `<`, `:`, `=` and `(`. -/
theorem suspiciousPatterns_not_found (s : String) (h : ∀ c ∈ s.data, isSafeChar c = true) :
    (suspiciousPatterns.any fun pattern => test pattern s) = false := by
  have key : ∀ (c : Char) (pattern : List RegexItem), isAsciiLetter c = false →
      isSafeChar c = false → RegexItem.char c ∈ pattern → test pattern s = false := by
    intro c pattern h1 h2 h3
    cases ht : test pattern s with
    | false => rfl
    | true =>
      have hm := mem_of_test c (fun x hx => eq_of_matchesChar h1 hx) pattern s h3 ht
      rw [h c hm] at h2
      cases h2
  have k1 := key '<' (literal "<script") (by decide) (by decide) (by simp [literal])
  have k2 := key ':' (literal "javascript:") (by decide) (by decide) (by simp [literal])
  have k3 := key '=' (literal "on" ++ [RegexItem.plus isWordChar, RegexItem.star isWhiteSpace,
    RegexItem.char '=']) (by decide) (by decide) (by simp [literal])
  have k4 := key ':' (literal "data:text/html") (by decide) (by decide) (by simp [literal])
  have k5 := key '<' (literal "<iframe") (by decide) (by decide) (by simp [literal])
  have k6 := key '(' (literal "eval" ++ [RegexItem.star isWhiteSpace, RegexItem.char '('])
    (by decide) (by decide) (by simp [literal])
  simp only [suspiciousPatterns, List.any_cons, List.any_nil, k1, k2, k3, k4, k5, k6,
    Bool.or_self]

/-- C22: `createNote` inserts a note exactly when, after trimming, the message
has between 1 and 500 characters, all word characters, white space or one of
`. , ! ? ' " -`, and the sender name has between 1 and 50 characters, all word
characters, white space, `'` or `-`; the note it appends to the table holds the
trimmed message and the trimmed sender name; in every other case it throws,
and no table results. -/
theorem createNote_inserts_iff_valid (now : Nat) (notes : List Note) (args : CreateNoteArgs) :
    (isValidNote args = true →
      createNote now notes args =
        Except.ok (notes ++ [{ message := trim args.message,
                               senderName := trim args.senderName, createdAt := now }])) ∧
    (isValidNote args = false → ∃ error, createNote now notes args = Except.error error) ∧
    ((∃ table, createNote now notes args = Except.ok table) ↔ isValidNote args = true) := by
  have hvalid : isValidNote args = true →
      createNote now notes args =
        Except.ok (notes ++ [{ message := trim args.message,
                               senderName := trim args.senderName, createdAt := now }]) := by
    intro hv
    simp only [isValidNote, Bool.and_eq_true, decide_eq_true_eq, List.all_eq_true] at hv
    obtain ⟨⟨⟨⟨⟨h1, h2⟩, h3⟩, h4⟩, h5⟩, h6⟩ := hv
    have hm : trim args.message ≠ "" := by
      intro h0
      rw [h0] at h1
      simp at h1
    have hn : trim args.senderName ≠ "" := by
      intro h0
      rw [h0] at h4
      simp at h4
    have hlm := utf16Length_eq_length _ (fun c hc => toNat_lt_of_isSafeChar (h3 c hc))
    have hln := utf16Length_eq_length _
      (fun c hc => toNat_lt_of_isSafeChar (isSafeChar_of_isNameChar (h6 c hc)))
    have hs := suspiciousPatterns_not_found
      (trim args.message ++ " " ++ trim args.senderName) (by
        intro c hc
        simp only [String.data_append, List.mem_append] at hc
        rcases hc with (hc | hc) | hc
        · exact h3 c hc
        · have : c = ' ' := by simpa using hc
          subst this
          decide
        · exact isSafeChar_of_isNameChar (h6 c hc))
    have e3 : testAnchoredClassStar isSafeChar (trim args.message) = true := by
      simpa [testAnchoredClassStar] using h3
    have e6 : testAnchoredClassStar isNameChar (trim args.senderName) = true := by
      simpa [testAnchoredClassStar] using h6
    simp only [createNote, hm, hn, or_self, if_false, hlm, hln, gt_iff_lt, not_lt.2 h2,
      not_lt.2 h5, e3, e6, Bool.not_true, hs]
    rfl
  have hinvalid : isValidNote args = false →
      ∃ error, createNote now notes args = Except.error error := by
    intro hv
    simp only [createNote]
    split_ifs with c1 c2 c3 c4 c5 c6
    · exact ⟨_, rfl⟩
    · exact ⟨_, rfl⟩
    · exact ⟨_, rfl⟩
    · exact ⟨_, rfl⟩
    · exact ⟨_, rfl⟩
    · exact ⟨_, rfl⟩
    · exfalso
      have h3 : (trim args.message).data.all isSafeChar = true := by
        simpa [testAnchoredClassStar] using c4
      have h6 : (trim args.senderName).data.all isNameChar = true := by
        simpa [testAnchoredClassStar] using c5
      have hm : 1 ≤ (trim args.message).length := by
        rcases hd : trim args.message with ⟨l⟩
        cases l with
        | nil => exact absurd (Or.inl hd) c1
        | cons x l => simp [String.length]
      have hn : 1 ≤ (trim args.senderName).length := by
        rcases hd : trim args.senderName with ⟨l⟩
        cases l with
        | nil => exact absurd (Or.inr hd) c1
        | cons x l => simp [String.length]
      have h2 : (trim args.message).length ≤ 500 :=
        (length_le_utf16Length _).trans (not_lt.1 c2)
      have h5 : (trim args.senderName).length ≤ 50 :=
        (length_le_utf16Length _).trans (not_lt.1 c3)
      have : isValidNote args = true := by
        simp only [isValidNote, Bool.and_eq_true, decide_eq_true_eq]
        exact ⟨⟨⟨⟨⟨hm, h2⟩, h3⟩, hn⟩, h5⟩, h6⟩
      rw [this] at hv
      cases hv
  refine ⟨hvalid, hinvalid, ?_⟩
  constructor
  · rintro ⟨table, ht⟩
    cases hv : isValidNote args with
    | true => rfl
    | false =>
      obtain ⟨error, he⟩ := hinvalid hv
      rw [he] at ht
      cases ht
  · intro hv
    exact ⟨_, hvalid hv⟩

/-- C22, for the message `  Hello, world! ` from ` Ann `: the note stored holds
`Hello, world!` and `Ann`. -/
theorem createNote_inserts_iff_valid_witness :
    isValidNote ⟨"  Hello, world! ", " Ann "⟩ = true ∧
    trim "  Hello, world! " = "Hello, world!" ∧
    trim " Ann " = "Ann" ∧
    createNote 1700 [] ⟨"  Hello, world! ", " Ann "⟩ =
      Except.ok ([] ++ [{ message := trim "  Hello, world! ", senderName := trim " Ann ",
                          createdAt := 1700 }]) :=
  ⟨by decide, by decide, by decide,
    (createNote_inserts_iff_valid 1700 [] ⟨"  Hello, world! ", " Ann "⟩).1 (by decide)⟩

end Notes

namespace NotesRefreshSystem

/-! ## C23: `refresh` -/

theorem invocations_append (a b : List RefreshEvent) :
    invocations (a ++ b) = invocations a ++ invocations b := by
  induction a with
  | nil => rfl
  | cons e a ih =>
    cases e <;> simp [invocations, ih]

theorem schedule_succ {σ : Type} (refreshMethods : List (RefreshMethod σ)) (count : Nat) :
    schedule refreshMethods (count + 1) =
      (refreshMethods.map fun m => m.name) ++ schedule refreshMethods count := by
  simp [schedule, List.replicate_succ]

/-- One attempt, when `clearCache` does not throw: it returns `true` at the
first method that reports success, having invoked the methods before it, none
of which reported success, and nothing after it; otherwise it has invoked
every method, in order, and none reported success. -/
theorem tryMethods_spec {σ : Type} (notesCache : Option (σ → Bool × σ))
    (hcache : ∀ clearCache ∈ notesCache, ∀ page, (clearCache page).1 = false) :
    ∀ (refreshMethods : List (RefreshMethod σ)) (page : σ),
      ((tryMethods notesCache refreshMethods page).1 = true →
        ∃ pre m post fails, refreshMethods = pre ++ m :: post ∧
          invocations (tryMethods notesCache refreshMethods page).2.2 =
            fails ++ [(m.name, MethodOutcome.returned true)] ∧
          fails.map Prod.fst = pre.map (fun m => m.name) ∧
          ∀ e ∈ fails, e.2 ≠ MethodOutcome.returned true) ∧
      ((tryMethods notesCache refreshMethods page).1 = false →
        (invocations (tryMethods notesCache refreshMethods page).2.2).map Prod.fst =
            refreshMethods.map (fun m => m.name) ∧
          ∀ e ∈ invocations (tryMethods notesCache refreshMethods page).2.2,
            e.2 ≠ MethodOutcome.returned true) := by
  intro refreshMethods
  induction refreshMethods with
  | nil =>
    intro page
    simp [tryMethods, invocations]
  | cons m rest ih =>
    intro page
    simp only [tryMethods]
    by_cases hs : (m.method page).1 = MethodOutcome.returned true
    · rw [if_pos hs]
      cases hc : notesCache with
      | none =>
        refine ⟨fun _ => ⟨[], m, rest, [], rfl, ?_, rfl, by simp⟩, fun h => by simp at h⟩
        simp [invocations, hs]
      | some clearCache =>
        have hclear := hcache clearCache (by simp [hc]) (m.method page).2
        simp only [hclear, Bool.false_eq_true, if_false]
        refine ⟨fun _ => ⟨[], m, rest, [], rfl, ?_, rfl, by simp⟩, fun h => by simp at h⟩
        simp [invocations, hs]
    · rw [if_neg hs]
      obtain ⟨ih1, ih2⟩ := ih (m.method page).2
      constructor
      · intro h
        obtain ⟨pre, m2, post, fails, e1, e2, e3, e4⟩ := ih1 h
        refine ⟨m :: pre, m2, post, (m.name, (m.method page).1) :: fails, by simp [e1], ?_, ?_,
          ?_⟩
        · simp [invocations, e2]
        · simp [e3]
        · intro e he
          rcases List.mem_cons.1 he with he | he
          · rw [he]
            exact hs
          · exact e4 e he
      · intro h
        obtain ⟨e1, e2⟩ := ih2 h
        refine ⟨by simp [invocations, e1], ?_⟩
        intro e he
        simp only [invocations, List.mem_cons] at he
        rcases he with he | he
        · rw [he]
          exact hs
        · exact e2 e he

/-- The attempts that remain, when `clearCache` does not throw. -/
theorem attempts_spec {σ : Type} (notesCache : Option (σ → Bool × σ))
    (hcache : ∀ clearCache ∈ notesCache, ∀ page, (clearCache page).1 = false)
    (refreshMethods : List (RefreshMethod σ)) (maxRetries : Nat) :
    ∀ (remaining : Nat) (page : σ),
      (invocations (attempts notesCache refreshMethods maxRetries remaining page).2.2).map
          Prod.fst <+: schedule refreshMethods remaining ∧
      ((attempts notesCache refreshMethods maxRetries remaining page).1 = true →
        ∃ fails name,
          invocations (attempts notesCache refreshMethods maxRetries remaining page).2.2 =
            fails ++ [(name, MethodOutcome.returned true)] ∧
          ∀ e ∈ fails, e.2 ≠ MethodOutcome.returned true) ∧
      ((attempts notesCache refreshMethods maxRetries remaining page).1 = false →
        (invocations (attempts notesCache refreshMethods maxRetries remaining page).2.2).map
            Prod.fst = schedule refreshMethods remaining ∧
          ∀ e ∈ invocations (attempts notesCache refreshMethods maxRetries remaining page).2.2,
            e.2 ≠ MethodOutcome.returned true) := by
  intro remaining
  induction remaining with
  | zero =>
    intro page
    simp [attempts, invocations, schedule]
  | succ remaining ih =>
    intro page
    obtain ⟨t1, t2⟩ := tryMethods_spec notesCache hcache refreshMethods page
    simp only [attempts]
    cases ht : (tryMethods notesCache refreshMethods page).1 with
    | true =>
      simp only [if_true]
      obtain ⟨pre, m, post, fails, e1, e2, e3, e4⟩ := t1 ht
      refine ⟨?_, fun _ => ⟨fails, m.name, e2, e4⟩, fun h => ?_⟩
      · rw [e2, schedule_succ, e1]
        simp only [List.map_append, List.map_cons, List.map_nil, e3, List.append_assoc,
          List.singleton_append]
        exact ⟨post.map (fun m => m.name) ++ schedule (pre ++ m :: post) remaining, by simp⟩
      · rw [ht] at h
        cases h
    | false =>
      simp only [Bool.false_eq_true, if_false]
      obtain ⟨f1, f2⟩ := t2 ht
      obtain ⟨a1, a2, a3⟩ := ih (tryMethods notesCache refreshMethods page).2.1
      have hpause : invocations (if maxRetries - remaining < maxRetries then
          [RefreshEvent.sleep (1000 * (maxRetries - remaining))] else []) = [] := by
        split_ifs <;> rfl
      have hinv : invocations ((tryMethods notesCache refreshMethods page).2.2 ++
          (if maxRetries - remaining < maxRetries then
            [RefreshEvent.sleep (1000 * (maxRetries - remaining))] else []) ++
          (attempts notesCache refreshMethods maxRetries remaining
            (tryMethods notesCache refreshMethods page).2.1).2.2) =
          invocations (tryMethods notesCache refreshMethods page).2.2 ++
            invocations (attempts notesCache refreshMethods maxRetries remaining
              (tryMethods notesCache refreshMethods page).2.1).2.2 := by
        rw [invocations_append, invocations_append, hpause, List.append_nil]
      rw [hinv]
      refine ⟨?_, fun h => ?_, fun h => ?_⟩
      · rw [List.map_append, f1, schedule_succ]
        exact (List.prefix_append_right_inj _).2 a1
      · obtain ⟨fails, name, e1, e2⟩ := a2 h
        refine ⟨invocations (tryMethods notesCache refreshMethods page).2.2 ++ fails, name, ?_,
          ?_⟩
        · rw [e1, List.append_assoc]
        · intro e he
          rcases List.mem_append.1 he with he | he
          · exact f2 e he
          · exact e2 e he
      · obtain ⟨e1, e2⟩ := a3 h
        refine ⟨by rw [List.map_append, f1, e1, schedule_succ], ?_⟩
        intro e he
        rcases List.mem_append.1 he with he | he
        · exact f2 e he
        · exact e2 e he

/-- When `window.notesCache` is undefined or its `clearCache` does not throw,
`refresh` invokes the methods in their registered order, attempt after
attempt: the names it invokes are an initial part of the registered names
repeated `maxRetries` times, and the registered names are `HTMX Trigger`,
`HTMX Ajax`, `Direct Fetch` and `Page Reload`; when it returns `true` the last
thing it invoked is a method that reported success and no method before it had
reported success; when it returns `false` it has invoked every method in each
of the `maxRetries` attempts and none reported success.  A method that throws
is passed over like one that returns a falsy value. -/
theorem refresh_in_order_until_success {σ : Type} (notesCache : Option (σ → Bool × σ))
    (refreshMethods : List (RefreshMethod σ)) (maxRetries : Nat) (page : σ)
    (hcache : ∀ clearCache ∈ notesCache, ∀ page, (clearCache page).1 = false) :
    (invocations (refresh notesCache refreshMethods maxRetries page).2.2).map Prod.fst <+:
      schedule refreshMethods maxRetries ∧
    (∀ (htmxTrigger htmxAjax directFetch : σ → MethodOutcome × σ) (reload : σ → σ),
      (setupMethods htmxTrigger htmxAjax directFetch reload).map (fun m => m.name) =
        ["HTMX Trigger", "HTMX Ajax", "Direct Fetch", "Page Reload"]) ∧
    ((refresh notesCache refreshMethods maxRetries page).1 = true →
      ∃ fails name,
        invocations (refresh notesCache refreshMethods maxRetries page).2.2 =
          fails ++ [(name, MethodOutcome.returned true)] ∧
        ∀ e ∈ fails, e.2 ≠ MethodOutcome.returned true) ∧
    ((refresh notesCache refreshMethods maxRetries page).1 = false →
      (invocations (refresh notesCache refreshMethods maxRetries page).2.2).map Prod.fst =
          schedule refreshMethods maxRetries ∧
        ∀ e ∈ invocations (refresh notesCache refreshMethods maxRetries page).2.2,
          e.2 ≠ MethodOutcome.returned true) ∧
    (∀ (m : RefreshMethod σ) (rest : List (RefreshMethod σ)) (page : σ),
      (m.method page).1 = MethodOutcome.threw →
        tryMethods notesCache (m :: rest) page =
          ((tryMethods notesCache rest (m.method page).2).1,
            (tryMethods notesCache rest (m.method page).2).2.1,
            RefreshEvent.invoked m.name MethodOutcome.threw ::
              (tryMethods notesCache rest (m.method page).2).2.2)) := by
  obtain ⟨a1, a2, a3⟩ := attempts_spec notesCache hcache refreshMethods maxRetries maxRetries page
  refine ⟨a1, fun _ _ _ _ => rfl, a2, a3, ?_⟩
  intro m rest page h
  simp [tryMethods, h]

/-- On a page where `window.notesCache` is undefined, `HTMX Trigger` throws,
`HTMX Ajax` returns `false` and `Direct Fetch` returns `true`: `refresh(3)`
invokes the three in this order, returns `true`, and does not invoke
`Page Reload`. -/
theorem refresh_in_order_until_success_witness :
    (∀ clearCache ∈ (none : Option (Nat → Bool × Nat)), ∀ page, (clearCache page).1 = false) ∧
    refresh none exampleMethods 3 0 =
      (true, 3, [RefreshEvent.invoked "HTMX Trigger" MethodOutcome.threw,
        RefreshEvent.invoked "HTMX Ajax" (MethodOutcome.returned false),
        RefreshEvent.invoked "Direct Fetch" (MethodOutcome.returned true)]) ∧
    (invocations (refresh none exampleMethods 3 0).2.2).map Prod.fst <+:
      schedule exampleMethods 3 :=
  ⟨by simp, by decide,
    (refresh_in_order_until_success none exampleMethods 3 0 (by simp)).1⟩

/-- C23 (the code breaks it): the call `window.notesCache.clearCache()` is
inside the `try` block of the loop.  On a page where `window.notesCache` is
defined and has no method `clearCache`, and each of the four methods reports
success, `refresh(1)` does not return `true` at the first success: the
`TypeError` is caught, the loop goes on, the three later methods are invoked
too, and `refresh` returns `false`. -/
theorem refresh_goes_on_after_success :
    refresh notesCacheWithoutClearCache succeedingMethods 1 0 =
      (false, 103,
        [RefreshEvent.invoked "HTMX Trigger" (MethodOutcome.returned true),
          RefreshEvent.clearCache true,
          RefreshEvent.invoked "HTMX Ajax" (MethodOutcome.returned true),
          RefreshEvent.clearCache true,
          RefreshEvent.invoked "Direct Fetch" (MethodOutcome.returned true),
          RefreshEvent.clearCache true,
          RefreshEvent.invoked "Page Reload" (MethodOutcome.returned true),
          RefreshEvent.clearCache true]) := by
  decide

end NotesRefreshSystem

namespace Security

open JSString Regex

/-! ## C24: what `sanitizeInput` leaves -/

/-- C24 (the code breaks it): each pattern is removed in one pass from left to
right, and what is left of the string is not searched again.  With a
tag-stripping step that returns its input as it is, as it does for text
without markup, `sanitizeInput("javajavascript:script:")` is `javascript:`,
`sanitizeInput("data:text/hdata:text/htmltml")` is `data:text/html`, and
`sanitizeInput("javasonload=cript:")` is `javascript:`, put together by the
later removal of `onload=`.  For a value that is not a string the result is
the empty string. -/
theorem sanitizeInput_leaves_javascript_scheme :
    sanitizeInput (fun input => input) (JSValue.str "javajavascript:script:") =
      "javascript:" ∧
    test javascriptPattern
      (sanitizeInput (fun input => input) (JSValue.str "javajavascript:script:")) = true ∧
    sanitizeInput (fun input => input) (JSValue.str "data:text/hdata:text/htmltml") =
      "data:text/html" ∧
    test dataHtmlPattern
      (sanitizeInput (fun input => input) (JSValue.str "data:text/hdata:text/htmltml")) =
        true ∧
    sanitizeInput (fun input => input) (JSValue.str "javasonload=cript:") = "javascript:" ∧
    ∀ (domPurifySanitize : String → String) (v : JSValue), v.typeOf ≠ "string" →
      sanitizeInput domPurifySanitize v = "" := by
  refine ⟨by decide, by decide, by decide, by decide, by decide, ?_⟩
  intro f v hv
  cases v <;> first | rfl | exact absurd rfl hv

end Security

namespace LegacyPannableNotesWall

open JSNum PannableNotesWall

/-! ## C25: the anchor of the legacy `handleWheel` -/

theorem constructed_scenarioDom_legacy :
    LegacyPannableNotesWall.constructed scenarioDom =
      { state :=
          { isPanning := false, startX := fin 0, startY := fin 0, currentX := fin 0,
            currentY := fin 0, offsetX := fin 0, offsetY := fin 0, scale := fin 1 }
        constraints :=
          { minX := fin (-400), maxX := fin 0, minY := fin (-400), maxY := fin 0,
            minScale := fin (1 / 2), maxScale := fin 3 }
        pinchData := none
        transform := some ⟨fin 0, fin 0, fin 1⟩
        cursor := none } := by
  simp [LegacyPannableNotesWall.constructed, scenarioDom, updateTransform, updateConstraints,
    constrainValue]
  norm_num

theorem pannedWall_eq :
    pannedWall =
      { state :=
          { isPanning := false, startX := fin 200, startY := fin 200, currentX := fin (-100),
            currentY := fin (-100), offsetX := fin (-100), offsetY := fin (-100),
            scale := fin 1 }
        constraints :=
          { minX := fin (-400), maxX := fin 0, minY := fin (-400), maxY := fin 0,
            minScale := fin (1 / 2), maxScale := fin 3 }
        pinchData := none
        transform := some ⟨fin (-100), fin (-100), fin 1⟩
        cursor := some "grab" } := by
  rw [pannedWall, constructed_scenarioDom_legacy]
  simp [startPan, doPan, endPan, scenarioDom, updateTransform, updateConstraints,
    constrainValue]
  norm_num

theorem handleWheel_pannedWall :
    LegacyPannableNotesWall.handleWheel wheelIn scenarioDom pannedWall =
      { state :=
          { isPanning := false, startX := fin 200, startY := fin 200, currentX := fin (-100),
            currentY := fin (-100), offsetX := fin (-100), offsetY := fin (-100),
            scale := fin (11 / 10) }
        constraints :=
          { minX := fin (-520), maxX := fin 0, minY := fin (-500), maxY := fin 0,
            minScale := fin (1 / 2), maxScale := fin 3 }
        pinchData := none
        transform := some ⟨fin (-100), fin (-100), fin (11 / 10)⟩
        cursor := some "grab" } := by
  rw [pannedWall_eq]
  have d1 : fin 500 / fin (11 / 10) = fin (5000 / 11) := by
    rw [fin_div_fin _ (by norm_num)]
    norm_num
  have d2 : fin 400 / fin (11 / 10) = fin (4000 / 11) := by
    rw [fin_div_fin _ (by norm_num)]
    norm_num
  simp [LegacyPannableNotesWall.handleWheel, zoomToPoint, wheelIn, scenarioDom, updateTransform,
    updateConstraints, constrainValue]
  norm_num
  rw [d1, d2]
  simp [fin_div_fin]
  norm_num

/-- C25 (the code breaks it): on the wall of Scenario A under the legacy
controller, at scale `1` and pan `(-100, -100)`, a wheel event at `(400, 300)`
with `deltaY = -100` sets the scale to `1.1`, strictly inside `[0.5, 3.0]`,
and leaves the pan at `(-100, -100)`, strictly inside the pan bounds
`[-520, 0]` and `[-500, 0]`; the canvas-space point under the mouse was
`(500, 400)` before the event and is `(5000/11, 4000/11)` after it, and the
point `(500, 400)` is drawn at `(450, 340)` afterwards, not at `(400, 300)`. -/
theorem handleWheel_anchor_not_kept :
    pannedWall.state.scale = fin 1 ∧
    pannedWall.state.currentX = fin (-100) ∧
    pannedWall.state.currentY = fin (-100) ∧
    (LegacyPannableNotesWall.handleWheel wheelIn scenarioDom pannedWall).state.scale =
      fin (11 / 10) ∧
    pannedWall.state.scale + -fin wheelIn.deltaY * fin (1 / 1000) = fin (11 / 10) ∧
    lt pannedWall.constraints.minScale (fin (11 / 10)) = true ∧
    lt (fin (11 / 10)) pannedWall.constraints.maxScale = true ∧
    (LegacyPannableNotesWall.handleWheel wheelIn scenarioDom pannedWall).state.currentX =
      fin (-100) ∧
    (LegacyPannableNotesWall.handleWheel wheelIn scenarioDom pannedWall).state.currentY =
      fin (-100) ∧
    (LegacyPannableNotesWall.handleWheel wheelIn scenarioDom pannedWall).constraints.minX =
      fin (-520) ∧
    (LegacyPannableNotesWall.handleWheel wheelIn scenarioDom pannedWall).constraints.minY =
      fin (-500) ∧
    (fin wheelIn.clientX - fin scenarioDom.rectLeft - pannedWall.state.currentX) /
      pannedWall.state.scale = fin 500 ∧
    (fin wheelIn.clientY - fin scenarioDom.rectTop - pannedWall.state.currentY) /
      pannedWall.state.scale = fin 400 ∧
    (fin wheelIn.clientX - fin scenarioDom.rectLeft -
        (LegacyPannableNotesWall.handleWheel wheelIn scenarioDom pannedWall).state.currentX) /
      (LegacyPannableNotesWall.handleWheel wheelIn scenarioDom pannedWall).state.scale =
        fin (5000 / 11) ∧
    (fin wheelIn.clientY - fin scenarioDom.rectTop -
        (LegacyPannableNotesWall.handleWheel wheelIn scenarioDom pannedWall).state.currentY) /
      (LegacyPannableNotesWall.handleWheel wheelIn scenarioDom pannedWall).state.scale =
        fin (4000 / 11) ∧
    fin 500 * (LegacyPannableNotesWall.handleWheel wheelIn scenarioDom pannedWall).state.scale +
      (LegacyPannableNotesWall.handleWheel wheelIn scenarioDom pannedWall).state.currentX =
        fin 450 ∧
    fin 400 * (LegacyPannableNotesWall.handleWheel wheelIn scenarioDom pannedWall).state.scale +
      (LegacyPannableNotesWall.handleWheel wheelIn scenarioDom pannedWall).state.currentY =
        fin 340 := by
  have d1 : fin 500 / fin (11 / 10) = fin (5000 / 11) := by
    rw [fin_div_fin _ (by norm_num)]
    norm_num
  have d2 : fin 400 / fin (11 / 10) = fin (4000 / 11) := by
    rw [fin_div_fin _ (by norm_num)]
    norm_num
  rw [handleWheel_pannedWall, pannedWall_eq]
  simp [wheelIn, scenarioDom]
  norm_num
  rw [d1, d2]
  simp [fin_div_fin]

/-! ## C26: the first pinch update under the legacy controller -/

/-- C26 (the code breaks it): under the legacy controller the pinch baseline
lives in `state.startX`, which `startPan` also writes and which `touchend`
does not clear.  On a freshly constructed controller, after a one-finger
`touchstart` at `(300, 200)` has begun a drag, the first two-finger
`touchmove` (fingers `100` apart) finds `startX = 300`, takes it for the
baseline and sets the scale to `0.5`; and after a completed pinch gesture that
left the scale at `2` and `startX = 200`, the first `touchmove` of the next
gesture (fingers `100` apart) sets the scale to `1`. -/
theorem first_pinch_update_changes_scale (sqrt : ℚ → ℚ) (h1 : sqrt 10000 = 100)
    (h2 : sqrt 40000 = 200) (dom : Dom) :
    (LegacyPannableNotesWall.constructed dom).state.scale = fin 1 ∧
    (PannableNotesWall.handleTouchStart ⟨[⟨300, 200⟩], false, false⟩
      (LegacyPannableNotesWall.constructed dom)).state.startX = fin 300 ∧
    (pinchAfterDragStart sqrt dom (LegacyPannableNotesWall.constructed dom)).state.scale =
      fin (1 / 2) ∧
    (completedPinch sqrt dom (LegacyPannableNotesWall.constructed dom)).state.scale = fin 2 ∧
    (completedPinch sqrt dom (LegacyPannableNotesWall.constructed dom)).state.startX =
      fin 200 ∧
    (nextPinchFirstMove sqrt dom
      (completedPinch sqrt dom (LegacyPannableNotesWall.constructed dom))).state.scale =
        fin 1 := by
  have e1 : ((350 : ℚ) - 250) ^ 2 + (200 - 200) ^ 2 = 10000 := by norm_num
  have e2 : ((400 : ℚ) - 200) ^ 2 + (200 - 200) ^ 2 = 40000 := by norm_num
  have d1 : fin 100 / fin 300 = fin (1 / 3) := by
    rw [fin_div_fin _ (by norm_num)]
    norm_num
  have d2 : fin 200 / fin 100 = fin 2 := by
    rw [fin_div_fin _ (by norm_num)]
    norm_num
  have d3 : fin 100 / fin 200 = fin (1 / 2) := by
    rw [fin_div_fin _ (by norm_num)]
    norm_num
  refine ⟨rfl, ?_, ?_, ?_, ?_, ?_⟩
  · simp [PannableNotesWall.handleTouchStart, startPan, LegacyPannableNotesWall.constructed,
      updateTransform, updateConstraints]
  · simp only [pinchAfterDragStart, LegacyPannableNotesWall.handleTouchMove,
      LegacyPannableNotesWall.handlePinchZoom, e1, h1]
    simp [PannableNotesWall.handleTouchStart, startPan, LegacyPannableNotesWall.constructed,
      zoomToPoint, updateTransform, updateConstraints, constrainValue, truthy, d1]
    norm_num
  · simp only [completedPinch, LegacyPannableNotesWall.handleTouchMove,
      LegacyPannableNotesWall.handlePinchZoom, e1, e2, h1, h2]
    simp [PannableNotesWall.handleTouchStart, endPan, LegacyPannableNotesWall.constructed,
      zoomToPoint, updateTransform, updateConstraints, constrainValue, truthy, d2]
    norm_num
  · simp only [completedPinch, LegacyPannableNotesWall.handleTouchMove,
      LegacyPannableNotesWall.handlePinchZoom, e1, e2, h1, h2]
    simp [PannableNotesWall.handleTouchStart, endPan, LegacyPannableNotesWall.constructed,
      zoomToPoint, updateTransform, updateConstraints, constrainValue, truthy, d2]
  · simp only [nextPinchFirstMove, completedPinch, LegacyPannableNotesWall.handleTouchMove,
      LegacyPannableNotesWall.handlePinchZoom, e1, e2, h1, h2]
    simp [PannableNotesWall.handleTouchStart, endPan, LegacyPannableNotesWall.constructed,
      zoomToPoint, updateTransform, updateConstraints, constrainValue, truthy, d2, d3]
    norm_num

/-- C26, with the square root of the rationals. -/
theorem first_pinch_update_changes_scale_witness :
    Rat.sqrt 10000 = 100 ∧ Rat.sqrt 40000 = 200 ∧
    (pinchAfterDragStart Rat.sqrt scenarioDom
      (LegacyPannableNotesWall.constructed scenarioDom)).state.scale = fin (1 / 2) ∧
    (nextPinchFirstMove Rat.sqrt scenarioDom
      (completedPinch Rat.sqrt scenarioDom
        (LegacyPannableNotesWall.constructed scenarioDom))).state.scale = fin 1 :=
  ⟨sqrt_10000, sqrt_40000,
    (first_pinch_update_changes_scale Rat.sqrt sqrt_10000 sqrt_40000 scenarioDom).2.2.1,
    (first_pinch_update_changes_scale Rat.sqrt sqrt_10000 sqrt_40000
      scenarioDom).2.2.2.2.2⟩

end LegacyPannableNotesWall

namespace PannableNotesWall

open JSNum

/-! ## C27: a drag overwrites the pan -/

/-- Neither `zoomAtPoint` nor `resetView` writes `isPanning`, `startX` or
`startY`. -/
theorem zoomAtPoint_drag_fields (mouseX mouseY zoomDelta : JSNum) (dom : Dom)
    (w : PannableNotesWall) :
    (zoomAtPoint mouseX mouseY zoomDelta dom w).state.isPanning = w.state.isPanning ∧
    (zoomAtPoint mouseX mouseY zoomDelta dom w).state.startX = w.state.startX ∧
    (zoomAtPoint mouseX mouseY zoomDelta dom w).state.startY = w.state.startY := by
  simp only [zoomAtPoint]
  split_ifs
  · exact ⟨rfl, rfl, rfl⟩
  · exact ⟨rfl, rfl, rfl⟩

/-- While a drag is in progress, `doPan` does not read the pan or the committed
pan: replacing them beforehand changes nothing but the committed pan, which
`doPan` passes on. -/
theorem doPan_withPan (e : TouchEventLike) (dom : Dom) (w : PannableNotesWall)
    (h : w.state.isPanning = true) (x y ox oy : JSNum) :
    doPan e dom (withPan x y ox oy w) = withCommittedPan ox oy (doPan e dom w) := by
  simp [doPan, withPan, withCommittedPan, h, updateTransform, updateConstraints]

/-- C27: while a drag is in progress (`isPanning` is true), the state `doPan`
produces is a function of the pointer position, the drag anchor
`(startX, startY)`, the scale, the geometry and the stored bounds: the pan is
the pointer minus the anchor, clamped to the stored and then to the recomputed
bounds; replacing the pan and the committed pan before the call changes nothing
in the result but the committed pan, which `doPan` passes on as it is.
`zoomAtPoint` and `resetView` write neither the drag anchor nor `isPanning`,
so the pan either of them wrote between `startPan` and the next `doPan` is
overwritten by that `doPan`. -/
theorem doPan_discards_pan_changes (e : TouchEventLike) (dom dom2 : Dom)
    (w : PannableNotesWall) (h : w.state.isPanning = true) :
    (∀ x y ox oy : JSNum,
      doPan e dom (withPan x y ox oy w) = withCommittedPan ox oy (doPan e dom w)) ∧
    (doPan e dom w).state.currentX =
      constrainValue
        (constrainValue (fin e.clientX - w.state.startX) w.constraints.minX w.constraints.maxX)
        (jsMin (fin 0) (-(fin dom.offsetWidth * w.state.scale - fin dom.rectWidth))) (fin 0) ∧
    (doPan e dom w).state.currentY =
      constrainValue
        (constrainValue (fin e.clientY - w.state.startY) w.constraints.minY w.constraints.maxY)
        (jsMin (fin 0) (-(fin dom.offsetHeight * w.state.scale - fin dom.rectHeight)))
        (fin 0) ∧
    (doPan e dom w).state.offsetX = w.state.offsetX ∧
    (doPan e dom w).state.offsetY = w.state.offsetY ∧
    (∀ mouseX mouseY zoomDelta : JSNum,
      (zoomAtPoint mouseX mouseY zoomDelta dom2 w).state.isPanning = true ∧
      (zoomAtPoint mouseX mouseY zoomDelta dom2 w).state.startX = w.state.startX ∧
      (zoomAtPoint mouseX mouseY zoomDelta dom2 w).state.startY = w.state.startY ∧
      ∀ x y ox oy : JSNum,
        doPan e dom (withPan x y ox oy (zoomAtPoint mouseX mouseY zoomDelta dom2 w)) =
          withCommittedPan ox oy (doPan e dom (zoomAtPoint mouseX mouseY zoomDelta dom2 w))) ∧
    (resetView dom2 w).state.isPanning = true ∧
    (resetView dom2 w).state.startX = w.state.startX ∧
    (resetView dom2 w).state.startY = w.state.startY ∧
    ∀ x y ox oy : JSNum,
      doPan e dom (withPan x y ox oy (resetView dom2 w)) =
        withCommittedPan ox oy (doPan e dom (resetView dom2 w)) := by
  have hr : (resetView dom2 w).state.isPanning = true := by
    simpa [resetView, updateTransform, updateConstraints] using h
  refine ⟨doPan_withPan e dom w h, ?_, ?_, ?_, ?_, ?_, hr, rfl, rfl,
    doPan_withPan e dom _ hr⟩
  · rw [doPan_of_isPanning e dom w h]
    rfl
  · rw [doPan_of_isPanning e dom w h]
    rfl
  · rw [doPan_of_isPanning e dom w h]
    rfl
  · rw [doPan_of_isPanning e dom w h]
    rfl
  · intro mouseX mouseY zoomDelta
    have hz := zoomAtPoint_drag_fields mouseX mouseY zoomDelta dom2 w
    exact ⟨hz.1.trans h, hz.2.1, hz.2.2, doPan_withPan e dom _ (hz.1.trans h)⟩

/-- C27, on the wall of Scenario A with a drag begun at `(500, 300)`: the view
is reset and the pointer then moves to `(450, 280)`; the pan is the pointer
minus the anchor, `(-50, -20)`, whatever pan the reset wrote. -/
theorem doPan_discards_pan_changes_witness :
    pressedSmallCanvasWall.state.isPanning = true ∧
    (doPan ⟨450, 280, false, false⟩ smallCanvasDom
      (resetView smallCanvasDom pressedSmallCanvasWall)).state.currentX = fin (-50) ∧
    ∀ x y ox oy : JSNum,
      doPan ⟨450, 280, false, false⟩ smallCanvasDom
          (withPan x y ox oy (resetView smallCanvasDom pressedSmallCanvasWall)) =
        withCommittedPan ox oy
          (doPan ⟨450, 280, false, false⟩ smallCanvasDom
            (resetView smallCanvasDom pressedSmallCanvasWall)) := by
  refine ⟨by simp [pressedSmallCanvasWall, startPan], ?_,
    (doPan_discards_pan_changes ⟨450, 280, false, false⟩ smallCanvasDom smallCanvasDom
      pressedSmallCanvasWall (by simp [pressedSmallCanvasWall, startPan])).2.2.2.2.2.2.2.2.2⟩
  simp [pressedSmallCanvasWall, startPan, doPan, resetView, constructed, updateTransform,
    updateConstraints, constrainValue, smallCanvasDom]
  norm_num

/-! ## C28: the registry after a failed initialisation -/

/-- C28: when the registry holds an instance for a selector and the selector no
longer matches an element, `initPannableNotesWall` (of `src/pannable.js`, off
the index-page guard, and of `src/static/pannable.js`) returns normally, warns
on the console, and leaves the registry without an entry for that selector,
the old instance having been deleted before the constructor threw; the entries
of all other selectors are unchanged. -/
theorem initPannableNotesWall_failure_drops_entry (pathname : String)
    (querySelector : String → Except String (Option Dom)) (wallSelector : String)
    (pannableInstances : Registry)
    (hg : ¬ (pathname = "/" ∧ wallSelector = "#recent-messages"))
    (hhas : pannableInstances.has wallSelector = true)
    (hq : querySelector wallSelector = Except.ok none) :
    (∃ result calls,
      initPannableNotesWall pathname querySelector wallSelector pannableInstances =
        Except.ok (result, calls) ∧
      calls = [ConsoleCall.warn
        ["Failed to initialize pannable notes wall for " ++ wallSelector ++ ":",
          "Notes wall element not found: " ++ wallSelector]] ∧
      result.has wallSelector = false ∧
      ∀ other, other ≠ wallSelector → result other = pannableInstances other) ∧
    ∃ result calls,
      LegacyPannableNotesWall.initPannableNotesWall querySelector wallSelector
        pannableInstances = Except.ok (result, calls) ∧
      calls = [ConsoleCall.warn
        ["Failed to initialize pannable notes wall for " ++ wallSelector ++ ":",
          "Notes wall element not found: " ++ wallSelector]] ∧
      result.has wallSelector = false ∧
      ∀ other, other ≠ wallSelector → result other = pannableInstances other := by
  constructor
  · refine ⟨pannableInstances.delete wallSelector, _, ?_, rfl, ?_, ?_⟩
    · simp [initPannableNotesWall, hg, hhas, construct, hq]
    · simp [Registry.has, Registry.delete]
    · intro other ho
      simp [Registry.delete, ho]
  · refine ⟨pannableInstances.delete wallSelector, _, ?_, rfl, ?_, ?_⟩
    · simp [LegacyPannableNotesWall.initPannableNotesWall, hhas,
        LegacyPannableNotesWall.construct, hq]
    · simp [Registry.has, Registry.delete]
    · intro other ho
      simp [Registry.delete, ho]

/-- C28, on the page `/write-note`: the registry holds the dragged wall for
`#gone`, which matches no element any more; afterwards it holds nothing for
`#gone`. -/
theorem initPannableNotesWall_failure_drops_entry_witness :
    ¬ (("/write-note" : String) = "/" ∧ ("#gone" : String) = "#recent-messages") ∧
    (exampleRegistry.set "#gone" draggedWall).has "#gone" = true ∧
    exampleQuerySelector "#gone" = Except.ok none ∧
    ∃ result calls,
      initPannableNotesWall "/write-note" exampleQuerySelector "#gone"
        (exampleRegistry.set "#gone" draggedWall) = Except.ok (result, calls) ∧
      calls = [ConsoleCall.warn
        ["Failed to initialize pannable notes wall for " ++ "#gone" ++ ":",
          "Notes wall element not found: " ++ "#gone"]] ∧
      result.has "#gone" = false ∧
      ∀ other, other ≠ "#gone" →
        result other = (exampleRegistry.set "#gone" draggedWall) other :=
  ⟨by simp, by simp [Registry.has, Registry.set], by simp [exampleQuerySelector],
    (initPannableNotesWall_failure_drops_entry "/write-note" exampleQuerySelector "#gone"
      (exampleRegistry.set "#gone" draggedWall) (by simp)
      (by simp [Registry.has, Registry.set]) (by simp [exampleQuerySelector])).1⟩

/-! ## C29: the divisors of the zoom code -/

/-- In every state reachable from construction the scale, which is the divisor
`oldScale` of `zoomAtPoint` and the divisor `state.scale` of `handlePinchZoom`,
is not zero. -/
theorem run_scale_ne_zero (sqrt : ℚ → ℚ) (dom : Dom) (ops : List Op) :
    (run sqrt ops (constructed dom)).state.scale ≠ fin 0 := by
  have key : ∀ (l : List Op) (w : PannableNotesWall),
      (w.constraints.minScale = fin (8 / 10) ∧ w.constraints.maxScale = fin 2 ∧
        (w.state.scale = nan ∨ scaleWithinBounds w = true)) →
      (run sqrt l w).state.scale ≠ fin 0 := by
    intro l
    induction l with
    | nil =>
      intro w h h0
      simp only [run, List.foldl] at h0
      rcases h.2.2 with hn | hb
      · rw [h0] at hn
        cases hn
      · simp [scaleWithinBounds, h.1, h.2.1, h0] at hb
        norm_num at hb
    | cons op l ih =>
      intro w h
      exact ih (step sqrt w op) (step_scale_nan_or_within sqrt w op h)
  refine key ops (constructed dom) ⟨rfl, rfl, Or.inr ?_⟩
  simp [scaleWithinBounds, constructed, updateTransform, updateConstraints]
  norm_num

/-- C29 (the code breaks it): on a freshly constructed controller, a
`handlePinchZoom` call whose two touches coincide records the baseline
`initialDistance = 0`, so the next `handlePinchZoom` call with two touches
divides the distance by zero; when those touches coincide too the quotient is
`0 / 0`, which is NaN, and the scale is NaN afterwards.  The other two
divisors, `oldScale` in `zoomAtPoint` and `state.scale` in `handlePinchZoom`,
are the scale, which is not zero in any state reachable from construction. -/
theorem pinch_baseline_divisor_zero (sqrt : ℚ → ℚ) (h0 : sqrt 0 = 0) (dom : Dom) (t : Touch) :
    pinchDivisor (run sqrt [Op.handlePinchZoom ⟨[t, t], false, false⟩ dom] (constructed dom)) =
      some (fin 0) ∧
    fin (touchDistance sqrt t t) / fin 0 = nan ∧
    (run sqrt (coincidentPinches t dom) (constructed dom)).state.scale = nan ∧
    ∀ ops : List Op, (run sqrt ops (constructed dom)).state.scale ≠ fin 0 := by
  refine ⟨?_, ?_, ?_, run_scale_ne_zero sqrt dom⟩
  · simp [pinchDivisor, run, step, handlePinchZoom, h0, constructed, updateTransform,
      updateConstraints]
  · simp [touchDistance, h0]
  · rw [run_coincidentPinches sqrt h0 dom t]

/-- C29, at the wall of Scenario A with both touches at `(100, 100)`. -/
theorem pinch_baseline_divisor_zero_witness :
    Rat.sqrt 0 = 0 ∧
    pinchDivisor
      (run Rat.sqrt [Op.handlePinchZoom ⟨[⟨100, 100⟩, ⟨100, 100⟩], false, false⟩ scenarioDom]
        (constructed scenarioDom)) = some (fin 0) :=
  ⟨by simp, (pinch_baseline_divisor_zero Rat.sqrt (by simp) scenarioDom ⟨100, 100⟩).1⟩

end PannableNotesWall

namespace DoublePannableNotesWall

open JSDouble

/-! ## C3, C7 and C13 in double precision -/

set_option maxRecDepth 100000

/-- The anchor of `zoomAtPoint` in double precision: on the freshly constructed
wall of Scenario A, `zoomAtPoint(0, 250, 0.1)` leaves the scale at `1.1` and the
pan on the y axis at `-25`, within the bounds `[-500, 0]`; the canvas-space
point under the anchor was `250` and is `249.99999999999997` afterwards. -/
theorem zoomAtPoint_anchor_rounded :
    (constructed scenarioDom).state.scale = ofInt 1 ∧
    (constructed scenarioDom).state.currentY = ofInt 0 ∧
    div (sub (ofInt 250) (constructed scenarioDom).state.currentY)
      (constructed scenarioDom).state.scale = ofInt 250 ∧
    (zoomAtPoint (ofInt 0) (ofInt 250) (ofFraction 1 10) scenarioDom
      (constructed scenarioDom)).state.scale = ofFraction 11 10 ∧
    (zoomAtPoint (ofInt 0) (ofInt 250) (ofFraction 1 10) scenarioDom
      (constructed scenarioDom)).state.currentY = ofInt (-25) ∧
    (zoomAtPoint (ofInt 0) (ofInt 250) (ofFraction 1 10) scenarioDom
      (constructed scenarioDom)).constraints.minY = ofInt (-500) ∧
    div (sub (ofInt 250) (zoomAtPoint (ofInt 0) (ofInt 250) (ofFraction 1 10) scenarioDom
        (constructed scenarioDom)).state.currentY)
      (zoomAtPoint (ofInt 0) (ofInt 250) (ofFraction 1 10) scenarioDom
        (constructed scenarioDom)).state.scale = fin 8796093022207999 (-45) ∧
    lt (fin 8796093022207999 (-45)) (ofInt 250) = true := by
  decide

/-- C7 (as stated, it fails): in double precision, on the freshly constructed
wall of Scenario A, a pinch gesture with the touches `100` apart (the baseline,
at scale `1`), then `110` apart, then `130` apart leaves the scale at
`1.2999999999999998`, which is not `clamp(1 * 130 / 100, 0.8, 2.0) = 1.3`: the
scale is computed as `scale * (1 + delta)` from the scale `1.1` of the call
before, and the roundings do not cancel. -/
theorem pinch_scale_off_by_rounding :
    (handlePinchZoom [touchAt 100 100, touchAt 200 100] scenarioDom
      (constructed scenarioDom)).pinchData = some ⟨ofInt 100, ofInt 1⟩ ∧
    (handlePinchZoom [touchAt 95 100, touchAt 205 100] scenarioDom
      (handlePinchZoom [touchAt 100 100, touchAt 200 100] scenarioDom
        (constructed scenarioDom))).state.scale = ofFraction 11 10 ∧
    pinchedTwice.pinchData = some ⟨ofInt 100, ofInt 1⟩ ∧
    pinchedTwice.constraints.minScale = ofFraction 8 10 ∧
    pinchedTwice.constraints.maxScale = ofInt 2 ∧
    constrainValue (mul (ofInt 1) (div (ofInt 130) (ofInt 100))) (ofFraction 8 10) (ofInt 2) =
      ofFraction 13 10 ∧
    ofFraction 13 10 = fin 5854679515581645 (-52) ∧
    pinchedTwice.state.scale = fin 1463669878895411 (-50) ∧
    pinchedTwice.state.scale ≠
      constrainValue (mul (ofInt 1) (div (ofInt 130) (ofInt 100))) (ofFraction 8 10) (ofInt 2) ∧
    lt pinchedTwice.state.scale (ofFraction 13 10) = true := by
  decide

/-- C13 (as stated, it fails): in double precision, on the wall of Scenario A
dragged from `(100.3, 100)` to `(100, 100)`, the pan on the x axis is
`-0.29999999999999716`; the drag ends, a new drag begins at `(650, 300)`, where
the anchor `650 - pan` is rounded to `650.3`, and continues at `(650, 300)`
under the same geometry: the pan is `-0.2999999999999545`, and the rendered
transform has changed with it. -/
theorem restarted_drag_moves_pan :
    draggedByFraction.state.isPanning = true ∧
    draggedByFraction.state.currentX = fin (-21110623253299) (-46) ∧
    updateTransform scenarioDom draggedByFraction = draggedByFraction ∧
    (endPan draggedByFraction).state.offsetX = draggedByFraction.state.currentX ∧
    (startPan ⟨ofInt 650, ofInt 300, false, false⟩
      (endPan draggedByFraction)).state.startX = fin 2860049646170931 (-42) ∧
    (doPan ⟨ofInt 650, ofInt 300, false, false⟩ scenarioDom
      (startPan ⟨ofInt 650, ofInt 300, false, false⟩
        (endPan draggedByFraction))).state.currentX = fin (-1319413953331) (-42) ∧
    (doPan ⟨ofInt 650, ofInt 300, false, false⟩ scenarioDom
      (startPan ⟨ofInt 650, ofInt 300, false, false⟩
        (endPan draggedByFraction))).state.currentX ≠ draggedByFraction.state.currentX ∧
    (doPan ⟨ofInt 650, ofInt 300, false, false⟩ scenarioDom
      (startPan ⟨ofInt 650, ofInt 300, false, false⟩
        (endPan draggedByFraction))).transform ≠ draggedByFraction.transform := by
  decide

end DoublePannableNotesWall
